import Mathlib

set_option autoImplicit false

/-!
# ASC authentication system: trust-decision pipeline

Shallow embedding of the JavaScript sources

* `api/nucleo/motor-asc.js` (MotorASC: tokens, passwords),
* `src/seguranca/fingerprint-dispositivo.js` (FingerprintDispositivo),
* `api/seguranca/detector-anomalias.js` (DetectorAnomalias),
* `api/seguranca/sistema-honeypot.js` (SistemaHoneypot),
* `api/adaptadores/AdaptadorMemoria.js` (AdaptadorMemoria),
* `api/servicos/ServicoAutenticacao.js` (ServicoAutenticacao),
* `src/middlewares/autenticacao.js` (MiddlewareAutenticacao),
* `api/asc-simples.js` (ASCSimples: `registrar`, `login`, `renovarToken`).

Conventions.

* Mutable objects (the adapter, the service, the two process-wide singletons)
  are fields of one `Estado`; every method takes a state and returns the new
  state together with `Except String α`, the string being the message of the
  thrown `Error`.
* JavaScript `Map`s are insertion-ordered association lists.
* Instants (`Date`, `Date.now()`) are natural numbers of milliseconds.
* JavaScript numbers in the scoring code are doubles: a finite one is the
  rational it stands for, every arithmetic operation is the exact operation
  followed by `arredondar` (round to nearest, ties to even), and a literal such
  as `0.7` is `arredondar (7 / 10)`. The exponent range is not bounded above:
  the values of the scoring code (hours, distances on the globe, their sums
  over a history) stay far below `2 ^ 1024`.
* Values that the code draws at random (UUIDs, salts) and clock readings are
  explicit arguments of a call (`Chamada`).
* External library calls are modelled symbolically: a JWT is the record of its
  claims together with the key that signed it, a bcrypt hash is the record of
  the password and salt it was computed from (two passwords under one salt give
  the same digest exactly when bcrypt derives the same 72-byte key from them),
  the SHA-256 fingerprint is the component record that the JSON text it
  digests determines.
* The numbers of the honeypot (`parseInt` of the timestamp, the elapsed time)
  are integer-valued doubles, infinities or NaN (`NumeroInteiro`); the rounding
  of an integer to a double is computed on integers (`arredondarNatural`) and
  agrees with `arredondar`. For a timestamp of more than 20 digits the language
  leaves the rounding of `parseInt` to the implementation; the model rounds the
  exact integer.
* The memory adapter rejects a call only for an unknown id; where the behaviour
  of the service on a store that is unavailable matters, the store is the
  memory adapter with a table (`Falhas`) of the methods that reject, and the
  service methods over it carry the suffix `Com`. With the empty table they are
  the plain methods.
-/

namespace ASC

/-! ## JavaScript numbers -/

/-- A JavaScript number as the scoring code sees it: `none` is `NaN`,
`some q` is the double whose value is the rational `q`. The infinities are not
values of this type: the one quotient that can be infinite, the speed of
`viagemImpossivel`, is compared in place. -/
abbrev Numero := Option ℚ

/-- Number of halvings that take `n` below 2, at most `passos` of them. -/
def contarMetades : Nat → Nat → Nat
  | 0, _ => 0
  | passos + 1, n => if n < 2 then 0 else contarMetades passos (n / 2) + 1

/-- The floor of the binary logarithm of a positive natural number. -/
def logaritmoBinario (n : Nat) : Nat := contarMetades n n

/-- The power `2 ^ k` for an integer exponent. -/
def doisElevado (k : Int) : ℚ :=
  if 0 ≤ k then ((2 ^ k.toNat : Nat) : ℚ) else 1 / ((2 ^ (-k).toNat : Nat) : ℚ)

/-- The binary exponent of a positive rational: the `e` with
`2 ^ e ≤ q < 2 ^ (e + 1)`. -/
def expoenteBinario (q : ℚ) : Int :=
  let e : Int := (logaritmoBinario q.num.natAbs : Int) - (logaritmoBinario q.den : Int)
  if doisElevado e ≤ q then e else e - 1

/-- The integer nearest to a rational, a tie going to the even one. -/
def inteiroMaisProximo (m : ℚ) : Int :=
  let f : Int := ⌊m⌋
  let r : ℚ := m - (f : ℚ)
  if r < 1 / 2 then f
  else if 1 / 2 < r then f + 1
  else if f % 2 = 0 then f else f + 1

/-- The double nearest to a rational: 53 significant bits, ties to even,
gradual underflow below `2 ^ (-1022)`. -/
def arredondar (q : ℚ) : ℚ :=
  if q = 0 then 0
  else
    let k : Int := max (expoenteBinario |q| - 52) (-1074)
    (inteiroMaisProximo (q / doisElevado k) : ℚ) * doisElevado k

/-- Addition `a + b` of numbers: the sum rounded to a double, NaN absorbing. -/
def Numero.soma (a b : Numero) : Numero :=
  match a, b with
  | some x, some y => some (arredondar (x + y))
  | _, _ => none

/-- Division `a / n` by a positive count: the quotient rounded to a double. -/
def Numero.dividir (a : Numero) (n : Nat) : Numero :=
  a.map (fun x => arredondar (x / (n : ℚ)))

/-- The call `Math.min(a, b)`: NaN if either argument is NaN. -/
def Numero.minimo (a b : Numero) : Numero :=
  match a, b with
  | some x, some y => some (min x y)
  | _, _ => none

/-- Comparison `a < b`: false whenever an operand is NaN. -/
def Numero.menor (a b : Numero) : Bool :=
  match a, b with
  | some x, some y => decide (x < y)
  | _, _ => false

/-- Comparison `a > b`: false whenever an operand is NaN. -/
def Numero.maior (a b : Numero) : Bool :=
  match a, b with
  | some x, some y => decide (y < x)
  | _, _ => false

/-- A JavaScript number whose value is an integer, an infinity or NaN: what
`parseInt` returns and what subtracting it from a clock reading gives. The
integer of `finito` is the exact value of the double. -/
inductive NumeroInteiro where
  | nan
  | infinito (negativo : Bool)
  | finito (n : Int)
  deriving DecidableEq, Repr

/-- The double nearest to a natural number, ties to even: the numbers below
`2 ^ 53` are doubles, a larger one keeps its 53 leading bits. -/
def arredondarNatural (n : Nat) : Nat :=
  let e := logaritmoBinario n
  if e ≤ 52 then n
  else
    let passo := 2 ^ (e - 52)
    let m := n / passo
    let resto := n % passo
    if 2 * resto < passo then m * passo
    else if passo < 2 * resto then (m + 1) * passo
    else if m % 2 = 0 then m * passo else (m + 1) * passo

/-- The power `2 ^ 1024`, the least magnitude that no double reaches. -/
def limiteDosDuplos : Nat := 2 ^ 256 * 2 ^ 256 * 2 ^ 256 * 2 ^ 256

/-- The number that stands for a mathematical integer: the nearest double,
an infinity when that is `2 ^ 1024` or more. -/
def duploDeInteiro (n : Int) : NumeroInteiro :=
  let v := arredondarNatural n.natAbs
  if limiteDosDuplos ≤ v then .infinito (decide (n < 0))
  else .finito (if n < 0 then - (v : Int) else (v : Int))

/-- The white space and line terminators that `parseInt` skips. -/
def espacoEmBranco (c : Char) : Bool :=
  let v := c.toNat
  v = 0x9 || v = 0xA || v = 0xB || v = 0xC || v = 0xD || v = 0x20 || v = 0xA0 || v = 0x1680
    || (0x2000 ≤ v && v ≤ 0x200A) || v = 0x2028 || v = 0x2029 || v = 0x202F || v = 0x205F
    || v = 0x3000 || v = 0xFEFF

/-- Value of a character as a digit: `0`-`9`, then the letters from 10 on. -/
def valorDigito (c : Char) : Option Nat :=
  if '0' ≤ c ∧ c ≤ '9' then some (c.toNat - '0'.toNat)
  else if 'a' ≤ c ∧ c ≤ 'z' then some (c.toNat - 'a'.toNat + 10)
  else if 'A' ≤ c ∧ c ≤ 'Z' then some (c.toNat - 'A'.toNat + 10)
  else none

/-- The call `parseInt(s)` without a radix: leading white space, an optional
sign, the prefix `0x` or `0X` for radix 16, then the longest run of digits of
the radix; the result is the double nearest to the integer they denote, NaN
if there is no digit. -/
def parseInt (s : String) : NumeroInteiro :=
  let cs := s.toList.dropWhile espacoEmBranco
  let (negativo, resto) :=
    match cs with
    | '-' :: r => (true, r)
    | '+' :: r => (false, r)
    | r => (false, r)
  let (base, corpo) : Nat × List Char :=
    match resto with
    | '0' :: 'x' :: r => (16, r)
    | '0' :: 'X' :: r => (16, r)
    | r => (10, r)
  let digitos := (corpo.map valorDigito).takeWhile
    (fun v => match v with
      | some d => decide (d < base)
      | none => false)
  if digitos.isEmpty then .nan
  else
    let n : Nat := digitos.foldl (fun acc v => base * acc + v.getD 0) 0
    duploDeInteiro (if negativo then - (n : Int) else (n : Int))

/-- The difference `agora - p` of a clock reading and a number. -/
def NumeroInteiro.subtrairDe (agora : Nat) (p : NumeroInteiro) : NumeroInteiro :=
  match p with
  | .nan => .nan
  | .infinito negativo => .infinito (!negativo)
  | .finito n => duploDeInteiro ((agora : Int) - n)

/-- The comparison `a < b` with an integer literal: false for NaN. -/
def NumeroInteiro.menor (a : NumeroInteiro) (b : Int) : Bool :=
  match a with
  | .nan => false
  | .infinito negativo => negativo
  | .finito n => decide (n < b)

/-- The decimal of `k` significant digits nearest to the double `x` (which has
`d` digits) that still converts to `x`, if there is one. -/
def candidatoCurto (x d k : Nat) : Option Nat :=
  let p := 10 ^ (d - k)
  let v0 := (x / p) * p
  let v1 := (x / p + 1) * p
  let serve0 := decide (duploDeInteiro v0 = .finito x)
  let serve1 := decide (duploDeInteiro v1 = .finito x)
  if serve0 && serve1 then
    if x - v0 < v1 - x then some v0
    else if v1 - x < x - v0 then some v1
    else if (x / p) % 2 = 0 then some v0 else some v1
  else if serve0 then some v0
  else if serve1 then some v1
  else none

/-- The integer with the fewest significant digits that converts to the double
`x`, which is what the conversion of a number to a string prints. -/
def valorMaisCurto (x : Nat) : Nat :=
  let d := (Nat.repr x).length
  (((List.range d).map (· + 1)).findSome? (candidatoCurto x d)).getD x

/-- The string of a non-negative integer-valued double: all the digits below
`10 ^ 21`, exponent notation from there on. -/
def textoDoNatural (x : Nat) : String :=
  let v := valorMaisCurto x
  if v < 10 ^ 21 then Nat.repr v
  else
    let ds := (Nat.repr v).toList
    let significativos := (ds.reverse.dropWhile (fun c => c = '0')).reverse
    match significativos with
    | [] => "0"
    | [c] => String.mk [c] ++ "e+" ++ Nat.repr (ds.length - 1)
    | c :: r => String.mk (c :: '.' :: r) ++ "e+" ++ Nat.repr (ds.length - 1)

/-- The conversion of a number to a string, as in a template literal. -/
def numeroParaTexto (a : NumeroInteiro) : String :=
  match a with
  | .nan => "NaN"
  | .infinito negativo => if negativo then "-Infinity" else "Infinity"
  | .finito n => (if n < 0 then "-" else "") ++ textoDoNatural n.natAbs

/-! ## Insertion-ordered maps -/

/-- The call `Map.prototype.get`. -/
def mapaGet {α : Type} (m : List (String × α)) (k : String) : Option α :=
  match m with
  | [] => none
  | (k', v) :: resto => if k' = k then some v else mapaGet resto k

/-- The call `Map.prototype.has`. -/
def mapaHas {α : Type} (m : List (String × α)) (k : String) : Bool :=
  (mapaGet m k).isSome

/-- The call `Map.prototype.set`: an existing key keeps its position, a new
key goes to the end. -/
def mapaSet {α : Type} (m : List (String × α)) (k : String) (v : α) : List (String × α) :=
  match m with
  | [] => [(k, v)]
  | (k', v') :: resto => if k' = k then (k, v) :: resto else (k', v') :: mapaSet resto k v

/-- The call `Map.prototype.delete`. -/
def mapaDelete {α : Type} (m : List (String × α)) (k : String) : List (String × α) :=
  m.filter (fun p => decide (p.1 ≠ k))

/-- The call `Set.prototype.add` on an insertion-ordered set. -/
def conjuntoAdd {α : Type} [DecidableEq α] (c : List α) (x : α) : List α :=
  if x ∈ c then c else c ++ [x]

/-! ## Fingerprints -/

/-- Test `new RegExp(p).test(s)` for a pattern `p` without metacharacters. -/
def contemTexto (p : List Char) : List Char → Bool
  | [] => p.isEmpty
  | c :: cs => p.isPrefixOf (c :: cs) || contemTexto p cs

mutual
/-- A JSON value, as an element of the arrays `fontes` and `plugins` of a
body. -/
inductive Json where
  | nulo
  | booleano (b : Bool)
  | numero (q : ℚ)
  | texto (s : String)
  | lista (itens : ItensJson)
  | objeto (campos : CamposJson)
/-- The elements of a JSON array, in order. -/
inductive ItensJson where
  | vazia
  | cons (cabeca : Json) (cauda : ItensJson)
/-- The properties of a JSON object, in order; the names are distinct. -/
inductive CamposJson where
  | vazio
  | cons (chave : String) (valor : Json) (resto : CamposJson)
end

deriving instance DecidableEq for Json, ItensJson, CamposJson

deriving instance Repr for Json, ItensJson, CamposJson

/-- The names of the components in sorted order: the array
`Object.keys(componentes).sort()` that `criarHash` passes to `JSON.stringify`
as replacer. -/
def chavesDosComponentes : List String :=
  ["aceitar", "bateria", "canvas", "classeProcessador", "codificacaoAceita",
   "concorrenciaHardware", "contextoAudio", "cookieHabilitado", "fontes", "fusoHorario",
   "idiomaAceito", "indexedDB", "localStorage", "memoriaDispositivo", "naoRastrear",
   "plataforma", "plugins", "profundidadeCor", "razaoPixel", "resolucaoTela",
   "sessionStorage", "suporteToque", "userAgent", "webgl"]

/-- The value of a property of an object, if present. -/
def CamposJson.procurar (chave : String) : CamposJson → Option Json
  | .vazio => none
  | .cons k v resto => if k = chave then some v else CamposJson.procurar chave resto

/-- The properties that `JSON.stringify` writes for an object under a replacer
array: those named in the array, in the order of the array. -/
def CamposJson.selecionar (chaves : List String) (campos : CamposJson) : CamposJson :=
  chaves.foldr (fun k resto =>
    match CamposJson.procurar k campos with
    | some v => .cons k v resto
    | none => resto) .vazio

mutual
/-- What `JSON.stringify` with the replacer array of `criarHash` writes for a
value: the replacer applies to every object, however deeply nested, so each
keeps only the properties named like a component. -/
def Json.filtrar : Json → Json
  | .lista itens => .lista (ItensJson.filtrar itens)
  | .objeto campos =>
    .objeto (CamposJson.selecionar chavesDosComponentes (CamposJson.filtrar campos))
  | .nulo => .nulo
  | .booleano b => .booleano b
  | .numero q => .numero q
  | .texto s => .texto s
/-- The elements of an array as `JSON.stringify` writes them. -/
def ItensJson.filtrar : ItensJson → ItensJson
  | .vazia => .vazia
  | .cons c r => .cons (Json.filtrar c) (ItensJson.filtrar r)
/-- The properties of an object with their values as `JSON.stringify` writes
them. -/
def CamposJson.filtrar : CamposJson → CamposJson
  | .vazio => .vazio
  | .cons k v r => .cons k (Json.filtrar v) (CamposJson.filtrar r)
end

mutual
/-- No object occurs in the value. -/
def Json.semObjeto : Json → Bool
  | .lista itens => ItensJson.semObjeto itens
  | .objeto _ => false
  | .nulo => true
  | .booleano _ => true
  | .numero _ => true
  | .texto _ => true
/-- No object occurs in the elements. -/
def ItensJson.semObjeto : ItensJson → Bool
  | .vazia => true
  | .cons c r => Json.semObjeto c && ItensJson.semObjeto r
end

/-- The `componentes` object built by `gerar`, after the `||` defaults. -/
structure Componentes where
  userAgent : String
  idiomaAceito : String
  codificacaoAceita : String
  aceitar : String
  plataforma : String
  resolucaoTela : String
  fusoHorario : String
  canvas : String
  webgl : String
  fontes : List Json
  plugins : List Json
  naoRastrear : String
  cookieHabilitado : Bool
  localStorage : Bool
  sessionStorage : Bool
  indexedDB : Bool
  classeProcessador : String
  concorrenciaHardware : Nat
  memoriaDispositivo : Nat
  profundidadeCor : Nat
  razaoPixel : Nat
  suporteToque : Bool
  contextoAudio : String
  bateria : Option Nat
  deriving DecidableEq, Repr

/-- The digest returned by `criarHash`: SHA-256 of the key-sorted JSON of the
components, represented by the record that the JSON text determines. -/
abbrev Fingerprint := Componentes

/-- Method `criarHash`: the digest of
`JSON.stringify(componentes, Object.keys(componentes).sort())`. The text holds
the 24 components in sorted order, the elements of the two arrays written
under the same replacer array. -/
def criarHash (c : Componentes) : Fingerprint :=
  { c with fontes := c.fontes.map Json.filtrar, plugins := c.plugins.map Json.filtrar }

/-! ## MotorASC: tokens -/

/-- The settings the MotorASC constructor reads from the environment; the two
lifetimes are in seconds. -/
structure Configuracao where
  chaveSecreta : String
  tempoExpiracaoToken : Nat
  tempoExpiracaoRefresh : Nat
  issuer : String
  audience : String
  audienceRefresh : String
  senhaTamanhoMinimo : Nat := 8
  senhaExigirMaiuscula : Bool := true
  senhaExigirMinuscula : Bool := true
  senhaExigirNumero : Bool := true
  senhaExigirEspecial : Bool := true
  senhaCaracteresEspeciais : String := "!@#$%^&*(),.?\":\x7b\x7d|<>"
  senhaPontuacaoMinima : Nat := 4
  deriving DecidableEq, Repr

/-- The configuration when no environment variable but the key is set:
`'24h'`, `'7d'`, `'ASC-System'`, `'ASC-Client'`, `'ASC-Refresh'`. -/
def configuracaoPadrao (chave : String) : Configuracao :=
  { chaveSecreta := chave
    tempoExpiracaoToken := 24 * 60 * 60
    tempoExpiracaoRefresh := 7 * 24 * 60 * 60
    issuer := "ASC-System"
    audience := "ASC-Client"
    audienceRefresh := "ASC-Refresh" }

/-- A payload object handed to `jwt.sign`: the fields the service sets and the
registered claims that `jsonwebtoken` inspects. -/
structure Payload where
  id : Option String := none
  email : Option String := none
  fingerprint : Option Fingerprint := none
  iat : Option Nat := none
  exp : Option Nat := none
  nbf : Option Nat := none
  iss : Option String := none
  aud : Option String := none
  deriving DecidableEq, Repr

/-- A signed JWT: its claims and the key of its HS256 signature. Two tokens
are the same string exactly when these records are equal. -/
structure Token where
  id : Option String
  email : Option String
  fingerprint : Option Fingerprint
  iat : Nat
  exp : Nat
  nbf : Option Nat
  iss : String
  aud : String
  chave : String
  deriving DecidableEq, Repr

/-- The call `jwt.sign(payload, chave, { expiresIn, issuer, audience })` of
jsonwebtoken at clock `agora` (milliseconds). The result is a function of the
payload, the key, the options and the clock second: `iat` is
`payload.iat || Math.floor(Date.now() / 1000)` and HS256 has no randomness. -/
def jwtSign (payload : Payload) (chave : String) (expiresIn : Nat) (issuer audience : String)
    (agora : Nat) : Except String Token :=
  if payload.exp.isSome then
    .error "Bad \"options.expiresIn\" option the payload already has an \"exp\" property."
  else
    let timestamp :=
      match payload.iat with
      | some (n + 1) => n + 1
      | _ => agora / 1000
    if payload.aud.isSome then
      .error "Bad \"options.audience\" option. The payload already has an \"aud\" property."
    else if payload.iss.isSome then
      .error "Bad \"options.issuer\" option. The payload already has an \"iss\" property."
    else
      .ok { id := payload.id
            email := payload.email
            fingerprint := payload.fingerprint
            iat := timestamp
            exp := timestamp + expiresIn
            nbf := payload.nbf
            iss := issuer
            aud := audience
            chave := chave }

/-- The call `jwt.verify(token, chave, { issuer, audience })` of jsonwebtoken
at clock `agora` (milliseconds); it returns the decoded claims. -/
def jwtVerify (token : Token) (chave : String) (issuer audience : String) (agora : Nat) :
    Except String Token :=
  let relogio := agora / 1000
  if token.chave ≠ chave then .error "invalid signature"
  else if (match token.nbf with | some n => decide (n > relogio) | none => false) then
    .error "jwt not active"
  else if relogio ≥ token.exp then .error "jwt expired"
  else if token.aud ≠ audience then .error ("jwt audience invalid. expected: " ++ audience)
  else if token.iss ≠ issuer then .error ("jwt issuer invalid. expected: " ++ issuer)
  else .ok token

/-- Method `gerarToken`. -/
def gerarToken (cfg : Configuracao) (payload : Payload) (agora : Nat) : Except String Token :=
  match jwtSign payload cfg.chaveSecreta cfg.tempoExpiracaoToken cfg.issuer cfg.audience agora with
  | .ok t => .ok t
  | .error m => .error ("Erro ao gerar token: " ++ m)

/-- Method `gerarRefreshToken`. -/
def gerarRefreshToken (cfg : Configuracao) (payload : Payload) (agora : Nat) :
    Except String Token :=
  match jwtSign payload cfg.chaveSecreta cfg.tempoExpiracaoRefresh cfg.issuer
      cfg.audienceRefresh agora with
  | .ok t => .ok t
  | .error m => .error ("Erro ao gerar refresh token: " ++ m)

/-- Method `verificarToken` of MotorASC. -/
def verificarToken (cfg : Configuracao) (token : Token) (agora : Nat) : Except String Token :=
  match jwtVerify token cfg.chaveSecreta cfg.issuer cfg.audience agora with
  | .ok p => .ok p
  | .error _ => .error "Token inválido"

/-- Method `verificarRefreshToken`. -/
def verificarRefreshToken (cfg : Configuracao) (token : Token) (agora : Nat) :
    Except String Token :=
  match jwtVerify token cfg.chaveSecreta cfg.issuer cfg.audienceRefresh agora with
  | .ok p => .ok p
  | .error _ => .error "Refresh token inválido"

/-! ## Requests -/

/-- A geographic position as sent by the client; a coordinate that is missing
or not a number is `none`. -/
structure Localizacao where
  lat : Option ℚ
  lon : Option ℚ
  deriving DecidableEq, Repr

/-- The value of the `Authorization` header: the string `'Bearer '` followed by
a token, or any other string. -/
inductive Autorizacao where
  | bearer (token : Token)
  | outro (texto : String)
  deriving DecidableEq, Repr

/-- The request headers the code reads. -/
structure Cabecalhos where
  userAgent : Option String := none
  acceptLanguage : Option String := none
  acceptEncoding : Option String := none
  accept : Option String := none
  dnt : Option String := none
  authorization : Option Autorizacao := none
  deriving DecidableEq, Repr

/-- The body fields the code reads; `none` is an absent key. -/
structure Corpo where
  nome : Option String := none
  email : Option String := none
  senha : Option String := none
  email_confirmacao : Option String := none
  website : Option String := none
  numero_telefone : Option String := none
  timestamp : Option String := none
  refreshToken : Option Token := none
  localizacao : Option Localizacao := none
  resolucaoTela : Option String := none
  fusoHorario : Option String := none
  fingerprintCanvas : Option String := none
  fingerprintWebgl : Option String := none
  fontes : Option (List Json) := none
  plugins : Option (List Json) := none
  cookieHabilitado : Option Bool := none
  localStorage : Option Bool := none
  sessionStorage : Option Bool := none
  indexedDB : Option Bool := none
  classeProcessador : Option String := none
  concorrenciaHardware : Option Nat := none
  memoriaDispositivo : Option Nat := none
  profundidadeCor : Option Nat := none
  razaoPixel : Option Nat := none
  suporteToque : Option Bool := none
  fingerprintAudio : Option String := none
  nivelBateria : Option Nat := none
  deriving DecidableEq, Repr

/-- An Express request: `req.ip`, `req.headers`, `req.body` (which may be
undefined). -/
structure Req where
  ip : String
  headers : Cabecalhos := {}
  body : Option Corpo := none
  deriving DecidableEq, Repr

/-- What one call reads from the outside world: the clock on entry, the clock
after the minimum-response-time wait, and the random values it draws. -/
structure Chamada where
  entrada : Nat
  depois : Nat
  uuid : String := ""
  sal : String := ""
  deriving DecidableEq, Repr

/-! ## FingerprintDispositivo -/

/-- Method `extrairPlataforma`. -/
def extrairPlataforma (h : Cabecalhos) : String :=
  let ua := (h.userAgent.getD "").toList
  if contemTexto "Windows".toList ua then "Windows"
  else if contemTexto "Mac OS".toList ua then "macOS"
  else if contemTexto "Linux".toList ua then "Linux"
  else if contemTexto "Android".toList ua then "Android"
  else if contemTexto "iPhone".toList ua || contemTexto "iPad".toList ua then "iOS"
  else "Desconhecido"

/-- The expression `x || 0` on a number. -/
def numeroOuZero (x : Option Nat) : Nat := x.getD 0

/-- The expression `x || null`: zero is falsy. -/
def numeroOuNull (x : Option Nat) : Option Nat :=
  match x with
  | some 0 => none
  | outro => outro

/-- The expression `x || true` on a boolean: always true. -/
def boolOuTrue (x : Option Bool) : Bool := (x.getD false) || true

/-- The component record of `gerar` for a request with a body. -/
def componentesDe (h : Cabecalhos) (b : Corpo) : Componentes :=
  { userAgent := h.userAgent.getD ""
    idiomaAceito := h.acceptLanguage.getD ""
    codificacaoAceita := h.acceptEncoding.getD ""
    aceitar := h.accept.getD ""
    plataforma := extrairPlataforma h
    resolucaoTela := b.resolucaoTela.getD ""
    fusoHorario := b.fusoHorario.getD ""
    canvas := b.fingerprintCanvas.getD ""
    webgl := b.fingerprintWebgl.getD ""
    fontes := b.fontes.getD []
    plugins := b.plugins.getD []
    naoRastrear := h.dnt.getD ""
    cookieHabilitado := boolOuTrue b.cookieHabilitado
    localStorage := boolOuTrue b.localStorage
    sessionStorage := boolOuTrue b.sessionStorage
    indexedDB := boolOuTrue b.indexedDB
    classeProcessador := b.classeProcessador.getD ""
    concorrenciaHardware := numeroOuZero b.concorrenciaHardware
    memoriaDispositivo := numeroOuZero b.memoriaDispositivo
    profundidadeCor := numeroOuZero b.profundidadeCor
    razaoPixel := numeroOuZero b.razaoPixel
    suporteToque := b.suporteToque.getD false
    contextoAudio := b.fingerprintAudio.getD ""
    bateria := numeroOuNull b.nivelBateria }

/-- Method `calcularConfianca`: `Math.round(pontuacao / pontuacaoMaxima * 100)`
with `pontuacaoMaxima = 18`, computed on integers; the computation in doubles
gives the same integer for each of the 19 scores. -/
def calcularConfianca (c : Componentes) : Nat :=
  let basico (s : String) : Nat := if s ≠ "" then 1 else 0
  let avancado (s : String) : Nat := if s ≠ "" then 2 else 0
  let hardware (n : Nat) : Nat := if n ≠ 0 then 3 else 0
  let pontuacao :=
    basico c.userAgent + basico c.idiomaAceito + basico c.fusoHorario
    + avancado c.canvas + avancado c.webgl + avancado c.contextoAudio
    + hardware c.concorrenciaHardware + hardware c.memoriaDispositivo
    + hardware c.profundidadeCor
  (2 * pontuacao * 100 + 18) / (2 * 18)

/-- The fingerprint id of a request with a body: `criarHash` of its component
record. -/
def fingerprintDe (h : Cabecalhos) (b : Corpo) : Fingerprint :=
  criarHash (componentesDe h b)

/-- The object returned by `gerar`. -/
structure ResultadoFingerprint where
  fingerprint : Fingerprint
  componentes : Componentes
  confidence : Nat
  timestamp : Nat
  deriving DecidableEq, Repr

/-- Method `gerar`: reading `req.body.resolucaoTela` throws a TypeError when
the request has no body. -/
def gerar (req : Req) (agora : Nat) : Except String ResultadoFingerprint :=
  match req.body with
  | none => .error "Cannot read properties of undefined (reading 'resolucaoTela')"
  | some b =>
    .ok { fingerprint := fingerprintDe req.headers b
          componentes := componentesDe req.headers b
          confidence := calcularConfianca (componentesDe req.headers b)
          timestamp := agora }

/-! ## MotorASC: passwords -/

/-- A stored password hash: the bcrypt digest of a password under a salt, or
a string that is not a bcrypt digest. -/
inductive HashSenha where
  | bcrypt (senha sal : String)
  | texto (s : String)
  deriving DecidableEq, Repr

/-- Method `criptografarSenha`; the salt is the one `bcrypt.genSalt` draws. -/
def criptografarSenha (senha : Option String) (sal : String) : Except String HashSenha :=
  match senha with
  | none => .error "Erro ao criptografar senha: Senha inválida"
  | some s =>
    if s = "" then .error "Erro ao criptografar senha: Senha inválida"
    else .ok (.bcrypt s sal)

/-- The UTF-8 bytes of a character. -/
def bytesUTF8 (c : Char) : List Nat :=
  let v := c.toNat
  if v < 0x80 then [v]
  else if v < 0x800 then [0xC0 + v / 64, 0x80 + v % 64]
  else if v < 0x10000 then [0xE0 + v / 4096, 0x80 + v / 64 % 64, 0x80 + v % 64]
  else [0xF0 + v / 262144, 0x80 + v / 4096 % 64, 0x80 + v / 64 % 64, 0x80 + v % 64]

/-- The key that bcrypt derives from a password: the UTF-8 bytes followed by a
zero byte, read cyclically, of which the key schedule consumes the first 72
(18 words of 4 bytes). The digest depends on the password only through it. -/
def chaveBcrypt (senha : String) : List Nat :=
  let bytes := senha.toList.flatMap bytesUTF8 ++ [0]
  (List.range 72).map (fun i => bytes.getD (i % bytes.length) 0)

/-- Method `verificarSenha`: `bcrypt.compare`, false on any error. The
comparison hashes the candidate under the salt of the stored digest and
compares the two digests, which agree when the two keys do. -/
def verificarSenha (senha : Option String) (hash : HashSenha) : Bool :=
  match senha, hash with
  | some s, .bcrypt s' _ => decide (s ≠ "") && decide (chaveBcrypt s = chaveBcrypt s')
  | _, _ => false

/-- The constant `hashFalso` of `autenticarUsuario`. -/
def hashFalso : HashSenha :=
  .texto "$2b$12$dummy.hash.to.prevent.timing.attacks.abcdefghijklmnopqrstuvwxyz"

/-- The property `length` of a JavaScript string: UTF-16 code units. -/
def comprimentoUTF16 (s : String) : Nat :=
  (s.toList.map (fun c => if c.val ≥ 0x10000 then 2 else 1)).sum

/-- The object `criterios` of `validarComplexidadeSenha`. -/
structure Criterios where
  tamanhoMinimo : Bool
  maiuscula : Bool
  minuscula : Bool
  numero : Bool
  caracterEspecial : Bool
  deriving DecidableEq, Repr

/-- The object returned by `validarComplexidadeSenha`. -/
structure ValidacaoSenha where
  valida : Bool
  pontuacao : Nat
  criterios : Criterios
  deriving DecidableEq, Repr

/-- Method `validarComplexidadeSenha` on a string. -/
def validarComplexidadeSenha (cfg : Configuracao) (senha : String) : ValidacaoSenha :=
  let cs := senha.toList
  let criterios : Criterios :=
    { tamanhoMinimo := decide (comprimentoUTF16 senha ≥ cfg.senhaTamanhoMinimo)
      maiuscula := !cfg.senhaExigirMaiuscula || cs.any (fun c => decide ('A' ≤ c ∧ c ≤ 'Z'))
      minuscula := !cfg.senhaExigirMinuscula || cs.any (fun c => decide ('a' ≤ c ∧ c ≤ 'z'))
      numero := !cfg.senhaExigirNumero || cs.any (fun c => decide ('0' ≤ c ∧ c ≤ '9'))
      caracterEspecial := !cfg.senhaExigirEspecial
        || cs.any (fun c => decide (c ∈ cfg.senhaCaracteresEspeciais.toList)) }
  let pontuacao :=
    ([criterios.tamanhoMinimo, criterios.maiuscula, criterios.minuscula, criterios.numero,
      criterios.caracterEspecial].filter id).length
  { valida := decide (pontuacao ≥ cfg.senhaPontuacaoMinima)
    pontuacao := pontuacao
    criterios := criterios }

/-! ## SistemaHoneypot -/

/-- An entry of the `violations` list. -/
structure Violacao where
  type : String
  severity : String
  description : String
  tempoPreenchimento : Option NumeroInteiro := none
  deriving DecidableEq, Repr

/-- An entry of an IP's list in `atividadesSuspeitas`. -/
structure Atividade where
  timestamp : Nat
  violacoes : List Violacao
  deriving DecidableEq, Repr

/-- The object returned by `validarSubmissao`. -/
structure ResultadoHoneypot where
  isBot : Bool
  violations : List Violacao
  trustScore : Int
  deriving DecidableEq, Repr

/-- The two collections of the SistemaHoneypot singleton. -/
structure Honeypot where
  ipsCapturados : List String := []
  atividadesSuspeitas : List (String × List Atividade) := []
  deriving DecidableEq, Repr

/-- The expression `parseInt(dados.timestamp || 0)`. -/
def carimboSubmissao (d : Corpo) : NumeroInteiro :=
  match d.timestamp with
  | none => parseInt "0"
  | some t => if t = "" then parseInt "0" else parseInt t

/-- The constant `tempoPreenchimento` of `validarSubmissao`:
`Date.now() - parseInt(dados.timestamp || 0)`. -/
def tempoDePreenchimento (d : Corpo) (agora : Nat) : NumeroInteiro :=
  NumeroInteiro.subtrairDe agora (carimboSubmissao d)

/-- Truthiness of a string-valued key. -/
def preenchido (x : Option String) : Bool :=
  match x with
  | some t => decide (t ≠ "")
  | none => false

/-- The string-valued keys of a submission, in record order. -/
def chavesTexto (d : Corpo) : List (Option String) :=
  [d.nome, d.email, d.senha, d.email_confirmacao, d.website, d.numero_telefone, d.timestamp,
   d.resolucaoTela, d.fusoHorario, d.fingerprintCanvas, d.fingerprintWebgl,
   d.classeProcessador, d.fingerprintAudio]

/-- Presence of the keys whose values are not strings. -/
def chavesOutras (d : Corpo) : List Bool :=
  [d.refreshToken.isSome, d.localizacao.isSome, d.fontes.isSome, d.plugins.isSome,
   d.cookieHabilitado.isSome, d.localStorage.isSome, d.sessionStorage.isSome,
   d.indexedDB.isSome, d.concorrenciaHardware.isSome, d.memoriaDispositivo.isSome,
   d.profundidadeCor.isSome, d.razaoPixel.isSome, d.suporteToque.isSome,
   d.nivelBateria.isSome]

/-- Method `padraoSequencial`: the number of keys whose value is not the empty
string equals the number of keys. -/
def padraoSequencial (d : Corpo) : Bool :=
  let campos :=
    ((chavesTexto d).filter Option.isSome).length + ((chavesOutras d).filter id).length
  let ordemPreenchimento :=
    ((chavesTexto d).filter (fun x => x.isSome && decide (x ≠ some ""))).length
      + ((chavesOutras d).filter id).length
  decide (ordemPreenchimento = campos)

/-- Method `marcarIPSuspeito`. -/
def marcarIPSuspeito (h : Honeypot) (ip : String) (violacoes : List Violacao) (agora : Nat) :
    Honeypot :=
  let atividades := ((mapaGet h.atividadesSuspeitas ip).getD [])
    ++ [{ timestamp := agora, violacoes := violacoes }]
  { ipsCapturados :=
      if atividades.length ≥ 3 then conjuntoAdd h.ipsCapturados ip else h.ipsCapturados
    atividadesSuspeitas := mapaSet h.atividadesSuspeitas ip atividades }

/-- Method `calcularPontuacaoConfianca`. -/
def calcularPontuacaoConfianca (violacoes : List Violacao) : Int :=
  if violacoes.isEmpty then 100
  else
    let pontuacao := violacoes.foldl (fun (p : Int) v =>
      if v.severity = "LOW" then p - 10
      else if v.severity = "MEDIUM" then p - 25
      else if v.severity = "HIGH" then p - 50
      else if v.severity = "CRITICAL" then p - 100
      else p) 100
    max pontuacao 0

/-- The `violacoes` list that `validarSubmissao` builds. -/
def violacoesDe (h : Honeypot) (dados : Corpo) (ip : String) (agora : Nat) : List Violacao :=
  let v1 :=
    if preenchido dados.email_confirmacao || preenchido dados.website
        || preenchido dados.numero_telefone then
      [{ type := "HONEYPOT_PREENCHIDO", severity := "HIGH",
         description := "Campos honeypot foram preenchidos" : Violacao }]
    else []
  let tempoPreenchimento := tempoDePreenchimento dados agora
  let v2 :=
    if tempoPreenchimento.menor 2000 then
      [{ type := "MUITO_RAPIDO", severity := "MEDIUM",
         description :=
           "Formulário preenchido em " ++ numeroParaTexto tempoPreenchimento ++ "ms",
         tempoPreenchimento := some tempoPreenchimento : Violacao }]
    else []
  let v3 :=
    if padraoSequencial dados then
      [{ type := "PADRAO_SEQUENCIAL", severity := "MEDIUM",
         description := "Padrão de preenchimento automático detectado" : Violacao }]
    else []
  let v4 :=
    if ip ∈ h.ipsCapturados then
      [{ type := "BOT_CONHECIDO", severity := "CRITICAL",
         description := "IP previamente identificado como bot" : Violacao }]
    else []
  v1 ++ v2 ++ v3 ++ v4

/-- Method `validarSubmissao`. -/
def validarSubmissao (h : Honeypot) (dados : Corpo) (ip : String) (agora : Nat) :
    Honeypot × ResultadoHoneypot :=
  let violacoes := violacoesDe h dados ip agora
  let h' := if violacoes.length > 0 then marcarIPSuspeito h ip violacoes agora else h
  (h', { isBot := decide (violacoes.length > 0)
         violations := violacoes
         trustScore := calcularPontuacaoConfianca violacoes })

/-- Method `ipCapturado`. -/
def ipCapturado (h : Honeypot) (ip : String) : Bool := decide (ip ∈ h.ipsCapturados)

/-- Method `liberarIP`. -/
def liberarIP (h : Honeypot) (ip : String) : Honeypot :=
  { ipsCapturados := h.ipsCapturados.filter (fun x => decide (x ≠ ip))
    atividadesSuspeitas := mapaDelete h.atividadesSuspeitas ip }

/-! ## DetectorAnomalias -/

/-- What the host supplies to the detector: the double that the haversine
expression `R * (2 * Math.atan2(Math.sqrt(a), Math.sqrt(1 - a)))` of
`calcularDistancia` evaluates to for two points with numeric coordinates
(arguments `lat1 lon1 lat2 lon2`; the value depends on the host's `Math.sin`,
`Math.cos`, `Math.sqrt` and `Math.atan2` and may be NaN), and the local hour of
day of an instant (`new Date(t).getHours()`). -/
structure Ambiente where
  cfg : Configuracao
  haversine : ℚ → ℚ → ℚ → ℚ → Numero
  getHours : Nat → Nat

/-- The field `ultimoLogin` of a profile. -/
structure UltimoLogin where
  timestamp : Nat
  localizacao : Option Localizacao
  fingerprint : Fingerprint
  deriving DecidableEq, Repr

/-- A behavioural profile. -/
structure Perfil where
  contadorLogins : Nat := 0
  localizacoes : List (Option Localizacao) := []
  horariosTypicos : List Nat := []
  dispositivos : List Fingerprint := []
  userAgents : List (Option String) := []
  ultimoLogin : Option UltimoLogin := none
  deriving DecidableEq, Repr

/-- The argument `dadosLogin` of `analisarTentativaLogin`. -/
structure DadosLogin where
  ip : String
  localizacao : Option Localizacao
  timestamp : Nat
  fingerprint : Fingerprint
  userAgent : Option String
  deriving DecidableEq, Repr

/-- An entry of `reasons`. -/
structure Motivo where
  type : String
  description : String
  confidence : ℚ
  deriving DecidableEq, Repr

/-- The object returned by `analisarTentativaLogin`. -/
structure Analise where
  isAnomalous : Bool
  anomalyScore : Numero
  reasons : List Motivo
  riskLevel : String
  deriving DecidableEq, Repr

/-- The field `limiteAnomalias`: the double `0.7`. -/
def limiteAnomalias : ℚ := arredondar (7 / 10)

/-- Method `calcularDistancia`: reading `.lat` of an undefined location throws;
a coordinate that is not a number makes the result NaN; otherwise the result is
the double the host computes, which may itself be NaN. -/
def calcularDistancia (amb : Ambiente) (loc1 loc2 : Option Localizacao) :
    Except String Numero :=
  match loc2, loc1 with
  | some l2, some l1 =>
    match l1.lat, l1.lon, l2.lat, l2.lon with
    | some la1, some lo1, some la2, some lo2 => .ok (amb.haversine la1 lo1 la2 lo2)
    | _, _, _, _ => .ok none
  | _, _ => .error "Cannot read properties of undefined (reading 'lat')"

/-- Method `obterPerfilUsuario`. -/
def obterPerfilUsuario (perfis : List (String × Perfil)) (idUsuario : String) : Perfil :=
  (mapaGet perfis idUsuario).getD {}

/-- Method `dispositivoNovo`. -/
def dispositivoNovo (perfil : Perfil) (fingerprint : Fingerprint) : Bool :=
  !(decide (fingerprint ∈ perfil.dispositivos))

/-- The `reduce` of `calcularDesvioLocalizacao`: the running sum of distances. -/
def somaDistancias (amb : Ambiente) (localizacao : Option Localizacao) :
    List (Option Localizacao) → Numero → Except String Numero
  | [], soma => .ok soma
  | loc :: resto, soma =>
    match calcularDistancia amb loc localizacao with
    | .ok d => somaDistancias amb localizacao resto (Numero.soma soma d)
    | .error m => .error m

/-- Method `calcularDesvioLocalizacao`. -/
def calcularDesvioLocalizacao (amb : Ambiente) (perfil : Perfil)
    (localizacao : Option Localizacao) : Except String Numero :=
  if perfil.localizacoes.length = 0 then .ok (some 0)
  else
    match somaDistancias amb localizacao perfil.localizacoes (some 0) with
    | .ok soma =>
      let distanciaMedia := Numero.dividir soma perfil.localizacoes.length
      .ok (Numero.minimo (distanciaMedia.map (fun x => arredondar (x / 500))) (some 1))
    | .error m => .error m

/-- Method `calcularDesvioTempo`. -/
def calcularDesvioTempo (amb : Ambiente) (perfil : Perfil) (timestamp : Nat) : Numero :=
  if perfil.horariosTypicos.length = 0 then some 0
  else
    let hora : ℚ := (amb.getHours timestamp : ℚ)
    let horaMedia : ℚ :=
      arredondar
        ((perfil.horariosTypicos.foldl (fun (soma : ℚ) h => arredondar (soma + (h : ℚ))) 0)
          / (perfil.horariosTypicos.length : ℚ))
    let diferenca := |arredondar (hora - horaMedia)|
    some (min (arredondar (diferenca / 6)) 1)

/-- Method `localizacaoIncomum`. -/
def localizacaoIncomum (amb : Ambiente) (perfil : Perfil) (localizacao : Option Localizacao) :
    Except String Bool :=
  match calcularDesvioLocalizacao amb perfil localizacao with
  | .ok d => .ok (Numero.maior d (some (arredondar (7 / 10))))
  | .error m => .error m

/-- Method `horarioIncomum`. -/
def horarioIncomum (amb : Ambiente) (perfil : Perfil) (timestamp : Nat) : Bool :=
  Numero.maior (calcularDesvioTempo amb perfil timestamp) (some (arredondar (7 / 10)))

/-- Method `calcularPontuacaoAnomalias`. -/
def calcularPontuacaoAnomalias (amb : Ambiente) (perfil : Perfil) (dadosLogin : DadosLogin) :
    Except String Numero :=
  if perfil.contadorLogins < 5 then .ok (some (arredondar (3 / 10)))
  else
    match calcularDesvioLocalizacao amb perfil dadosLogin.localizacao with
    | .error m => .error m
    | .ok pontuacaoDistancia =>
      let pontuacaoTempo := calcularDesvioTempo amb perfil dadosLogin.timestamp
      let p2 : Numero := Numero.soma (Numero.soma (some 0) pontuacaoDistancia) pontuacaoTempo
      let f2 : Nat := 2
      let novo := dispositivoNovo perfil dadosLogin.fingerprint
      let p3 : Numero := if novo then Numero.soma p2 (some (arredondar (8 / 10))) else p2
      let f3 : Nat := if novo then f2 + 1 else f2
      let outroAgente := !(decide (dadosLogin.userAgent ∈ perfil.userAgents))
      let p4 : Numero := if outroAgente then Numero.soma p3 (some (arredondar (6 / 10))) else p3
      let f4 : Nat := if outroAgente then f3 + 1 else f3
      .ok (if f4 > 0 then Numero.dividir p4 f4 else some 0)

/-- Method `viagemImpossivel`: `distancia / diferencaTempo > 1000`, the quotient
being an infinity or NaN when the two instants coincide (`diferencaTempo` is
then `+0`). -/
def viagemImpossivel (amb : Ambiente) (perfil : Perfil) (dadosLogin : DadosLogin) :
    Except String Bool :=
  match perfil.ultimoLogin with
  | none => .ok false
  | some ultimoLogin =>
    match ultimoLogin.localizacao with
    | none => .ok false
    | some loc =>
      match calcularDistancia amb (some loc) dadosLogin.localizacao with
      | .error m => .error m
      | .ok none => .ok false
      | .ok (some distancia) =>
        let diferencaTempo : ℚ :=
          arredondar (arredondar
            (arredondar ((dadosLogin.timestamp : ℚ) - (ultimoLogin.timestamp : ℚ)) / 1000)
              / 3600)
        if diferencaTempo = 0 then .ok (decide (0 < distancia))
        else .ok (decide (1000 < arredondar (distancia / diferencaTempo)))

/-- Method `obterNivelRisco`: every comparison with NaN is false. -/
def obterNivelRisco (pontuacao : Numero) : String :=
  if Numero.menor pontuacao (some (arredondar (3 / 10))) then "LOW"
  else if Numero.menor pontuacao (some (arredondar (6 / 10))) then "MEDIUM"
  else if Numero.menor pontuacao (some (arredondar (8 / 10))) then "HIGH"
  else "CRITICAL"

/-- Method `atualizarPerfilUsuario`. -/
def atualizarPerfilUsuario (amb : Ambiente) (perfis : List (String × Perfil))
    (idUsuario : String) (dadosLogin : DadosLogin) : List (String × Perfil) :=
  let perfil := obterPerfilUsuario perfis idUsuario
  let localizacoes :=
    if perfil.localizacoes.length ≥ 10 then perfil.localizacoes.tail else perfil.localizacoes
  mapaSet perfis idUsuario
    { contadorLogins := perfil.contadorLogins + 1
      ultimoLogin := some { timestamp := dadosLogin.timestamp
                            localizacao := dadosLogin.localizacao
                            fingerprint := dadosLogin.fingerprint }
      localizacoes := localizacoes ++ [dadosLogin.localizacao]
      horariosTypicos := perfil.horariosTypicos ++ [amb.getHours dadosLogin.timestamp]
      dispositivos :=
        if dadosLogin.fingerprint ∈ perfil.dispositivos then perfil.dispositivos
        else perfil.dispositivos ++ [dadosLogin.fingerprint]
      userAgents :=
        if dadosLogin.userAgent ∈ perfil.userAgents then perfil.userAgents
        else perfil.userAgents ++ [dadosLogin.userAgent] }

/-- The four `reasons` in the order the method pushes them. -/
def motivosDe (incomum horario novo viagem : Bool) : List Motivo :=
  (if incomum then
    [{ type := "LOCALIZACAO_INCOMUM", description := "Login de localização não usual",
       confidence := arredondar (85 / 100) : Motivo }] else [])
  ++ (if horario then
    [{ type := "HORARIO_INCOMUM", description := "Login em horário atípico",
       confidence := arredondar (75 / 100) : Motivo }] else [])
  ++ (if novo then
    [{ type := "DISPOSITIVO_NOVO", description := "Dispositivo não reconhecido",
       confidence := arredondar (90 / 100) : Motivo }] else [])
  ++ (if viagem then
    [{ type := "VIAGEM_IMPOSSIVEL", description := "Viagem geograficamente impossível",
       confidence := arredondar (95 / 100) : Motivo }] else [])

/-- Method `analisarTentativaLogin`: the profile map after the call and the
analysis, or the message of the exception that escaped (the map is then as
before, the update being the last statement). -/
def analisarTentativaLogin (amb : Ambiente) (perfis : List (String × Perfil))
    (idUsuario : String) (dadosLogin : DadosLogin) :
    List (String × Perfil) × Except String Analise :=
  let perfil := obterPerfilUsuario perfis idUsuario
  match calcularPontuacaoAnomalias amb perfil dadosLogin with
  | .error m => (perfis, .error m)
  | .ok pontuacaoAnomalias =>
    let isAnomalous := Numero.maior pontuacaoAnomalias (some limiteAnomalias)
    match localizacaoIncomum amb perfil dadosLogin.localizacao with
    | .error m => (perfis, .error m)
    | .ok incomum =>
      match viagemImpossivel amb perfil dadosLogin with
      | .error m => (perfis, .error m)
      | .ok viagem =>
        let analise : Analise :=
          { isAnomalous := isAnomalous
            anomalyScore := pontuacaoAnomalias
            reasons := motivosDe incomum (horarioIncomum amb perfil dadosLogin.timestamp)
              (dispositivoNovo perfil dadosLogin.fingerprint) viagem
            riskLevel := obterNivelRisco pontuacaoAnomalias }
        (if isAnomalous then perfis else atualizarPerfilUsuario amb perfis idUsuario dadosLogin,
         .ok analise)

/-! ## AdaptadorMemoria -/

/-- A user record. -/
structure Usuario where
  id : String
  email : Option String
  hashSenha : HashSenha
  nome : Option String
  criadoEm : Nat
  atualizadoEm : Nat := 0
  ativo : Bool
  verificado : Bool
  deriving DecidableEq, Repr

/-- A session record. -/
structure Sessao where
  id : String
  idUsuario : String
  token : Token
  refreshToken : Token
  fingerprint : Fingerprint
  ip : String
  userAgent : Option String
  criadaEm : Nat
  atualizadaEm : Nat := 0
  expiresEm : Nat
  ativa : Bool
  finalizadaEm : Option Nat := none
  deriving DecidableEq, Repr

/-- The argument `atualizacoes` of `atualizarSessao`: the keys it carries. -/
structure AtualizacoesSessao where
  token : Option Token := none
  refreshToken : Option Token := none
  ativa : Option Bool := none
  finalizadaEm : Option Nat := none
  atualizadaEm : Option Nat := none
  deriving DecidableEq, Repr

/-- An audit record; `id` is the clock reading that the adapter turns into
the record's id string. -/
structure LogAuditoria where
  id : Nat := 0
  acao : String
  idUsuario : Option String := none
  ip : Option String := none
  email : Option String := none
  userAgent : Option String := none
  fingerprint : Option Fingerprint := none
  tentativas : Option Nat := none
  anomalias : Option (List Motivo) := none
  timestamp : Nat
  criadoEm : Nat := 0
  deriving DecidableEq, Repr

/-- A blocked-IP entry. -/
structure Bloqueio where
  ip : String
  motivo : String
  expiresEm : Option Nat
  bloqueadoEm : Nat := 0
  deriving DecidableEq, Repr

/-- An entry of the service's `tentativasLogin` map. -/
structure Tentativas where
  count : Nat
  ultimaTentativa : Nat
  deriving DecidableEq, Repr

/-- The mutable state of one process: the collections of the memory adapter,
the attempt counters of the service, the profiles of the anomaly detector and
the collections of the honeypot. -/
structure Estado where
  usuarios : List (String × Usuario) := []
  sessoes : List Sessao := []
  logsAuditoria : List LogAuditoria := []
  tokensRevogados : List Token := []
  ipsBloquados : List (String × Bloqueio) := []
  tentativasLogin : List (String × Tentativas) := []
  perfisComportamentais : List (String × Perfil) := []
  honeypot : Honeypot := {}
  deriving DecidableEq, Repr

/-- Method `criarUsuario`. -/
def criarUsuario (s : Estado) (dadosUsuario : Usuario) (agora : Nat) : Estado × Usuario :=
  let usuario := { dadosUsuario with criadoEm := agora, atualizadoEm := agora }
  ({ s with usuarios := mapaSet s.usuarios usuario.id usuario }, usuario)

/-- Method `buscarUsuarioPorEmail`: the first user, in insertion order, whose
email is strictly equal to the argument. -/
def buscarUsuarioPorEmail (s : Estado) (email : Option String) : Option Usuario :=
  (s.usuarios.map Prod.snd).find? (fun u => decide (u.email = email))

/-- Method `buscarUsuarioPorId`. -/
def buscarUsuarioPorId (s : Estado) (id : Option String) : Option Usuario :=
  match id with
  | some i => mapaGet s.usuarios i
  | none => none

/-- The call `this.sessoes.get(id)`; the map of sessions is the list of its
values in insertion order, each stored under its own `id`. -/
def sessoesGet (sessoes : List Sessao) (id : String) : Option Sessao :=
  match sessoes with
  | [] => none
  | x :: resto => if x.id = id then some x else sessoesGet resto id

/-- The call `this.sessoes.set(sessao.id, sessao)`. -/
def sessoesSet (sessoes : List Sessao) (sessao : Sessao) : List Sessao :=
  match sessoes with
  | [] => [sessao]
  | x :: resto => if x.id = sessao.id then sessao :: resto else x :: sessoesSet resto sessao

/-- Method `criarSessao`. -/
def criarSessao (s : Estado) (dadosSessao : Sessao) (agora : Nat) : Estado × Sessao :=
  let sessao := { dadosSessao with criadaEm := agora, atualizadaEm := agora }
  ({ s with sessoes := sessoesSet s.sessoes sessao }, sessao)

/-- Method `buscarSessaoPorId`. -/
def buscarSessaoPorId (s : Estado) (id : String) : Option Sessao :=
  sessoesGet s.sessoes id

/-- Method `buscarSessoesUsuario`. -/
def buscarSessoesUsuario (s : Estado) (idUsuario : Option String) : List Sessao :=
  s.sessoes.filter (fun x => decide (some x.idUsuario = idUsuario))

/-- The object spread `{ ...sessao, ...atualizacoes, atualizadaEm: new Date() }`. -/
def aplicarAtualizacoes (sessao : Sessao) (a : AtualizacoesSessao) (agora : Nat) : Sessao :=
  { sessao with
    token := a.token.getD sessao.token
    refreshToken := a.refreshToken.getD sessao.refreshToken
    ativa := a.ativa.getD sessao.ativa
    finalizadaEm := match a.finalizadaEm with
      | some f => some f
      | none => sessao.finalizadaEm
    atualizadaEm := agora }

/-- Method `atualizarSessao`. -/
def atualizarSessao (s : Estado) (id : String) (atualizacoes : AtualizacoesSessao)
    (agora : Nat) : Estado × Except String Sessao :=
  match sessoesGet s.sessoes id with
  | none => (s, .error "Sessão não encontrada")
  | some sessao =>
    let sessaoAtualizada := aplicarAtualizacoes sessao atualizacoes agora
    ({ s with sessoes := sessoesSet s.sessoes sessaoAtualizada }, .ok sessaoAtualizada)

/-- Method `criarLogAuditoria`: at most the last 1000 records are kept. -/
def criarLogAuditoria (s : Estado) (dadosLog : LogAuditoria) (agora : Nat) : Estado :=
  let logs := s.logsAuditoria ++ [{ dadosLog with id := agora, criadoEm := agora }]
  { s with logsAuditoria := if logs.length > 1000 then logs.drop (logs.length - 1000) else logs }

/-- Method `revogarToken`. -/
def revogarToken (s : Estado) (token : Token) : Estado :=
  { s with tokensRevogados := conjuntoAdd s.tokensRevogados token }

/-- Method `tokenRevogado`. -/
def tokenRevogado (s : Estado) (token : Token) : Bool :=
  decide (token ∈ s.tokensRevogados)

/-- Method `limparTokensExpirados`: deletes the older half of the set. -/
def limparTokensExpirados (s : Estado) : Estado × Nat :=
  let metade := s.tokensRevogados.length / 2
  ({ s with tokensRevogados := s.tokensRevogados.drop metade }, metade)

/-- Method `bloquearIP`. -/
def bloquearIP (s : Estado) (dadosBloqueio : Bloqueio) (agora : Nat) : Estado :=
  { s with ipsBloquados :=
      mapaSet s.ipsBloquados dadosBloqueio.ip { dadosBloqueio with bloqueadoEm := agora } }

/-- Method `ipBloqueado`: an entry whose expiry has passed is deleted. -/
def ipBloqueado (s : Estado) (ip : String) (agora : Nat) : Estado × Bool :=
  match mapaGet s.ipsBloquados ip with
  | none => (s, false)
  | some bloqueio =>
    match bloqueio.expiresEm with
    | some e =>
      if agora > e then ({ s with ipsBloquados := mapaDelete s.ipsBloquados ip }, false)
      else (s, true)
    | none => (s, true)

/-- Method `desbloquearIP`. -/
def desbloquearIP (s : Estado) (ip : String) : Estado × Bool :=
  ({ s with ipsBloquados := mapaDelete s.ipsBloquados ip }, mapaHas s.ipsBloquados ip)

/-! ## ServicoAutenticacao -/

/-- The field `maxTentativas`. -/
def maxTentativas : Nat := 5

/-- The field `tempoBloqueioPadrao`: 15 minutes in milliseconds. -/
def tempoBloqueioPadrao : Nat := 15 * 60 * 1000

/-- The message of the lockout error for a positive waiting time. -/
def mensagemIPBloqueado (tempoEspera : Nat) : String :=
  "IP bloqueado. Tente novamente em " ++ toString ((tempoEspera + 59999) / 60000) ++ " minutos"

/-- The projection of a user that the service returns. -/
structure UsuarioPublico where
  id : String
  email : Option String
  nome : Option String
  deriving DecidableEq, Repr

/-- The field `analiseSeguranca` of a login result. -/
structure AnaliseSeguranca where
  riskLevel : String
  confiancaDispositivo : Nat
  deriving DecidableEq, Repr

/-- The object returned by `autenticarUsuario`. -/
structure ResultadoLogin where
  usuario : UsuarioPublico
  token : Token
  refreshToken : Token
  sessao : String
  analiseSeguranca : AnaliseSeguranca
  deriving DecidableEq, Repr

/-- The object returned by `renovarToken`. -/
structure ResultadoRenovacao where
  token : Token
  refreshToken : Token
  deriving DecidableEq, Repr

/-- Method `verificarTentativasLogin`. -/
def verificarTentativasLogin (s : Estado) (ip : String) (agora : Nat) :
    Estado × Except String Unit :=
  let tentativas := (mapaGet s.tentativasLogin ip).getD { count := 0, ultimaTentativa := 0 }
  if tentativas.count ≥ maxTentativas then
    if tentativas.ultimaTentativa + tempoBloqueioPadrao > agora then
      (s, .error (mensagemIPBloqueado (tentativas.ultimaTentativa + tempoBloqueioPadrao - agora)))
    else
      ({ s with tentativasLogin := mapaDelete s.tentativasLogin ip }, .ok ())
  else (s, .ok ())

/-- Method `registrarTentativaFalha`. -/
def registrarTentativaFalha (s : Estado) (ip : String) (email : Option String) (agora : Nat) :
    Estado :=
  let tentativas := (mapaGet s.tentativasLogin ip).getD { count := 0, ultimaTentativa := 0 }
  let novas : Tentativas := { count := tentativas.count + 1, ultimaTentativa := agora }
  criarLogAuditoria { s with tentativasLogin := mapaSet s.tentativasLogin ip novas }
    { acao := "LOGIN_FALHA", ip := some ip, email := email, tentativas := some novas.count,
      timestamp := agora } agora

/-- The part of `autenticarUsuario` that follows the credential check, for the
user found. -/
def concluirLogin (amb : Ambiente) (s : Estado) (usuario : Usuario) (req : Req)
    (ch : Chamada) : Estado × Except String ResultadoLogin :=
  match gerar req ch.depois, req.body with
  | .error m, _ => (s, .error m)
  | .ok _, none => (s, .error "Cannot read properties of undefined (reading 'localizacao')")
  | .ok fingerprint, some body =>
    match analisarTentativaLogin amb s.perfisComportamentais usuario.id
        { ip := req.ip, localizacao := body.localizacao, timestamp := ch.depois,
          fingerprint := fingerprint.fingerprint, userAgent := req.headers.userAgent } with
    | (_, .error m) => (s, .error m)
    | (perfis, .ok analiseAnomalias) =>
      let s1 := { s with perfisComportamentais := perfis }
      if analiseAnomalias.isAnomalous && decide (analiseAnomalias.riskLevel = "CRITICAL") then
        (bloquearIP s1 { ip := req.ip, motivo := "Anomalia crítica detectada",
                         expiresEm := some (ch.depois + 24 * 60 * 60 * 1000) } ch.depois,
         .error "Acesso bloqueado por segurança")
      else
        let payload : Payload :=
          { id := some usuario.id, email := usuario.email,
            fingerprint := some fingerprint.fingerprint }
        match gerarToken amb.cfg payload ch.depois, gerarRefreshToken amb.cfg payload ch.depois with
        | .error m, _ => (s1, .error m)
        | .ok _, .error m => (s1, .error m)
        | .ok token, .ok refreshToken =>
          let (s2, sessao) := criarSessao s1
            { id := ch.uuid, idUsuario := usuario.id, token := token,
              refreshToken := refreshToken, fingerprint := fingerprint.fingerprint,
              ip := req.ip, userAgent := req.headers.userAgent, criadaEm := ch.depois,
              expiresEm := ch.depois + 24 * 60 * 60 * 1000, ativa := true } ch.depois
          let s3 := { s2 with tentativasLogin := mapaDelete s2.tentativasLogin req.ip }
          let s4 := criarLogAuditoria s3
            { idUsuario := some usuario.id, acao := "LOGIN_SUCESSO", ip := some req.ip,
              userAgent := req.headers.userAgent,
              fingerprint := some fingerprint.fingerprint,
              anomalias := some analiseAnomalias.reasons, timestamp := ch.depois } ch.depois
          (s4, .ok { usuario := { id := usuario.id, email := usuario.email,
                                  nome := usuario.nome }
                     token := token
                     refreshToken := refreshToken
                     sessao := sessao.id
                     analiseSeguranca :=
                       { riskLevel := analiseAnomalias.riskLevel
                         confiancaDispositivo := fingerprint.confidence } })

/-- Method `autenticarUsuario` together with a record of its calls of
`MotorASC.verificarSenha`: the state and result of the method (the `catch`
block rethrows the error it caught) and the arguments of each call, in order.
The method calls it once, after the user lookup, against the hash of the user
found or against `hashFalso`; the steps after the credential check
(`concluirLogin`) do not call it. -/
def autenticarUsuarioRastreado (amb : Ambiente) (s : Estado) (credenciais : Corpo) (req : Req)
    (ch : Chamada) :
    (Estado × Except String ResultadoLogin) × List (Option String × HashSenha) :=
  match verificarTentativasLogin s req.ip ch.entrada with
  | (s0, .error m) => ((s0, .error m), [])
  | (s0, .ok ()) =>
    let usuario := buscarUsuarioPorEmail s0 credenciais.email
    let hash :=
      match usuario with
      | some u => u.hashSenha
      | none => hashFalso
    let senhaValida := verificarSenha credenciais.senha hash
    let chamadas := [(credenciais.senha, hash)]
    match usuario with
    | none =>
      ((registrarTentativaFalha s0 req.ip credenciais.email ch.depois,
        .error "Credenciais inválidas"), chamadas)
    | some u =>
      if !senhaValida then
        ((registrarTentativaFalha s0 req.ip credenciais.email ch.depois,
          .error "Credenciais inválidas"), chamadas)
      else (concluirLogin amb s0 u req ch, chamadas)

/-- Method `autenticarUsuario`: the state it leaves and what it returns or
throws. -/
def autenticarUsuario (amb : Ambiente) (s : Estado) (credenciais : Corpo) (req : Req)
    (ch : Chamada) : Estado × Except String ResultadoLogin :=
  (autenticarUsuarioRastreado amb s credenciais req ch).1

/-- The `try` block of `renovarToken`. -/
def renovarTokenCorpo (amb : Ambiente) (s : Estado) (refreshToken : Option Token) (req : Req)
    (ch : Chamada) : Estado × Except String ResultadoRenovacao :=
  match refreshToken with
  | none => (s, .error "Token de renovação obrigatório")
  | some rt =>
    match verificarRefreshToken amb.cfg rt ch.entrada with
    | .error m => (s, .error m)
    | .ok payload =>
      let sessoes := buscarSessoesUsuario s payload.id
      match sessoes.find? (fun x => decide (x.refreshToken = rt) && x.ativa) with
      | none => (s, .error "Sessão inválida")
      | some sessaoAtiva =>
        match gerar req ch.depois with
        | .error m => (s, .error m)
        | .ok fingerprintAtual =>
          if fingerprintAtual.fingerprint ≠ sessaoAtiva.fingerprint then
            (s, .error "Dispositivo não reconhecido")
          else
            let novoPayload : Payload :=
              { id := payload.id, email := payload.email,
                fingerprint := some fingerprintAtual.fingerprint }
            match gerarToken amb.cfg novoPayload ch.depois,
                gerarRefreshToken amb.cfg novoPayload ch.depois with
            | .error m, _ => (s, .error m)
            | .ok _, .error m => (s, .error m)
            | .ok novoToken, .ok novoRefreshToken =>
              match atualizarSessao s sessaoAtiva.id
                  { token := some novoToken, refreshToken := some novoRefreshToken,
                    atualizadaEm := some ch.depois } ch.depois with
              | (s1, .error m) => (s1, .error m)
              | (s1, .ok _) => (s1, .ok { token := novoToken, refreshToken := novoRefreshToken })

/-- Method `renovarToken`: the `catch` block replaces every error by one
message. -/
def renovarToken (amb : Ambiente) (s : Estado) (refreshToken : Option Token) (req : Req)
    (ch : Chamada) : Estado × Except String ResultadoRenovacao :=
  match renovarTokenCorpo amb s refreshToken req ch with
  | (s1, .ok r) => (s1, .ok r)
  | (s1, .error _) => (s1, .error "Token de renovação inválido")

/-- The `try` block of `logout`. -/
def logoutCorpo (amb : Ambiente) (s : Estado) (token : Token) (req : Req) (ch : Chamada) :
    Estado × Except String Bool :=
  match verificarToken amb.cfg token ch.entrada with
  | .error m => (s, .error m)
  | .ok payload =>
    let sessoes := buscarSessoesUsuario s payload.id
    let r : Estado × Except String Unit :=
      match sessoes.find? (fun x => decide (x.token = token) && x.ativa) with
      | some sessaoAtiva =>
        match atualizarSessao s sessaoAtiva.id
            { ativa := some false, finalizadaEm := some ch.entrada } ch.entrada with
        | (s1, .error m) => (s1, .error m)
        | (s1, .ok _) => (s1, .ok ())
      | none => (s, .ok ())
    match r with
    | (s1, .error m) => (s1, .error m)
    | (s1, .ok ()) =>
      let s2 := revogarToken s1 token
      let s3 := criarLogAuditoria s2
        { idUsuario := payload.id, acao := "LOGOUT", ip := some req.ip,
          timestamp := ch.entrada } ch.entrada
      (s3, .ok true)

/-- Method `logout`: the `catch` block replaces every error by one message. -/
def logout (amb : Ambiente) (s : Estado) (token : Token) (req : Req) (ch : Chamada) :
    Estado × Except String Bool :=
  match logoutCorpo amb s token req ch with
  | (s1, .ok b) => (s1, .ok b)
  | (s1, .error _) => (s1, .error "Erro ao fazer logout")

/-- Method `registrarUsuario`. -/
def registrarUsuario (amb : Ambiente) (s : Estado) (dadosRegistro : Corpo) (req : Req)
    (ch : Chamada) : Estado × Except String UsuarioPublico :=
  let (h, validacaoHoneypot) := validarSubmissao s.honeypot dadosRegistro req.ip ch.entrada
  let s0 := { s with honeypot := h }
  if validacaoHoneypot.isBot then (s0, .error "Atividade suspeita detectada")
  else
    match buscarUsuarioPorEmail s0 dadosRegistro.email with
    | some _ => (s0, .error "Usuário já existe")
    | none =>
      match dadosRegistro.senha with
      | none => (s0, .error "Cannot read properties of undefined (reading 'length')")
      | some senha =>
        if !(validarComplexidadeSenha amb.cfg senha).valida then
          (s0, .error "Senha não atende aos critérios de segurança")
        else
          match criptografarSenha (some senha) ch.sal with
          | .error m => (s0, .error m)
          | .ok hashSenha =>
            match gerar req ch.depois with
            | .error m => (s0, .error m)
            | .ok fingerprint =>
              let (s1, novoUsuario) := criarUsuario s0
                { id := ch.uuid, email := dadosRegistro.email, hashSenha := hashSenha,
                  nome := dadosRegistro.nome, criadoEm := ch.depois, ativo := true,
                  verificado := false } ch.depois
              let s2 := criarLogAuditoria s1
                { idUsuario := some novoUsuario.id, acao := "REGISTRO_USUARIO",
                  ip := some req.ip, userAgent := req.headers.userAgent,
                  fingerprint := some fingerprint.fingerprint, timestamp := ch.depois }
                ch.depois
              (s2, .ok { id := novoUsuario.id, email := novoUsuario.email,
                         nome := novoUsuario.nome })

/-! ## Sequences of calls -/

/-- One call of a method of ServicoAutenticacao with its arguments. -/
inductive Operacao where
  | registrar (dadosRegistro : Corpo) (req : Req) (ch : Chamada)
  | autenticar (credenciais : Corpo) (req : Req) (ch : Chamada)
  | renovar (refreshToken : Option Token) (req : Req) (ch : Chamada)
  | sair (token : Token) (req : Req) (ch : Chamada)

/-- The state that a call leaves, whether it returns or throws. -/
def executar (amb : Ambiente) (s : Estado) : Operacao → Estado
  | .registrar dadosRegistro req ch => (registrarUsuario amb s dadosRegistro req ch).1
  | .autenticar credenciais req ch => (autenticarUsuario amb s credenciais req ch).1
  | .renovar refreshToken req ch => (renovarToken amb s refreshToken req ch).1
  | .sair token req ch => (logout amb s token req ch).1

/-! ## MiddlewareAutenticacao -/

/-- The object the middleware stores in `req.usuario`. -/
structure UsuarioReq where
  id : Option String
  email : Option String
  fingerprint : Option Fingerprint
  deriving DecidableEq, Repr

/-- What the middleware does with a request: it answers with status 401 and a
message, or it sets `req.usuario` and `req.token` and calls `next()`. -/
inductive RespostaMiddleware where
  | status401 (mensagem : String)
  | next (usuario : UsuarioReq) (token : Token)
  deriving DecidableEq, Repr

/-- Method `verificarToken` of a MiddlewareAutenticacao instance; `adaptadorBD`
tells whether the instance was constructed with an adapter (whose collections
are then those of the state). -/
def middlewareVerificarToken (amb : Ambiente) (adaptadorBD : Bool) (s : Estado) (req : Req)
    (agora : Nat) : RespostaMiddleware :=
  match req.headers.authorization with
  | none => .status401 "Token de acesso requerido"
  | some (.outro _) => .status401 "Token de acesso requerido"
  | some (.bearer token) =>
    if adaptadorBD && tokenRevogado s token then .status401 "Token revogado"
    else
      match verificarToken amb.cfg token agora with
      | .error _ => .status401 "Token inválido"
      | .ok payload =>
        match gerar req agora with
        | .error _ => .status401 "Token inválido"
        | .ok fingerprintAtual =>
          if payload.fingerprint.isSome
              && decide (payload.fingerprint ≠ some fingerprintAtual.fingerprint) then
            .status401 "Dispositivo não reconhecido"
          else
            let inativo :=
              adaptadorBD &&
                (match buscarUsuarioPorId s payload.id with
                 | some usuario => !usuario.ativo
                 | none => true)
            if inativo then .status401 "Usuário inativo ou não encontrado"
            else .next { id := payload.id, email := payload.email,
                         fingerprint := payload.fingerprint } token

/-- The middleware instance that the module exports: constructed without an
adapter. -/
def middlewareAutenticacao (amb : Ambiente) (s : Estado) (req : Req) (agora : Nat) :
    RespostaMiddleware :=
  middlewareVerificarToken amb false s req agora

/-! ## Traces and sequences of calls -/

/-- The arguments of the calls of `MotorASC.verificarSenha` that one call of
`autenticarUsuario` makes, in order. -/
def comparacoesDeSenha (amb : Ambiente) (s : Estado) (credenciais : Corpo) (req : Req)
    (ch : Chamada) : List (Option String × HashSenha) :=
  (autenticarUsuarioRastreado amb s credenciais req ch).2

/-- A sequence of calls of `analisarTentativaLogin`, each with its user id and
attempt: the map of profiles at the end. -/
def analisarSequencia (amb : Ambiente) :
    List (String × Perfil) → List (String × DadosLogin) → List (String × Perfil)
  | perfis, [] => perfis
  | perfis, (idUsuario, dadosLogin) :: resto =>
    analisarSequencia amb (analisarTentativaLogin amb perfis idUsuario dadosLogin).1 resto

/-- The locations, in arrival order, of the attempts of one user that a
sequence of calls found not anomalous, that is, of the calls for that user that
returned an analysis with `isAnomalous = false`. -/
def localizacoesAceitas (amb : Ambiente) (usuario : String) :
    List (String × Perfil) → List (String × DadosLogin) → List (Option Localizacao)
  | _, [] => []
  | perfis, (idUsuario, dadosLogin) :: resto =>
    (match (analisarTentativaLogin amb perfis idUsuario dadosLogin).2 with
     | .ok analise =>
       if idUsuario = usuario ∧ analise.isAnomalous = false then [dadosLogin.localizacao] else []
     | .error _ => [])
    ++ localizacoesAceitas amb usuario
        (analisarTentativaLogin amb perfis idUsuario dadosLogin).1 resto

/-- The last `n` entries of a list, in order. -/
def ultimos {α : Type} (n : Nat) (l : List α) : List α := l.drop (l.length - n)

/-- One call of a method of SistemaHoneypot that changes its collections. -/
inductive ChamadaHoneypot where
  | validar (dados : Corpo) (ip : String) (agora : Nat)
  | liberar (ip : String)
  deriving DecidableEq, Repr

/-- The honeypot after a sequence of calls. -/
def executarHoneypot : Honeypot → List ChamadaHoneypot → Honeypot
  | h, [] => h
  | h, .validar dados ip agora :: resto =>
    executarHoneypot (validarSubmissao h dados ip agora).1 resto
  | h, .liberar ip :: resto => executarHoneypot (liberarIP h ip) resto

/-- The number of submissions of one IP that a sequence of calls found in
violation (`isBot = true`) since the last `liberarIP` of that IP, `n` being the
number before the sequence. -/
def violacoesDesdeLiberacao (alvo : String) : Honeypot → List ChamadaHoneypot → Nat → Nat
  | _, [], n => n
  | h, .validar dados ip agora :: resto, n =>
    violacoesDesdeLiberacao alvo (validarSubmissao h dados ip agora).1 resto
      (if ip = alvo ∧ (validarSubmissao h dados ip agora).2.isBot = true then n + 1 else n)
  | h, .liberar ip :: resto, n =>
    violacoesDesdeLiberacao alvo (liberarIP h ip) resto (if ip = alvo then 0 else n)

/-- What links the two collections of the honeypot for one IP: it has `n`
recorded activities, and it is captured exactly when `n` is at least 3. -/
def coerente (h : Honeypot) (ip : String) (n : Nat) : Prop :=
  ((mapaGet h.atividadesSuspeitas ip).getD []).length = n ∧ (ip ∈ h.ipsCapturados ↔ 3 ≤ n)

/-! ## Signals of a fingerprint -/

/-- The number of basic signals present in a component record: user agent,
accepted language, time zone. -/
def sinaisBasicos (c : Componentes) : Nat :=
  (if c.userAgent ≠ "" then 1 else 0) + (if c.idiomaAceito ≠ "" then 1 else 0)
    + (if c.fusoHorario ≠ "" then 1 else 0)

/-- The number of advanced signals present: canvas, WebGL, audio context. -/
def sinaisAvancados (c : Componentes) : Nat :=
  (if c.canvas ≠ "" then 1 else 0) + (if c.webgl ≠ "" then 1 else 0)
    + (if c.contextoAudio ≠ "" then 1 else 0)

/-- The number of hardware signals present: hardware concurrency, device
memory, colour depth. -/
def sinaisHardware (c : Componentes) : Nat :=
  (if c.concorrenciaHardware ≠ 0 then 1 else 0) + (if c.memoriaDispositivo ≠ 0 then 1 else 0)
    + (if c.profundidadeCor ≠ 0 then 1 else 0)

/-! ## AdaptadorMemoria: the rest of the persistence contract -/

/-- The argument `atualizacoes` of `atualizarUsuario`: the keys it carries. -/
structure AtualizacoesUsuario where
  email : Option String := none
  hashSenha : Option HashSenha := none
  nome : Option String := none
  ativo : Option Bool := none
  verificado : Option Bool := none
  deriving DecidableEq, Repr

/-- Method `atualizarUsuario`. -/
def atualizarUsuario (s : Estado) (id : String) (a : AtualizacoesUsuario) (agora : Nat) :
    Estado × Except String Usuario :=
  match mapaGet s.usuarios id with
  | none => (s, .error "Usuário não encontrado")
  | some usuario =>
    let usuarioAtualizado : Usuario :=
      { usuario with
        email := match a.email with
          | some e => some e
          | none => usuario.email
        hashSenha := a.hashSenha.getD usuario.hashSenha
        nome := match a.nome with
          | some n => some n
          | none => usuario.nome
        ativo := a.ativo.getD usuario.ativo
        verificado := a.verificado.getD usuario.verificado
        atualizadoEm := agora }
    ({ s with usuarios := mapaSet s.usuarios id usuarioAtualizado }, .ok usuarioAtualizado)

/-- Method `deletarUsuario`. -/
def deletarUsuario (s : Estado) (id : String) : Estado × Bool :=
  ({ s with usuarios := mapaDelete s.usuarios id }, mapaHas s.usuarios id)

/-- Method `deletarSessao`. -/
def deletarSessao (s : Estado) (id : String) : Estado × Bool :=
  ({ s with sessoes := s.sessoes.filter (fun x => decide (x.id ≠ id)) },
   (sessoesGet s.sessoes id).isSome)

/-- Method `deletarSessoesUsuario`. -/
def deletarSessoesUsuario (s : Estado) (idUsuario : String) : Estado × Nat :=
  ({ s with sessoes := s.sessoes.filter (fun x => decide (x.idUsuario ≠ idUsuario)) },
   (s.sessoes.filter (fun x => decide (x.idUsuario = idUsuario))).length)

/-- One call of an operation of the persistence contract on the memory
adapter, with its arguments and the clock reading; `consulta` stands for the
operations that only read (`buscarUsuarioPorEmail`, `buscarUsuarioPorId`,
`buscarSessaoPorId`, `buscarSessoesUsuario`, `buscarLogsAuditoria`,
`tokenRevogado`). -/
inductive ChamadaAdaptador where
  | criarUsuario (dadosUsuario : Usuario) (agora : Nat)
  | atualizarUsuario (id : String) (atualizacoes : AtualizacoesUsuario) (agora : Nat)
  | deletarUsuario (id : String)
  | criarSessao (dadosSessao : Sessao) (agora : Nat)
  | atualizarSessao (id : String) (atualizacoes : AtualizacoesSessao) (agora : Nat)
  | deletarSessao (id : String)
  | deletarSessoesUsuario (idUsuario : String)
  | criarLogAuditoria (dadosLog : LogAuditoria) (agora : Nat)
  | revogarToken (token : Token)
  | limparTokensExpirados
  | bloquearIP (dadosBloqueio : Bloqueio) (agora : Nat)
  | ipBloqueado (ip : String) (agora : Nat)
  | desbloquearIP (ip : String)
  | consulta
  deriving DecidableEq, Repr

/-- The adapter state after one call. -/
def aplicarChamada (s : Estado) : ChamadaAdaptador → Estado
  | .criarUsuario dadosUsuario agora => (criarUsuario s dadosUsuario agora).1
  | .atualizarUsuario id atualizacoes agora => (atualizarUsuario s id atualizacoes agora).1
  | .deletarUsuario id => (deletarUsuario s id).1
  | .criarSessao dadosSessao agora => (criarSessao s dadosSessao agora).1
  | .atualizarSessao id atualizacoes agora => (atualizarSessao s id atualizacoes agora).1
  | .deletarSessao id => (deletarSessao s id).1
  | .deletarSessoesUsuario idUsuario => (deletarSessoesUsuario s idUsuario).1
  | .criarLogAuditoria dadosLog agora => criarLogAuditoria s dadosLog agora
  | .revogarToken token => revogarToken s token
  | .limparTokensExpirados => (limparTokensExpirados s).1
  | .bloquearIP dadosBloqueio agora => bloquearIP s dadosBloqueio agora
  | .ipBloqueado ip agora => (ipBloqueado s ip agora).1
  | .desbloquearIP ip => (desbloquearIP s ip).1
  | .consulta => s

/-- The adapter state after a sequence of calls. -/
def executarAdaptador (s : Estado) (chamadas : List ChamadaAdaptador) : Estado :=
  chamadas.foldl aplicarChamada s

/-! ## Results of a sequence of analyses -/

/-- The results of a sequence of calls of `analisarTentativaLogin`, in order. -/
def analisesDaSequencia (amb : Ambiente) :
    List (String × Perfil) → List (String × DadosLogin) → List (Except String Analise)
  | _, [] => []
  | perfis, (idUsuario, dadosLogin) :: resto =>
    (analisarTentativaLogin amb perfis idUsuario dadosLogin).2
      :: analisesDaSequencia amb (analisarTentativaLogin amb perfis idUsuario dadosLogin).1 resto

/-! ## ASCSimples -/

/-- The optional argument `req` of the methods of ASCSimples: the two
properties they read, each possibly absent. -/
structure ContextoSimples where
  ip : Option String := none
  headers : Option Cabecalhos := none
  deriving DecidableEq, Repr

/-- The expression `req.ip || '127.0.0.1'`. -/
def ipOuLocal (ctx : ContextoSimples) : String :=
  match ctx.ip with
  | some ip => if ip = "" then "127.0.0.1" else ip
  | none => "127.0.0.1"

/-- The expression `req.headers || { 'user-agent': 'ASC-Cliente' }`. -/
def cabecalhosOuCliente (ctx : ContextoSimples) : Cabecalhos :=
  ctx.headers.getD { userAgent := some "ASC-Cliente" }

/-- Method `registrar` of ASCSimples: the form carries the three decoy fields
empty and is also the body of the simulated request. -/
def ASCSimples.registrar (amb : Ambiente) (s : Estado) (email senha nome : Option String)
    (ctx : ContextoSimples) (ch : Chamada) : Estado × Except String UsuarioPublico :=
  let dadosRegistro : Corpo :=
    { email := email, senha := senha, nome := nome, email_confirmacao := some "",
      website := some "", numero_telefone := some "" }
  registrarUsuario amb s dadosRegistro
    { ip := ipOuLocal ctx, headers := cabecalhosOuCliente ctx, body := some dadosRegistro } ch

/-- Method `login` of ASCSimples. -/
def ASCSimples.login (amb : Ambiente) (s : Estado) (email senha : Option String)
    (ctx : ContextoSimples) (ch : Chamada) : Estado × Except String ResultadoLogin :=
  let credenciais : Corpo :=
    { email := email, senha := senha, email_confirmacao := some "", website := some "",
      numero_telefone := some "" }
  autenticarUsuario amb s credenciais
    { ip := ipOuLocal ctx, headers := cabecalhosOuCliente ctx, body := some credenciais } ch

/-- Method `renovarToken` of ASCSimples: the simulated request has no body. -/
def ASCSimples.renovarToken (amb : Ambiente) (s : Estado) (refreshToken : Option Token)
    (ctx : ContextoSimples) (ch : Chamada) : Estado × Except String ResultadoRenovacao :=
  ASC.renovarToken amb s refreshToken
    { ip := ipOuLocal ctx, headers := cabecalhosOuCliente ctx, body := none } ch

/-! ## ServicoAutenticacao over a store that may reject -/

/-- The methods of the persistence contract that ServicoAutenticacao calls. -/
inductive MetodoAdaptador where
  | buscarUsuarioPorEmail
  | criarUsuario
  | criarSessao
  | buscarSessoesUsuario
  | atualizarSessao
  | criarLogAuditoria
  | revogarToken
  | bloquearIP
  deriving DecidableEq, Repr

/-- A store that is partly unavailable: `falhas m = some e` means that every
call of method `m` of the adapter rejects with an Error of message `e` and
leaves the store untouched; the other methods behave as AdaptadorMemoria. -/
abbrev Falhas := MetodoAdaptador → Option String

/-- The store in which every method is available. -/
def semFalhas : Falhas := fun _ => none

/-- Method `registrarUsuario` over a store that may reject; the method has no
`catch`, so a rejection leaves it as thrown. -/
def registrarUsuarioCom (falhas : Falhas) (amb : Ambiente) (s : Estado) (dadosRegistro : Corpo)
    (req : Req) (ch : Chamada) : Estado × Except String UsuarioPublico :=
  let (h, validacaoHoneypot) := validarSubmissao s.honeypot dadosRegistro req.ip ch.entrada
  let s0 := { s with honeypot := h }
  if validacaoHoneypot.isBot then (s0, .error "Atividade suspeita detectada")
  else
    match falhas .buscarUsuarioPorEmail with
    | some e => (s0, .error e)
    | none =>
      match buscarUsuarioPorEmail s0 dadosRegistro.email with
      | some _ => (s0, .error "Usuário já existe")
      | none =>
        match dadosRegistro.senha with
        | none => (s0, .error "Cannot read properties of undefined (reading 'length')")
        | some senha =>
          if !(validarComplexidadeSenha amb.cfg senha).valida then
            (s0, .error "Senha não atende aos critérios de segurança")
          else
            match criptografarSenha (some senha) ch.sal with
            | .error m => (s0, .error m)
            | .ok hashSenha =>
              match gerar req ch.depois with
              | .error m => (s0, .error m)
              | .ok fingerprint =>
                match falhas .criarUsuario with
                | some e => (s0, .error e)
                | none =>
                  let (s1, novoUsuario) := criarUsuario s0
                    { id := ch.uuid, email := dadosRegistro.email, hashSenha := hashSenha,
                      nome := dadosRegistro.nome, criadoEm := ch.depois, ativo := true,
                      verificado := false } ch.depois
                  match falhas .criarLogAuditoria with
                  | some e => (s1, .error e)
                  | none =>
                    let s2 := criarLogAuditoria s1
                      { idUsuario := some novoUsuario.id, acao := "REGISTRO_USUARIO",
                        ip := some req.ip, userAgent := req.headers.userAgent,
                        fingerprint := some fingerprint.fingerprint, timestamp := ch.depois }
                      ch.depois
                    (s2, .ok { id := novoUsuario.id, email := novoUsuario.email,
                               nome := novoUsuario.nome })

/-- Method `registrarTentativaFalha` over a store that may reject: the counter
is updated before the audit record is written. -/
def registrarTentativaFalhaCom (falhas : Falhas) (s : Estado) (ip : String)
    (email : Option String) (agora : Nat) : Estado × Except String Unit :=
  let tentativas := (mapaGet s.tentativasLogin ip).getD { count := 0, ultimaTentativa := 0 }
  let novas : Tentativas := { count := tentativas.count + 1, ultimaTentativa := agora }
  let s1 := { s with tentativasLogin := mapaSet s.tentativasLogin ip novas }
  match falhas .criarLogAuditoria with
  | some e => (s1, .error e)
  | none =>
    (criarLogAuditoria s1
      { acao := "LOGIN_FALHA", ip := some ip, email := email, tentativas := some novas.count,
        timestamp := agora } agora, .ok ())

/-- The part of `autenticarUsuario` that follows the credential check, over a
store that may reject. -/
def concluirLoginCom (falhas : Falhas) (amb : Ambiente) (s : Estado) (usuario : Usuario)
    (req : Req) (ch : Chamada) : Estado × Except String ResultadoLogin :=
  match gerar req ch.depois, req.body with
  | .error m, _ => (s, .error m)
  | .ok _, none => (s, .error "Cannot read properties of undefined (reading 'localizacao')")
  | .ok fingerprint, some body =>
    match analisarTentativaLogin amb s.perfisComportamentais usuario.id
        { ip := req.ip, localizacao := body.localizacao, timestamp := ch.depois,
          fingerprint := fingerprint.fingerprint, userAgent := req.headers.userAgent } with
    | (_, .error m) => (s, .error m)
    | (perfis, .ok analiseAnomalias) =>
      let s1 := { s with perfisComportamentais := perfis }
      if analiseAnomalias.isAnomalous && decide (analiseAnomalias.riskLevel = "CRITICAL") then
        match falhas .bloquearIP with
        | some e => (s1, .error e)
        | none =>
          (bloquearIP s1 { ip := req.ip, motivo := "Anomalia crítica detectada",
                           expiresEm := some (ch.depois + 24 * 60 * 60 * 1000) } ch.depois,
           .error "Acesso bloqueado por segurança")
      else
        let payload : Payload :=
          { id := some usuario.id, email := usuario.email,
            fingerprint := some fingerprint.fingerprint }
        match gerarToken amb.cfg payload ch.depois, gerarRefreshToken amb.cfg payload ch.depois with
        | .error m, _ => (s1, .error m)
        | .ok _, .error m => (s1, .error m)
        | .ok token, .ok refreshToken =>
          match falhas .criarSessao with
          | some e => (s1, .error e)
          | none =>
            let (s2, sessao) := criarSessao s1
              { id := ch.uuid, idUsuario := usuario.id, token := token,
                refreshToken := refreshToken, fingerprint := fingerprint.fingerprint,
                ip := req.ip, userAgent := req.headers.userAgent, criadaEm := ch.depois,
                expiresEm := ch.depois + 24 * 60 * 60 * 1000, ativa := true } ch.depois
            let s3 := { s2 with tentativasLogin := mapaDelete s2.tentativasLogin req.ip }
            match falhas .criarLogAuditoria with
            | some e => (s3, .error e)
            | none =>
              let s4 := criarLogAuditoria s3
                { idUsuario := some usuario.id, acao := "LOGIN_SUCESSO", ip := some req.ip,
                  userAgent := req.headers.userAgent,
                  fingerprint := some fingerprint.fingerprint,
                  anomalias := some analiseAnomalias.reasons, timestamp := ch.depois } ch.depois
              (s4, .ok { usuario := { id := usuario.id, email := usuario.email,
                                      nome := usuario.nome }
                         token := token
                         refreshToken := refreshToken
                         sessao := sessao.id
                         analiseSeguranca :=
                           { riskLevel := analiseAnomalias.riskLevel
                             confiancaDispositivo := fingerprint.confidence } })

/-- Method `autenticarUsuario` over a store that may reject; the `catch` block
rethrows the error it caught. -/
def autenticarUsuarioCom (falhas : Falhas) (amb : Ambiente) (s : Estado) (credenciais : Corpo)
    (req : Req) (ch : Chamada) : Estado × Except String ResultadoLogin :=
  match verificarTentativasLogin s req.ip ch.entrada with
  | (s0, .error m) => (s0, .error m)
  | (s0, .ok ()) =>
    match falhas .buscarUsuarioPorEmail with
    | some e => (s0, .error e)
    | none =>
      let usuario := buscarUsuarioPorEmail s0 credenciais.email
      let senhaValida := verificarSenha credenciais.senha
        (match usuario with
         | some u => u.hashSenha
         | none => hashFalso)
      match usuario with
      | none =>
        match registrarTentativaFalhaCom falhas s0 req.ip credenciais.email ch.depois with
        | (s1, .error e) => (s1, .error e)
        | (s1, .ok ()) => (s1, .error "Credenciais inválidas")
      | some u =>
        if !senhaValida then
          match registrarTentativaFalhaCom falhas s0 req.ip credenciais.email ch.depois with
          | (s1, .error e) => (s1, .error e)
          | (s1, .ok ()) => (s1, .error "Credenciais inválidas")
        else concluirLoginCom falhas amb s0 u req ch

/-- The `try` block of `renovarToken` over a store that may reject. -/
def renovarTokenCorpoCom (falhas : Falhas) (amb : Ambiente) (s : Estado)
    (refreshToken : Option Token) (req : Req) (ch : Chamada) :
    Estado × Except String ResultadoRenovacao :=
  match refreshToken with
  | none => (s, .error "Token de renovação obrigatório")
  | some rt =>
    match verificarRefreshToken amb.cfg rt ch.entrada with
    | .error m => (s, .error m)
    | .ok payload =>
      match falhas .buscarSessoesUsuario with
      | some e => (s, .error e)
      | none =>
        let sessoes := buscarSessoesUsuario s payload.id
        match sessoes.find? (fun x => decide (x.refreshToken = rt) && x.ativa) with
        | none => (s, .error "Sessão inválida")
        | some sessaoAtiva =>
          match gerar req ch.depois with
          | .error m => (s, .error m)
          | .ok fingerprintAtual =>
            if fingerprintAtual.fingerprint ≠ sessaoAtiva.fingerprint then
              (s, .error "Dispositivo não reconhecido")
            else
              let novoPayload : Payload :=
                { id := payload.id, email := payload.email,
                  fingerprint := some fingerprintAtual.fingerprint }
              match gerarToken amb.cfg novoPayload ch.depois,
                  gerarRefreshToken amb.cfg novoPayload ch.depois with
              | .error m, _ => (s, .error m)
              | .ok _, .error m => (s, .error m)
              | .ok novoToken, .ok novoRefreshToken =>
                match falhas .atualizarSessao with
                | some e => (s, .error e)
                | none =>
                  match atualizarSessao s sessaoAtiva.id
                      { token := some novoToken, refreshToken := some novoRefreshToken,
                        atualizadaEm := some ch.depois } ch.depois with
                  | (s1, .error m) => (s1, .error m)
                  | (s1, .ok _) =>
                    (s1, .ok { token := novoToken, refreshToken := novoRefreshToken })

/-- Method `renovarToken` over a store that may reject: the `catch` block
replaces every error by one message. -/
def renovarTokenCom (falhas : Falhas) (amb : Ambiente) (s : Estado)
    (refreshToken : Option Token) (req : Req) (ch : Chamada) :
    Estado × Except String ResultadoRenovacao :=
  match renovarTokenCorpoCom falhas amb s refreshToken req ch with
  | (s1, .ok r) => (s1, .ok r)
  | (s1, .error _) => (s1, .error "Token de renovação inválido")

/-- The `try` block of `logout` over a store that may reject. -/
def logoutCorpoCom (falhas : Falhas) (amb : Ambiente) (s : Estado) (token : Token) (req : Req)
    (ch : Chamada) : Estado × Except String Bool :=
  match verificarToken amb.cfg token ch.entrada with
  | .error m => (s, .error m)
  | .ok payload =>
    match falhas .buscarSessoesUsuario with
    | some e => (s, .error e)
    | none =>
      let sessoes := buscarSessoesUsuario s payload.id
      let r : Estado × Except String Unit :=
        match sessoes.find? (fun x => decide (x.token = token) && x.ativa) with
        | some sessaoAtiva =>
          match falhas .atualizarSessao with
          | some e => (s, .error e)
          | none =>
            match atualizarSessao s sessaoAtiva.id
                { ativa := some false, finalizadaEm := some ch.entrada } ch.entrada with
            | (s1, .error m) => (s1, .error m)
            | (s1, .ok _) => (s1, .ok ())
        | none => (s, .ok ())
      match r with
      | (s1, .error m) => (s1, .error m)
      | (s1, .ok ()) =>
        match falhas .revogarToken with
        | some e => (s1, .error e)
        | none =>
          let s2 := revogarToken s1 token
          match falhas .criarLogAuditoria with
          | some e => (s2, .error e)
          | none =>
            let s3 := criarLogAuditoria s2
              { idUsuario := payload.id, acao := "LOGOUT", ip := some req.ip,
                timestamp := ch.entrada } ch.entrada
            (s3, .ok true)

/-- Method `logout` over a store that may reject: the `catch` block replaces
every error by one message. -/
def logoutCom (falhas : Falhas) (amb : Ambiente) (s : Estado) (token : Token) (req : Req)
    (ch : Chamada) : Estado × Except String Bool :=
  match logoutCorpoCom falhas amb s token req ch with
  | (s1, .ok b) => (s1, .ok b)
  | (s1, .error _) => (s1, .error "Erro ao fazer logout")

/-! ## Example inputs -/

deriving instance DecidableEq for Except

/-- The payload of the unit test `testarGeracaoToken`. -/
def payloadExemplo : Payload := { id := some "teste123", email := some "teste@exemplo.com" }

/-- The host of the examples: default configuration, a server clock in UTC,
and a distance function that is exact on coincident points and gives every
other pair the distance between São Paulo and Tokyo (about 18 530 km), the only
pair of distinct points at which the examples evaluate it. -/
def ambExemplo : Ambiente :=
  { cfg := configuracaoPadrao "segredo"
    haversine := fun la1 lo1 la2 lo2 => if la1 = la2 ∧ lo1 = lo2 then some 0 else some 18530
    getHours := fun t => (t / 3600000) % 24 }

/-- A registration form with the three decoy fields left empty. -/
def corpoRegistro : Corpo :=
  { nome := some "A", email := some "a@x.com", senha := some "Str0ng!Pass",
    email_confirmacao := some "", website := some "", numero_telefone := some "" }

/-- A login form with the password of `corpoRegistro`. -/
def corpoLogin : Corpo :=
  { email := some "a@x.com", senha := some "Str0ng!Pass" }

/-- A login form with another password. -/
def corpoSenhaErrada : Corpo :=
  { email := some "a@x.com", senha := some "errada" }

/-- A request from a browser at one address, carrying the given body. -/
def reqDe (corpo : Corpo) : Req :=
  { ip := "203.0.113.7", headers := { userAgent := some "Mozilla/5.0" }, body := some corpo }

/-- The state after `a@x.com` has registered on a fresh process. -/
def estadoRegistrado : Estado :=
  (registrarUsuario ambExemplo {} corpoRegistro (reqDe corpoRegistro)
    { entrada := 1700000000000, depois := 1700000000300, uuid := "usuario-1",
      sal := "sal-1" }).1

/-- The user record that the registration stores. -/
def usuarioExemplo : Usuario :=
  { id := "usuario-1", email := some "a@x.com", hashSenha := .bcrypt "Str0ng!Pass" "sal-1",
    nome := some "A", criadoEm := 1700000000300, atualizadoEm := 1700000000300, ativo := true,
    verificado := false }

/-- The state after one more login attempt with the wrong password, entered
at instant `t`. -/
def aposFalha (s : Estado) (t : Nat) : Estado :=
  (autenticarUsuario ambExemplo s corpoSenhaErrada (reqDe corpoSenhaErrada)
    { entrada := t, depois := t + 200 }).1

/-- The state after five attempts with the wrong password, one per minute. -/
def estadoCincoFalhas : Estado :=
  aposFalha (aposFalha (aposFalha (aposFalha (aposFalha estadoRegistrado
    1700000060000) 1700000120000) 1700000180000) 1700000240000) 1700000300000

/-- A login form with the right password, sent from São Paulo. -/
def corpoLoginSP : Corpo :=
  { email := some "a@x.com", senha := some "Str0ng!Pass",
    localizacao := some { lat := some (-2355 / 100), lon := some (-4663 / 100) } }

/-- The fingerprint of the requests built by `reqDe`. -/
def fingerprintExemplo : Fingerprint := fingerprintDe (reqDe corpoLoginSP).headers corpoLoginSP

/-- The first login of `a@x.com`, signed at second 1700000100. -/
def loginExemplo : Estado × Except String ResultadoLogin :=
  autenticarUsuario ambExemplo estadoRegistrado corpoLoginSP (reqDe corpoLoginSP)
    { entrada := 1700000100000, depois := 1700000100250, uuid := "sessao-1" }

/-- The state after the first login. -/
def estadoLogado : Estado := loginExemplo.1

/-- The access token that the first login returns. -/
def tokenExemplo : Token :=
  { id := some "usuario-1", email := some "a@x.com", fingerprint := some fingerprintExemplo,
    iat := 1700000100, exp := 1700086500, nbf := none, iss := "ASC-System",
    aud := "ASC-Client", chave := "segredo" }

/-- The refresh token that the first login returns. -/
def refreshExemplo : Token :=
  { id := some "usuario-1", email := some "a@x.com", fingerprint := some fingerprintExemplo,
    iat := 1700000100, exp := 1700604900, nbf := none, iss := "ASC-System",
    aud := "ASC-Refresh", chave := "segredo" }

/-- The session that the first login stores. -/
def sessaoExemplo : Sessao :=
  { id := "sessao-1", idUsuario := "usuario-1", token := tokenExemplo,
    refreshToken := refreshExemplo, fingerprint := fingerprintExemplo, ip := "203.0.113.7",
    userAgent := some "Mozilla/5.0", criadaEm := 1700000100250,
    atualizadaEm := 1700000100250, expiresEm := 1700086500250, ativa := true }

/-- A request from the same address sent by another program. -/
def reqOutroDispositivo : Req :=
  { ip := "203.0.113.7", headers := { userAgent := some "curl/8.0" }, body := some {} }

/-- A second login of `a@x.com` from the same device and place, signed in the
same second as the first. -/
def segundoLoginExemplo : Estado × Except String ResultadoLogin :=
  autenticarUsuario ambExemplo estadoLogado corpoLoginSP (reqDe corpoLoginSP)
    { entrada := 1700000100600, depois := 1700000100900, uuid := "sessao-2" }

/-- The state after the two logins: two active sessions with the same tokens. -/
def estadoDuasSessoes : Estado := segundoLoginExemplo.1

/-- A request from the browser of `reqDe` that presents the access token of
the first login. -/
def reqComToken : Req :=
  { ip := "203.0.113.7",
    headers := { userAgent := some "Mozilla/5.0", authorization := some (.bearer tokenExemplo) },
    body := some {} }

/-- The state after the first login and a logout with its access token. -/
def estadoAposLogout : Estado :=
  (logout ambExemplo estadoLogado tokenExemplo (reqDe {})
    { entrada := 1700000300000, depois := 1700000300000 }).1

/-- The state after one more login of `a@x.com` from São Paulo, entered at
instant `t`, with session id `uuid`. -/
def aposLoginSP (s : Estado) (t : Nat) (uuid : String) : Estado :=
  (autenticarUsuario ambExemplo s corpoLoginSP (reqDe corpoLoginSP)
    { entrada := t, depois := t + 250, uuid := uuid }).1

/-- The state after five logins from São Paulo on five consecutive days at
22 h UTC: the profile of the user now has five recorded logins. -/
def estadoCincoLogins : Estado :=
  aposLoginSP (aposLoginSP (aposLoginSP (aposLoginSP estadoLogado
    1700086500000 "sessao-2") 1700172900000 "sessao-3") 1700259300000 "sessao-4")
    1700345700000 "sessao-5"

/-- A login form with the right password whose location object carries no
coordinates. -/
def corpoLoginSemCoordenadas : Corpo :=
  { email := some "a@x.com", senha := some "Str0ng!Pass",
    localizacao := some { lat := none, lon := none } }

/-- A login form with the right password, sent from Tokyo. -/
def corpoLoginToquio : Corpo :=
  { email := some "a@x.com", senha := some "Str0ng!Pass",
    localizacao := some { lat := some (3568 / 100), lon := some (13969 / 100) } }

/-- The sixth login, from Tokyo at 10 h UTC. -/
def loginToquio : Estado × Except String ResultadoLogin :=
  autenticarUsuario ambExemplo estadoCincoLogins corpoLoginToquio (reqDe corpoLoginToquio)
    { entrada := 1700388900000, depois := 1700388900250, uuid := "sessao-6" }

/-- A login form for an address that nobody registered. -/
def corpoDesconhecido : Corpo :=
  { email := some "ninguem@x.com", senha := some "Str0ng!Pass" }

/-- A login attempt of the browser of `reqDe` that carries no location, as sent
by a client that omits the optional field `localizacao`. -/
def tentativaSemLocalizacao (agora : Nat) : DadosLogin :=
  { ip := "203.0.113.7", localizacao := none, timestamp := agora,
    fingerprint := fingerprintExemplo, userAgent := some "Mozilla/5.0" }

/-- The human submission of the unit test `testarHoneypot`: the decoy field is
present and empty, the form was issued five seconds before instant
1700000000000. -/
def dadosHumano : Corpo :=
  { email := some "teste@exemplo.com", senha := some "senha123",
    email_confirmacao := some "", timestamp := some "1699999995000" }

/-- A submission with two decoy fields filled and the third one present and
empty, issued half a second before instant 1700000000000. -/
def dadosBotRapido : Corpo :=
  { email := some "teste@exemplo.com", senha := some "senha123",
    email_confirmacao := some "preenchido-por-bot", website := some "http://bot.example",
    numero_telefone := some "", timestamp := some "1699999999500" }

/-- The same submission without the key of the third decoy field. -/
def dadosBotSemTerceiro : Corpo :=
  { email := some "teste@exemplo.com", senha := some "senha123",
    email_confirmacao := some "preenchido-por-bot", website := some "http://bot.example",
    timestamp := some "1699999999500" }

/-- A host whose distance function measures about 111 km per degree along both
axes, for attempts a few kilometres apart. -/
def ambVizinhanca : Ambiente :=
  { cfg := configuracaoPadrao "segredo"
    haversine := fun la1 lo1 la2 lo2 =>
      some (arredondar (111 * |la2 - la1| + 111 * |lo2 - lo1|))
    getHours := fun t => (t / 3600000) % 24 }

/-- The attempt of day `k` of one user: the same browser at 22 h UTC, each day
one hundredth of a degree further north. -/
def tentativaDoDia (k : Nat) : String × DadosLogin :=
  ("usuario-1",
   { ip := "203.0.113.7"
     localizacao := some { lat := some (-2355 / 100 + (k : ℚ) / 100), lon := some (-4663 / 100) }
     timestamp := 1700000100250 + 86400000 * k
     fingerprint := fingerprintExemplo
     userAgent := some "Mozilla/5.0" })

/-- A browser request whose body reports a battery level of zero. -/
def reqBateriaZero : Req :=
  { ip := "203.0.113.7", headers := { userAgent := some "Mozilla/5.0" },
    body := some { nivelBateria := some 0 } }

/-- The same request without the key `nivelBateria`. -/
def reqSemBateria : Req :=
  { ip := "203.0.113.7", headers := { userAgent := some "Mozilla/5.0" }, body := some {} }

/-- The same request with `cookieHabilitado: true`. -/
def reqComCookies : Req :=
  { ip := "203.0.113.7", headers := { userAgent := some "Mozilla/5.0" },
    body := some { cookieHabilitado := some true } }

/-- The same request with `cookieHabilitado: false`. -/
def reqSemCookies : Req :=
  { ip := "203.0.113.7", headers := { userAgent := some "Mozilla/5.0" },
    body := some { cookieHabilitado := some false } }

/-- The same request from the time zone of São Paulo. -/
def reqFusoSaoPaulo : Req :=
  { ip := "203.0.113.7", headers := { userAgent := some "Mozilla/5.0" },
    body := some { fusoHorario := some "America/Sao_Paulo" } }

/-- The same request from the time zone of Tokyo. -/
def reqFusoToquio : Req :=
  { ip := "203.0.113.7", headers := { userAgent := some "Mozilla/5.0" },
    body := some { fusoHorario := some "Asia/Tokyo" } }

/-- A login attempt of the browser of `reqDe` from São Paulo. -/
def tentativaDeSaoPaulo (agora : Nat) : DadosLogin :=
  { ip := "203.0.113.7", localizacao := corpoLoginSP.localizacao, timestamp := agora,
    fingerprint := fingerprintExemplo, userAgent := some "Mozilla/5.0" }

/-- The state after `registrar('a@x.com', 'Str0ng!Pass', 'A')` on a fresh
ASCSimples instance, with the default context. -/
def simplesRegistrado : Estado :=
  (ASCSimples.registrar ambExemplo {} (some "a@x.com") (some "Str0ng!Pass") (some "A") {}
    { entrada := 1700000000000, depois := 1700000000300, uuid := "usuario-1",
      sal := "sal-1" }).1

/-- The call `login('a@x.com', 'Str0ng!Pass')` that follows, with the default
context. -/
def simplesLogin : Estado × Except String ResultadoLogin :=
  ASCSimples.login ambExemplo simplesRegistrado (some "a@x.com") (some "Str0ng!Pass") {}
    { entrada := 1700000100000, depois := 1700000100250, uuid := "sessao-1" }

/-- The refresh token that this login returns. -/
def simplesRefresh : Token :=
  { id := some "usuario-1", email := some "a@x.com",
    fingerprint := some (fingerprintDe { userAgent := some "ASC-Cliente" } {}),
    iat := 1700000100, exp := 1700604900, nbf := none, iss := "ASC-System",
    aud := "ASC-Refresh", chave := "segredo" }

/-- A store that is down: every method rejects with the same connection
error. -/
def armazenamentoIndisponivel : Falhas :=
  fun _ => some "ECONNREFUSED: armazenamento indisponível"

/-- The state after five logins of `a@x.com` from São Paulo on five consecutive
days, the first at 4 h UTC and the others at 5 h UTC: the hours of the profile
add up to 24. -/
def estadoCincoMadrugadas : Estado :=
  aposLoginSP (aposLoginSP (aposLoginSP (aposLoginSP (aposLoginSP estadoRegistrado
    1700020800000 "sessao-1") 1700110800000 "sessao-2") 1700197200000 "sessao-3")
    1700283600000 "sessao-4") 1700370000000 "sessao-5"

/-- The sixth login, from Tokyo at 0 h UTC, sent by another program. -/
def loginNoLimiar : Estado × Except String ResultadoLogin :=
  autenticarUsuario ambExemplo estadoCincoMadrugadas corpoLoginToquio
    { ip := "203.0.113.7", headers := { userAgent := some "curl/8.0" },
      body := some corpoLoginToquio }
    { entrada := 1700438400000, depois := 1700438400250, uuid := "sessao-6" }

/-! # Properties -/

/-! ## Doubles -/

theorem contarMetades_limites (passos n : Nat) (hn : 0 < n) (hp : n ≤ passos) :
    2 ^ contarMetades passos n ≤ n ∧ n < 2 ^ (contarMetades passos n + 1) := by
  induction passos generalizing n with
  | zero => omega
  | succ p ih =>
    unfold contarMetades
    by_cases h2 : n < 2
    · simp only [h2, if_true]
      constructor <;> simp <;> omega
    · simp only [h2, if_false]
      have hd : 0 < n / 2 := Nat.div_pos (by omega) (by norm_num)
      have hle : n / 2 ≤ p := by omega
      obtain ⟨h1, h3⟩ := ih (n / 2) hd hle
      constructor
      · rw [pow_succ]; omega
      · rw [pow_succ]; omega

theorem logaritmoBinario_limites (n : Nat) (hn : 0 < n) :
    2 ^ logaritmoBinario n ≤ n ∧ n < 2 ^ (logaritmoBinario n + 1) :=
  contarMetades_limites n n hn le_rfl

theorem doisElevado_zpow (k : Int) : doisElevado k = (2 : ℚ) ^ k := by
  unfold doisElevado
  by_cases h : 0 ≤ k
  · simp only [h, if_true]
    obtain ⟨n, rfl⟩ := Int.eq_ofNat_of_zero_le h
    simp
  · simp only [h, if_false]
    push_neg at h
    obtain ⟨n, hn⟩ := Int.eq_ofNat_of_zero_le (by omega : 0 ≤ -k)
    have hk : k = -(n : Int) := by omega
    subst hk
    simp

theorem doisElevado_pos (k : Int) : 0 < doisElevado k := by
  rw [doisElevado_zpow]; positivity

theorem doisElevado_mono {a b : Int} (h : a ≤ b) : doisElevado a ≤ doisElevado b := by
  rw [doisElevado_zpow, doisElevado_zpow]
  exact zpow_le_zpow_right₀ (by norm_num) h

theorem expoenteBinario_limites (q : ℚ) (hq : 0 < q) :
    doisElevado (expoenteBinario q) ≤ q ∧ q < doisElevado (expoenteBinario q + 1) := by
  have hnum : 0 < q.num := Rat.num_pos.mpr hq
  have hn : 0 < q.num.natAbs := Int.natAbs_pos.mpr (ne_of_gt hnum)
  have hd : 0 < q.den := q.den_pos
  obtain ⟨n1, n2⟩ := logaritmoBinario_limites _ hn
  obtain ⟨d1, d2⟩ := logaritmoBinario_limites _ hd
  have hqe : q = (q.num.natAbs : ℚ) / (q.den : ℚ) := by
    have h := (Rat.num_div_den q).symm
    have h2 : (q.num : ℚ) = (q.num.natAbs : ℚ) := by
      have h3 : ((q.num.natAbs : Int) : ℚ) = (q.num : ℚ) := by
        rw [Int.natAbs_of_nonneg (le_of_lt hnum)]
      rw [← h3]; exact (Int.cast_natCast _)
    rw [h2] at h
    exact h
  set a := logaritmoBinario q.num.natAbs with ha
  set b := logaritmoBinario q.den with hb
  have hdq : (0 : ℚ) < (q.den : ℚ) := by exact_mod_cast hd
  have n1q : (2 : ℚ) ^ a ≤ (q.num.natAbs : ℚ) := by exact_mod_cast n1
  have n2q : (q.num.natAbs : ℚ) < (2 : ℚ) ^ (a + 1) := by exact_mod_cast n2
  have d1q : (2 : ℚ) ^ b ≤ (q.den : ℚ) := by exact_mod_cast d1
  have d2q : (q.den : ℚ) < (2 : ℚ) ^ (b + 1) := by exact_mod_cast d2
  -- bounds of q
  have hlow : (2 : ℚ) ^ ((a : Int) - b - 1) < q := by
    rw [hqe, lt_div_iff₀ hdq]
    have : (2 : ℚ) ^ ((a : Int) - b - 1) * (2 : ℚ) ^ (b + 1) = (2 : ℚ) ^ a := by
      rw [← zpow_natCast (2 : ℚ) (b + 1), ← zpow_add₀ (by norm_num : (2 : ℚ) ≠ 0),
        ← zpow_natCast (2 : ℚ) a]
      congr 1; push_cast; ring
    calc (2 : ℚ) ^ ((a : Int) - b - 1) * (q.den : ℚ)
        < (2 : ℚ) ^ ((a : Int) - b - 1) * (2 : ℚ) ^ (b + 1) := by
          apply mul_lt_mul_of_pos_left d2q; positivity
      _ = (2 : ℚ) ^ a := this
      _ ≤ _ := n1q
  have hhigh : q < (2 : ℚ) ^ ((a : Int) - b + 1) := by
    rw [hqe, div_lt_iff₀ hdq]
    have : (2 : ℚ) ^ ((a : Int) - b + 1) * (2 : ℚ) ^ b = (2 : ℚ) ^ (a + 1) := by
      rw [← zpow_natCast (2 : ℚ) b, ← zpow_add₀ (by norm_num : (2 : ℚ) ≠ 0),
        ← zpow_natCast (2 : ℚ) (a + 1)]
      congr 1; push_cast; ring
    calc (q.num.natAbs : ℚ) < (2 : ℚ) ^ (a + 1) := n2q
      _ = (2 : ℚ) ^ ((a : Int) - b + 1) * (2 : ℚ) ^ b := this.symm
      _ ≤ (2 : ℚ) ^ ((a : Int) - b + 1) * (q.den : ℚ) := by
          apply mul_le_mul_of_nonneg_left d1q; positivity
  unfold expoenteBinario
  simp only [← ha, ← hb]
  by_cases hc : doisElevado ((a : Int) - b) ≤ q
  · rw [if_pos hc]
    exact ⟨hc, by rw [doisElevado_zpow]; exact hhigh⟩
  · rw [if_neg hc]
    push_neg at hc
    refine ⟨by rw [doisElevado_zpow]; exact le_of_lt hlow, ?_⟩
    have : (a : Int) - b - 1 + 1 = (a : Int) - b := by ring
    rw [this]; exact hc

theorem doisElevado_lt_iff {a b : Int} : doisElevado a < doisElevado b ↔ a < b := by
  rw [doisElevado_zpow, doisElevado_zpow]
  exact zpow_lt_zpow_iff_right₀ (by norm_num)

theorem doisElevado_soma (a b : Int) : doisElevado (a + b) = doisElevado a * doisElevado b := by
  rw [doisElevado_zpow, doisElevado_zpow, doisElevado_zpow]
  exact zpow_add₀ (by norm_num) a b

theorem expoenteBinario_mono {x y : ℚ} (hx : 0 < x) (hxy : x ≤ y) :
    expoenteBinario x ≤ expoenteBinario y := by
  have h1 := (expoenteBinario_limites x hx).1
  have h2 := (expoenteBinario_limites y (lt_of_lt_of_le hx hxy)).2
  have h3 : doisElevado (expoenteBinario x) < doisElevado (expoenteBinario y + 1) :=
    lt_of_le_of_lt (le_trans h1 hxy) h2
  have := doisElevado_lt_iff.mp h3
  omega

theorem inteiroMaisProximo_inteiro (z : Int) : inteiroMaisProximo (z : ℚ) = z := by
  unfold inteiroMaisProximo
  simp

theorem inteiroMaisProximo_limites (m : ℚ) :
    ⌊m⌋ ≤ inteiroMaisProximo m ∧ inteiroMaisProximo m ≤ ⌊m⌋ + 1 := by
  unfold inteiroMaisProximo
  simp only
  split_ifs <;> constructor <;> omega

theorem inteiroMaisProximo_mono {m n : ℚ} (h : m ≤ n) :
    inteiroMaisProximo m ≤ inteiroMaisProximo n := by
  have hfl : ⌊m⌋ ≤ ⌊n⌋ := Int.floor_mono h
  rcases lt_or_eq_of_le hfl with hlt | heq
  · have h1 := (inteiroMaisProximo_limites m).2
    have h2 := (inteiroMaisProximo_limites n).1
    omega
  · have hn := (inteiroMaisProximo_limites n).1
    have hr : m - (⌊m⌋ : ℚ) ≤ n - (⌊n⌋ : ℚ) := by rw [heq]; linarith
    by_cases hm : inteiroMaisProximo m = ⌊m⌋
    · omega
    · -- the rounding of m went up
      have hup : inteiroMaisProximo n = ⌊n⌋ + 1 := by
        unfold inteiroMaisProximo at hm ⊢
        simp only at hm ⊢
        by_cases c1 : m - (⌊m⌋ : ℚ) < 1 / 2
        · rw [if_pos c1] at hm; exact absurd rfl hm
        · rw [if_neg c1] at hm
          have c1n : ¬ (n - (⌊n⌋ : ℚ) < 1 / 2) := by
            intro hc; exact c1 (lt_of_le_of_lt hr hc)
          rw [if_neg c1n]
          by_cases c2 : 1 / 2 < n - (⌊n⌋ : ℚ)
          · rw [if_pos c2]
          · rw [if_neg c2]
            have c2m : ¬ (1 / 2 < m - (⌊m⌋ : ℚ)) := by
              intro hc; exact c2 (lt_of_lt_of_le hc hr)
            rw [if_neg c2m] at hm
            by_cases c3 : ⌊m⌋ % 2 = 0
            · rw [if_pos c3] at hm; exact absurd rfl hm
            · rw [heq] at c3; rw [if_neg c3]
      have := (inteiroMaisProximo_limites m).2
      omega

theorem grade_mono (k : Int) {x y : ℚ} (h : x ≤ y) :
    (inteiroMaisProximo (x / doisElevado k) : ℚ) * doisElevado k
      ≤ (inteiroMaisProximo (y / doisElevado k) : ℚ) * doisElevado k := by
  have hp := doisElevado_pos k
  apply mul_le_mul_of_nonneg_right _ (le_of_lt hp)
  have : x / doisElevado k ≤ y / doisElevado k := div_le_div_of_nonneg_right h (le_of_lt hp)
  exact_mod_cast inteiroMaisProximo_mono this

theorem grade_fixo (k : Int) (z : Int) :
    (inteiroMaisProximo ((z : ℚ) * doisElevado k / doisElevado k) : ℚ) * doisElevado k
      = (z : ℚ) * doisElevado k := by
  have hp := doisElevado_pos k
  rw [mul_div_assoc, div_self (ne_of_gt hp), mul_one, inteiroMaisProximo_inteiro]

theorem potencia_na_grade {k j : Int} (h : k ≤ j) :
    ∃ z : Int, doisElevado j = (z : ℚ) * doisElevado k := by
  obtain ⟨n, hn⟩ := Int.eq_ofNat_of_zero_le (by omega : 0 ≤ j - k)
  refine ⟨2 ^ n, ?_⟩
  have hj : j = (n : Int) + k := by omega
  rw [hj, doisElevado_soma]
  congr 1
  rw [doisElevado_zpow]
  push_cast
  exact zpow_natCast 2 n

theorem arredondar_positivo (q : ℚ) (hq : 0 < q) :
    arredondar q = (inteiroMaisProximo
        (q / doisElevado (max (expoenteBinario q - 52) (-1074))) : ℚ)
      * doisElevado (max (expoenteBinario q - 52) (-1074)) := by
  unfold arredondar
  rw [if_neg (ne_of_gt hq), abs_of_pos hq]

theorem arredondar_zero : arredondar 0 = 0 := by
  unfold arredondar; simp

theorem arredondar_nao_negativo (q : ℚ) (hq : 0 ≤ q) : 0 ≤ arredondar q := by
  rcases eq_or_lt_of_le hq with h0 | hpos
  · rw [← h0, arredondar_zero]
  · rw [arredondar_positivo q hpos]
    have hp := doisElevado_pos (max (expoenteBinario q - 52) (-1074))
    apply mul_nonneg _ (le_of_lt hp)
    have h1 : (0 : ℚ) ≤ q / doisElevado (max (expoenteBinario q - 52) (-1074)) :=
      div_nonneg hq (le_of_lt hp)
    have h2 : (0 : Int) ≤ ⌊q / doisElevado (max (expoenteBinario q - 52) (-1074))⌋ :=
      Int.floor_nonneg.mpr h1
    have h3 := (inteiroMaisProximo_limites
      (q / doisElevado (max (expoenteBinario q - 52) (-1074)))).1
    exact_mod_cast le_trans h2 h3

/-- Rounding to the nearest double is monotone on the non-negative rationals. -/
theorem arredondar_mono {x y : ℚ} (hx : 0 ≤ x) (hxy : x ≤ y) : arredondar x ≤ arredondar y := by
  rcases eq_or_lt_of_le hx with h0 | hpos
  · rw [← h0, arredondar_zero]; exact arredondar_nao_negativo y (le_trans hx hxy)
  · have hy : 0 < y := lt_of_lt_of_le hpos hxy
    rw [arredondar_positivo x hpos, arredondar_positivo y hy]
    have he := expoenteBinario_mono hpos hxy
    rcases lt_or_eq_of_le (max_le_max (sub_le_sub_right he 52) (le_refl (-1074 : Int)))
      with hlt | heq
    · -- the grid of y is coarser: the power of two below y is on both grids
      set kx := max (expoenteBinario x - 52) (-1074) with hkx
      set ky := max (expoenteBinario y - 52) (-1074) with hky
      have hky2 : ky = expoenteBinario y - 52 := by
        rcases le_total (expoenteBinario y - 52) (-1074) with hle | hle
        · have : ky = -1074 := max_eq_right hle
          have : (-1074 : Int) ≤ kx := le_max_right _ _
          omega
        · exact max_eq_left hle
      have hkx2 : expoenteBinario x - 52 ≤ kx := le_max_left _ _
      have hexy : expoenteBinario x + 1 ≤ expoenteBinario y := by omega
      have hg1 : x ≤ doisElevado (expoenteBinario y) :=
        le_trans (le_of_lt (expoenteBinario_limites x hpos).2) (doisElevado_mono hexy)
      have hg2 : doisElevado (expoenteBinario y) ≤ y := (expoenteBinario_limites y hy).1
      obtain ⟨zx, hzx⟩ := potencia_na_grade (by omega : kx ≤ expoenteBinario y)
      obtain ⟨zy, hzy⟩ := potencia_na_grade (by omega : ky ≤ expoenteBinario y)
      calc (inteiroMaisProximo (x / doisElevado kx) : ℚ) * doisElevado kx
          ≤ (inteiroMaisProximo (doisElevado (expoenteBinario y) / doisElevado kx) : ℚ)
              * doisElevado kx := grade_mono kx hg1
        _ = doisElevado (expoenteBinario y) := by rw [hzx, grade_fixo]
        _ = (inteiroMaisProximo (doisElevado (expoenteBinario y) / doisElevado ky) : ℚ)
              * doisElevado ky := by rw [hzy, grade_fixo]
        _ ≤ _ := grade_mono ky hg2
    · rw [heq]; exact grade_mono _ hxy

/-- Every natural number up to `2 ^ 53` is a double. -/
theorem arredondar_natural (n : Nat) (hn : n ≤ 2 ^ 53) : arredondar (n : ℚ) = (n : ℚ) := by
  rcases Nat.eq_zero_or_pos n with h0 | hpos
  · subst h0; simp [arredondar_zero]
  · have hq : (0 : ℚ) < (n : ℚ) := by exact_mod_cast hpos
    rw [arredondar_positivo _ hq]
    set e := expoenteBinario (n : ℚ) with he
    have h1 := (expoenteBinario_limites (n : ℚ) hq).1
    rw [← he] at h1
    have hn53 : (n : ℚ) ≤ doisElevado 53 := by
      rw [doisElevado_zpow]
      have : ((n : Nat) : ℚ) ≤ ((2 ^ 53 : Nat) : ℚ) := by exact_mod_cast hn
      calc (n : ℚ) ≤ ((2 ^ 53 : Nat) : ℚ) := this
        _ = (2 : ℚ) ^ (53 : Int) := by norm_num
    have he53 : e ≤ 53 := by
      have : doisElevado e < doisElevado 54 :=
        lt_of_le_of_lt (le_trans h1 hn53) (doisElevado_lt_iff.mpr (by norm_num))
      have := doisElevado_lt_iff.mp this
      omega
    rcases lt_or_eq_of_le he53 with hlt | heq
    · -- the grid is at least as fine as the integers
      have hk : max (e - 52) (-1074) ≤ 0 := max_le (by omega) (by norm_num)
      obtain ⟨z, hz⟩ := potencia_na_grade hk
      have h0 : doisElevado 0 = 1 := by rw [doisElevado_zpow]; simp
      have hnz : (n : ℚ) = ((n * z : Int) : ℚ) * doisElevado (max (e - 52) (-1074)) := by
        push_cast
        rw [mul_assoc, ← hz, h0, mul_one]
      rw [hnz]
      exact grade_fixo _ _
    · have hk : max (e - 52) (-1074) = 1 := by rw [heq]; decide
      rw [hk]
      have hn2 : (n : ℚ) = doisElevado 53 := by
        apply le_antisymm hn53
        rw [← heq]; exact h1
      obtain ⟨z, hz⟩ := potencia_na_grade (by norm_num : (1 : Int) ≤ 53)
      rw [hn2, hz]
      exact grade_fixo _ _

theorem expoenteBinario_natural (n : Nat) (hn : 0 < n) :
    expoenteBinario (n : ℚ) = (logaritmoBinario n : Int) := by
  have hq : (0 : ℚ) < (n : ℚ) := by exact_mod_cast hn
  obtain ⟨h1, h2⟩ := expoenteBinario_limites (n : ℚ) hq
  obtain ⟨l1, l2⟩ := logaritmoBinario_limites n hn
  have l1q : doisElevado (logaritmoBinario n : Int) ≤ (n : ℚ) := by
    rw [doisElevado_zpow, zpow_natCast]; exact_mod_cast l1
  have l2q : (n : ℚ) < doisElevado ((logaritmoBinario n : Int) + 1) := by
    rw [doisElevado_zpow]
    have : ((logaritmoBinario n : Int) + 1) = ((logaritmoBinario n + 1 : Nat) : Int) := by
      push_cast; ring
    rw [this, zpow_natCast]; exact_mod_cast l2
  have a := doisElevado_lt_iff.mp (lt_of_le_of_lt h1 l2q)
  have b := doisElevado_lt_iff.mp (lt_of_le_of_lt l1q h2)
  omega

/-- The rounding of a natural number computed on integers is the rounding of
the same number as a rational. -/
theorem arredondarNatural_arredondar (n : Nat) :
    ((arredondarNatural n : Nat) : ℚ) = arredondar (n : ℚ) := by
  rcases Nat.eq_zero_or_pos n with h0 | hpos
  · subst h0
    have : arredondarNatural 0 = 0 := by decide
    rw [this]; simp [arredondar_zero]
  · obtain ⟨l1, l2⟩ := logaritmoBinario_limites n hpos
    unfold arredondarNatural
    simp only
    by_cases he : logaritmoBinario n ≤ 52
    · rw [if_pos he]
      have : n ≤ 2 ^ 53 := by
        have h53 : 2 ^ (logaritmoBinario n + 1) ≤ 2 ^ 53 :=
          Nat.pow_le_pow_right (by norm_num) (by omega)
        omega
      exact (arredondar_natural n this).symm
    · rw [if_neg he]
      have hq : (0 : ℚ) < (n : ℚ) := by exact_mod_cast hpos
      rw [arredondar_positivo _ hq, expoenteBinario_natural n hpos]
      set j := logaritmoBinario n - 52 with hj
      have hjpos : 0 < j := by omega
      have hk : max ((logaritmoBinario n : Int) - 52) (-1074) = (j : Int) := by
        rw [max_eq_left (by omega)]; omega
      rw [hk]
      have hpasso : doisElevado (j : Int) = ((2 ^ j : Nat) : ℚ) := by
        rw [doisElevado_zpow, zpow_natCast]; push_cast; rfl
      rw [hpasso]
      set passo := 2 ^ j with hp
      have hppos : 0 < passo := Nat.pow_pos (by norm_num)
      have hpq : (0 : ℚ) < (passo : ℚ) := by exact_mod_cast hppos
      have hdiv : n = n / passo * passo + n % passo := by
        have := Nat.div_add_mod n passo
        rw [Nat.mul_comm] at this
        exact this.symm
      have hmod : n % passo < passo := Nat.mod_lt _ hppos
      set m := n / passo with hm
      set r := n % passo with hr
      have hx : (n : ℚ) / (passo : ℚ) = (m : ℚ) + (r : ℚ) / (passo : ℚ) := by
        have : (n : ℚ) = (m : ℚ) * (passo : ℚ) + (r : ℚ) := by exact_mod_cast hdiv
        rw [this]; field_simp
      have hfrac0 : (0 : ℚ) ≤ (r : ℚ) / (passo : ℚ) := div_nonneg (Nat.cast_nonneg _) (le_of_lt hpq)
      have hfrac1 : (r : ℚ) / (passo : ℚ) < 1 := by
        rw [div_lt_one hpq]; exact_mod_cast hmod
      have hfloor : ⌊(n : ℚ) / (passo : ℚ)⌋ = (m : Int) := by
        rw [Int.floor_eq_iff, hx]
        constructor
        · push_cast; linarith
        · push_cast; linarith
      have hmeio1 : (r : ℚ) / (passo : ℚ) < 1 / 2 ↔ 2 * r < passo := by
        rw [div_lt_iff₀ hpq]
        constructor
        · intro h
          have : (2 : ℚ) * (r : ℚ) < (passo : ℚ) := by linarith
          exact_mod_cast this
        · intro h
          have : (2 : ℚ) * (r : ℚ) < (passo : ℚ) := by exact_mod_cast h
          linarith
      have hmeio2 : 1 / 2 < (r : ℚ) / (passo : ℚ) ↔ passo < 2 * r := by
        rw [lt_div_iff₀ hpq]
        constructor
        · intro h
          have : (passo : ℚ) < (2 : ℚ) * (r : ℚ) := by linarith
          exact_mod_cast this
        · intro h
          have : (passo : ℚ) < (2 : ℚ) * (r : ℚ) := by exact_mod_cast h
          linarith
      have hpar : (m : Int) % 2 = 0 ↔ m % 2 = 0 := by omega
      have hrne : inteiroMaisProximo ((n : ℚ) / (passo : ℚ))
          = if 2 * r < passo then (m : Int)
            else if passo < 2 * r then (m : Int) + 1
            else if m % 2 = 0 then (m : Int) else (m : Int) + 1 := by
        unfold inteiroMaisProximo
        simp only [hfloor]
        have hsub : (n : ℚ) / (passo : ℚ) - ((m : Int) : ℚ) = (r : ℚ) / (passo : ℚ) := by
          rw [hx]; push_cast; ring
        rw [hsub]
        simp only [hmeio1, hmeio2, hpar]
      rw [hrne]
      split_ifs <;> push_cast <;> ring

theorem arredondarNatural_pequeno (n : Nat) (hn : n ≤ 2 ^ 53) : arredondarNatural n = n := by
  have h := arredondarNatural_arredondar n
  rw [arredondar_natural n hn] at h
  exact_mod_cast h

theorem arredondarNatural_mono {a b : Nat} (h : a ≤ b) :
    arredondarNatural a ≤ arredondarNatural b := by
  have ha := arredondarNatural_arredondar a
  have hb := arredondarNatural_arredondar b
  have hq : (a : ℚ) ≤ (b : ℚ) := by exact_mod_cast h
  have := arredondar_mono (Nat.cast_nonneg a) hq
  rw [← ha, ← hb] at this
  exact_mod_cast this

theorem duploDeInteiro_pequeno (n : Int) (hn : n.natAbs ≤ 2 ^ 53) :
    duploDeInteiro n = .finito n := by
  unfold duploDeInteiro
  simp only [arredondarNatural_pequeno _ hn]
  have hlim : ¬ limiteDosDuplos ≤ n.natAbs := by
    have : (2 : Nat) ^ 53 < limiteDosDuplos := by decide
    omega
  rw [if_neg hlim]
  congr 1
  split_ifs with h
  · omega
  · omega

/-- A natural number that converts to a double of at most `2 ^ 53` other than
itself is `2 ^ 53 + 1`. -/
theorem duploDeInteiro_de_maior (x v : Nat) (hx : x ≤ 2 ^ 53) (hv : x < v)
    (h : duploDeInteiro (v : Int) = .finito (x : Int)) : x = 2 ^ 53 ∧ v = 2 ^ 53 + 1 := by
  unfold duploDeInteiro at h
  simp only [Int.natAbs_ofNat] at h
  split_ifs at h with hlim hneg
  · omega
  · simp only [NumeroInteiro.finito.injEq] at h
    have harr : arredondarNatural v = x := by exact_mod_cast h
    have hgrande : 2 ^ 53 < v := by
      by_contra hc
      rw [arredondarNatural_pequeno v (by omega)] at harr
      omega
    have h53 : arredondarNatural (2 ^ 53) = 2 ^ 53 := arredondarNatural_pequeno _ le_rfl
    have h1 := arredondarNatural_mono (le_of_lt hgrande)
    rw [h53, harr] at h1
    refine ⟨by omega, ?_⟩
    by_contra hc
    have h55 : arredondarNatural (2 ^ 53 + 2) = 2 ^ 53 + 2 := by decide
    have h2 := arredondarNatural_mono (by omega : 2 ^ 53 + 2 ≤ v)
    rw [h55, harr] at h2
    omega

theorem candidatoCurto_pequeno (x d k v : Nat) (hx : x ≤ 2 ^ 53)
    (h : candidatoCurto x d k = some v) : v = x := by
  unfold candidatoCurto at h
  simp only at h
  have hp : 0 < 10 ^ (d - k) := Nat.pow_pos (by norm_num)
  have hv0 : x / 10 ^ (d - k) * 10 ^ (d - k) ≤ x := Nat.div_mul_le_self _ _
  have hv1 : x < (x / 10 ^ (d - k) + 1) * 10 ^ (d - k) := by
    have := Nat.div_add_mod x (10 ^ (d - k))
    have hm := Nat.mod_lt x hp
    rw [Nat.add_mul, Nat.one_mul]
    rw [Nat.mul_comm] at this
    omega
  -- the lower candidate serves only if it is `x`
  have hserve0 : duploDeInteiro ((x / 10 ^ (d - k) * 10 ^ (d - k) : Nat) : Int) = .finito (x : Int)
      → x / 10 ^ (d - k) * 10 ^ (d - k) = x := by
    intro hs
    rw [duploDeInteiro_pequeno _ (by simp only [Int.natAbs_ofNat]; omega)] at hs
    simp only [NumeroInteiro.finito.injEq] at hs
    exact_mod_cast hs
  -- the upper candidate serves only beside `2 ^ 53`, where the lower one is nearer
  have hserve1 : duploDeInteiro (((x / 10 ^ (d - k) + 1) * 10 ^ (d - k) : Nat) : Int)
        = .finito (x : Int)
      → x = 2 ^ 53 ∧ x / 10 ^ (d - k) * 10 ^ (d - k) = x := by
    intro hs
    obtain ⟨hx53, hv⟩ := duploDeInteiro_de_maior x _ hx hv1 hs
    refine ⟨hx53, ?_⟩
    rcases Nat.eq_zero_or_pos (d - k) with hz | hpos
    · rw [hz]; simp
    · exfalso
      obtain ⟨j, hj⟩ : ∃ j, d - k = j + 1 := ⟨d - k - 1, by omega⟩
      rw [hj, pow_succ] at hv
      have hdiv : (x / (10 ^ j * 10) + 1) * (10 ^ j * 10) % 10 = 0 := by
        rw [← Nat.mul_assoc]; exact Nat.mul_mod_left _ _
      rw [hv] at hdiv
      norm_num at hdiv
  split_ifs at h with c1 c2 c3 c4 c5 c6
  all_goals simp only [Option.some.injEq] at h
  · simp only [Bool.and_eq_true, decide_eq_true_eq] at c1
    rw [← h]; exact hserve0 c1.1
  · simp only [Bool.and_eq_true, decide_eq_true_eq] at c1
    have := hserve0 c1.1
    omega
  · simp only [Bool.and_eq_true, decide_eq_true_eq] at c1
    rw [← h]; exact hserve0 c1.1
  · simp only [Bool.and_eq_true, decide_eq_true_eq] at c1
    have := hserve0 c1.1
    omega
  · simp only [decide_eq_true_eq] at c5
    rw [← h]; exact hserve0 c5
  · simp only [decide_eq_true_eq] at c5 c6
    exfalso
    apply c5
    rw [(hserve1 c6).2]
    exact duploDeInteiro_pequeno _ (by simp only [Int.natAbs_ofNat]; exact hx)

theorem valorMaisCurto_pequeno (x : Nat) (hx : x ≤ 2 ^ 53) : valorMaisCurto x = x := by
  unfold valorMaisCurto
  simp only
  cases hf : List.findSome? (candidatoCurto x (Nat.repr x).length)
      ((List.range (Nat.repr x).length).map (· + 1)) with
  | none => rfl
  | some v =>
    obtain ⟨k, -, hk⟩ := List.exists_of_findSome?_eq_some hf
    simp only [Option.getD_some]
    exact candidatoCurto_pequeno x _ k v hx hk

theorem textoDoNatural_pequeno (x : Nat) (hx : x ≤ 2 ^ 53) : textoDoNatural x = Nat.repr x := by
  unfold textoDoNatural
  simp only [valorMaisCurto_pequeno x hx]
  rw [if_pos]
  have : (2 : Nat) ^ 53 < 10 ^ 21 := by norm_num
  omega

/-- An integer of magnitude at most `2 ^ 53` is a double and prints as its
decimal digits. -/
theorem numeroParaTexto_pequeno (n : Int) (hn : n.natAbs ≤ 2 ^ 53) :
    numeroParaTexto (.finito n) = toString n := by
  unfold numeroParaTexto
  simp only [textoDoNatural_pequeno _ hn]
  cases n with
  | ofNat m => rfl
  | negSucc m =>
    have hneg : Int.negSucc m < 0 := Int.negSucc_lt_zero m
    rw [if_pos hneg]
    rfl

/-! ## Tokens -/

theorem jwtSign_aud (payload : Payload) (chave : String) (expiresIn : Nat)
    (issuer audience : String) (agora : Nat) (t : Token)
    (h : jwtSign payload chave expiresIn issuer audience agora = .ok t) :
    t.aud = audience := by
  unfold jwtSign at h
  split_ifs at h
  simp only [Except.ok.injEq] at h
  rw [← h]

theorem jwtVerify_aud (token : Token) (chave issuer audience : String) (agora : Nat)
    (h : token.aud ≠ audience) : ∃ m, jwtVerify token chave issuer audience agora = .error m := by
  unfold jwtVerify
  simp only []
  split_ifs <;> exact ⟨_, rfl⟩

/-- C1: with the default configuration, for every payload and at every
instant, a token issued by `gerarRefreshToken` is rejected by `verificarToken`
and a token issued by `gerarToken` is rejected by `verificarRefreshToken`: the
verifier throws its error instead of returning claims. -/
theorem tokens_trocados_rejeitados (chave : String) (payload : Payload) (t : Token)
    (agora agora' : Nat) :
    (gerarRefreshToken (configuracaoPadrao chave) payload agora = .ok t →
      verificarToken (configuracaoPadrao chave) t agora' = .error "Token inválido") ∧
    (gerarToken (configuracaoPadrao chave) payload agora = .ok t →
      verificarRefreshToken (configuracaoPadrao chave) t agora'
        = .error "Refresh token inválido") := by
  constructor
  · intro h
    unfold gerarRefreshToken at h
    split at h
    · next t' ht =>
      simp only [Except.ok.injEq] at h
      subst h
      have haud := jwtSign_aud _ _ _ _ _ _ _ ht
      obtain ⟨m, hm⟩ := jwtVerify_aud t' (configuracaoPadrao chave).chaveSecreta
        (configuracaoPadrao chave).issuer (configuracaoPadrao chave).audience agora'
        (by rw [haud]; show "ASC-Refresh" ≠ "ASC-Client"; decide)
      unfold verificarToken
      rw [hm]
    · cases h
  · intro h
    unfold gerarToken at h
    split at h
    · next t' ht =>
      simp only [Except.ok.injEq] at h
      subst h
      have haud := jwtSign_aud _ _ _ _ _ _ _ ht
      obtain ⟨m, hm⟩ := jwtVerify_aud t' (configuracaoPadrao chave).chaveSecreta
        (configuracaoPadrao chave).issuer (configuracaoPadrao chave).audienceRefresh agora'
        (by rw [haud]; show "ASC-Client" ≠ "ASC-Refresh"; decide)
      unfold verificarRefreshToken
      rw [hm]
    · cases h

/-- Witness for C1: the payload of the unit test, signed at 5 s and verified at 6 s. -/
theorem tokens_trocados_rejeitados_witness :
    (∃ t, gerarRefreshToken (configuracaoPadrao "k") payloadExemplo 5000 = .ok t ∧
      verificarToken (configuracaoPadrao "k") t 6000 = .error "Token inválido") ∧
    (∃ t, gerarToken (configuracaoPadrao "k") payloadExemplo 5000 = .ok t ∧
      verificarRefreshToken (configuracaoPadrao "k") t 6000
        = .error "Refresh token inválido") :=
  ⟨⟨_, rfl, (tokens_trocados_rejeitados "k" payloadExemplo _ 5000 6000).1 rfl⟩,
   ⟨_, rfl, (tokens_trocados_rejeitados "k" payloadExemplo _ 5000 6000).2 rfl⟩⟩

theorem jwtSign_sem_reservados (c : Payload) (chave : String) (expiresIn : Nat)
    (issuer audience : String) (agora : Nat)
    (hiat : c.iat = none) (hexp : c.exp = none) (hiss : c.iss = none) (haud : c.aud = none) :
    jwtSign c chave expiresIn issuer audience agora =
      .ok { id := c.id, email := c.email, fingerprint := c.fingerprint, iat := agora / 1000,
            exp := agora / 1000 + expiresIn, nbf := c.nbf, iss := issuer, aud := audience,
            chave := chave } := by
  simp [jwtSign, hiat, hexp, hiss, haud]

theorem jwtVerify_ok (t : Token) (chave issuer audience : String) (agora : Nat)
    (hchave : t.chave = chave) (hnbf : t.nbf = none) (hexp : agora / 1000 < t.exp)
    (haud : t.aud = audience) (hiss : t.iss = issuer) :
    jwtVerify t chave issuer audience agora = .ok t := by
  simp [jwtVerify, hchave, hnbf, haud, hiss, Nat.not_le.mpr hexp]

/-- C2: for every claims object carrying `id` and `email` and none of the
registered claims `iat`, `exp`, `nbf`, `iss`, `aud`, signing succeeds and, as
long as the token has not expired, verification of the signed token succeeds
and returns claims with the same `id` and `email`; this holds for the access
pair `gerarToken`/`verificarToken` and for the refresh pair
`gerarRefreshToken`/`verificarRefreshToken`. -/
theorem ida_e_volta_dos_tokens (cfg : Configuracao) (c : Payload) (id email : String)
    (agora agora' : Nat) (hid : c.id = some id) (hemail : c.email = some email)
    (hreservados : c.iat = none ∧ c.exp = none ∧ c.nbf = none ∧ c.iss = none ∧ c.aud = none) :
    (agora' / 1000 < agora / 1000 + cfg.tempoExpiracaoToken →
      ∃ t p, gerarToken cfg c agora = .ok t ∧ verificarToken cfg t agora' = .ok p
        ∧ p.id = some id ∧ p.email = some email) ∧
    (agora' / 1000 < agora / 1000 + cfg.tempoExpiracaoRefresh →
      ∃ t p, gerarRefreshToken cfg c agora = .ok t ∧ verificarRefreshToken cfg t agora' = .ok p
        ∧ p.id = some id ∧ p.email = some email) := by
  obtain ⟨hiat, hexp, hnbf, hiss, haud⟩ := hreservados
  constructor
  · intro hvivo
    obtain ⟨tk, hs, h1, h2, h3, h4, h5, h6, h7⟩ : ∃ tk : Token,
        jwtSign c cfg.chaveSecreta cfg.tempoExpiracaoToken cfg.issuer cfg.audience agora = .ok tk
        ∧ tk.id = c.id ∧ tk.email = c.email ∧ tk.nbf = c.nbf
        ∧ tk.exp = agora / 1000 + cfg.tempoExpiracaoToken ∧ tk.aud = cfg.audience
        ∧ tk.iss = cfg.issuer ∧ tk.chave = cfg.chaveSecreta :=
      ⟨_, jwtSign_sem_reservados c _ _ _ _ agora hiat hexp hiss haud,
        rfl, rfl, rfl, rfl, rfl, rfl, rfl⟩
    refine ⟨tk, tk, ?_, ?_, h1.trans hid, h2.trans hemail⟩
    · unfold gerarToken; rw [hs]
    · unfold verificarToken
      rw [jwtVerify_ok tk _ _ _ agora' h7 (h3.trans hnbf) (h4 ▸ hvivo) h5 h6]
  · intro hvivo
    obtain ⟨tk, hs, h1, h2, h3, h4, h5, h6, h7⟩ : ∃ tk : Token,
        jwtSign c cfg.chaveSecreta cfg.tempoExpiracaoRefresh cfg.issuer cfg.audienceRefresh agora
          = .ok tk
        ∧ tk.id = c.id ∧ tk.email = c.email ∧ tk.nbf = c.nbf
        ∧ tk.exp = agora / 1000 + cfg.tempoExpiracaoRefresh ∧ tk.aud = cfg.audienceRefresh
        ∧ tk.iss = cfg.issuer ∧ tk.chave = cfg.chaveSecreta :=
      ⟨_, jwtSign_sem_reservados c _ _ _ _ agora hiat hexp hiss haud,
        rfl, rfl, rfl, rfl, rfl, rfl, rfl⟩
    refine ⟨tk, tk, ?_, ?_, h1.trans hid, h2.trans hemail⟩
    · unfold gerarRefreshToken; rw [hs]
    · unfold verificarRefreshToken
      rw [jwtVerify_ok tk _ _ _ agora' h7 (h3.trans hnbf) (h4 ▸ hvivo) h5 h6]

/-- Witness for C2: the payload of the unit test under the default configuration. -/
theorem ida_e_volta_dos_tokens_witness :
    (∃ t p, gerarToken (configuracaoPadrao "k") payloadExemplo 5000 = .ok t
        ∧ verificarToken (configuracaoPadrao "k") t 6000 = .ok p
        ∧ p.id = some "teste123" ∧ p.email = some "teste@exemplo.com") ∧
    (∃ t p, gerarRefreshToken (configuracaoPadrao "k") payloadExemplo 5000 = .ok t
        ∧ verificarRefreshToken (configuracaoPadrao "k") t 6000 = .ok p
        ∧ p.id = some "teste123" ∧ p.email = some "teste@exemplo.com") :=
  ⟨(ida_e_volta_dos_tokens (configuracaoPadrao "k") payloadExemplo "teste123"
      "teste@exemplo.com" 5000 6000 rfl rfl ⟨rfl, rfl, rfl, rfl, rfl⟩).1 (by decide),
   (ida_e_volta_dos_tokens (configuracaoPadrao "k") payloadExemplo "teste123"
      "teste@exemplo.com" 5000 6000 rfl rfl ⟨rfl, rfl, rfl, rfl, rfl⟩).2 (by decide)⟩

/-! ## Maps -/

theorem mapaGet_mapaSet_mesma {α : Type} (m : List (String × α)) (k : String) (v : α) :
    mapaGet (mapaSet m k v) k = some v := by
  induction m with
  | nil => simp [mapaSet, mapaGet]
  | cons p resto ih =>
    obtain ⟨k', v'⟩ := p
    by_cases h : k' = k
    · simp [mapaSet, mapaGet, h]
    · simp [mapaSet, mapaGet, h, ih]

theorem mapaGet_mapaSet_outra {α : Type} (m : List (String × α)) (k k' : String) (v : α)
    (h : k' ≠ k) : mapaGet (mapaSet m k v) k' = mapaGet m k' := by
  induction m with
  | nil => simp [mapaSet, mapaGet, Ne.symm h]
  | cons p resto ih =>
    obtain ⟨k1, v1⟩ := p
    by_cases h1 : k1 = k
    · subst h1
      simp [mapaSet, mapaGet, Ne.symm h]
    · by_cases h2 : k1 = k'
      · subst h2
        simp [mapaSet, mapaGet, h1]
      · simp [mapaSet, mapaGet, h1, h2, ih]

theorem mapaGet_mapaDelete_mesma {α : Type} (m : List (String × α)) (k : String) :
    mapaGet (mapaDelete m k) k = none := by
  induction m with
  | nil => simp [mapaDelete, mapaGet]
  | cons p resto ih =>
    obtain ⟨k1, v1⟩ := p
    by_cases h1 : k1 = k
    · simpa [mapaDelete, mapaGet, h1] using ih
    · simpa [mapaDelete, mapaGet, h1] using ih

theorem mapaGet_mapaDelete_outra {α : Type} (m : List (String × α)) (k k' : String)
    (h : k' ≠ k) : mapaGet (mapaDelete m k) k' = mapaGet m k' := by
  induction m with
  | nil => simp [mapaDelete, mapaGet]
  | cons p resto ih =>
    obtain ⟨k1, v1⟩ := p
    by_cases h1 : k1 = k
    · subst h1
      simpa [mapaDelete, mapaGet, Ne.symm h] using ih
    · by_cases h2 : k1 = k'
      · subst h2
        simp [mapaDelete, mapaGet, h1]
      · simpa [mapaDelete, mapaGet, h1, h2] using ih

/-! ## Lockout -/

/-- The steps of `autenticarUsuario`, without the record of the comparisons. -/
theorem autenticarUsuario_passos (amb : Ambiente) (s : Estado) (credenciais : Corpo)
    (req : Req) (ch : Chamada) :
    autenticarUsuario amb s credenciais req ch
      = match verificarTentativasLogin s req.ip ch.entrada with
        | (s0, .error m) => (s0, .error m)
        | (s0, .ok ()) =>
          let usuario := buscarUsuarioPorEmail s0 credenciais.email
          let senhaValida := verificarSenha credenciais.senha
            (match usuario with
             | some u => u.hashSenha
             | none => hashFalso)
          match usuario with
          | none =>
            (registrarTentativaFalha s0 req.ip credenciais.email ch.depois,
             .error "Credenciais inválidas")
          | some u =>
            if !senhaValida then
              (registrarTentativaFalha s0 req.ip credenciais.email ch.depois,
               .error "Credenciais inválidas")
            else concluirLogin amb s0 u req ch := by
  unfold autenticarUsuario autenticarUsuarioRastreado
  rcases verificarTentativasLogin s req.ip ch.entrada with ⟨s0, res⟩
  cases res with
  | error m => rfl
  | ok x =>
    cases x
    simp only
    cases buscarUsuarioPorEmail s0 credenciais.email with
    | none => rfl
    | some u =>
      simp only
      split_ifs <;> rfl

@[simp] theorem criarLogAuditoria_tentativasLogin (s : Estado) (l : LogAuditoria) (agora : Nat) :
    (criarLogAuditoria s l agora).tentativasLogin = s.tentativasLogin := rfl

@[simp] theorem criarLogAuditoria_usuarios (s : Estado) (l : LogAuditoria) (agora : Nat) :
    (criarLogAuditoria s l agora).usuarios = s.usuarios := rfl

@[simp] theorem criarLogAuditoria_sessoes (s : Estado) (l : LogAuditoria) (agora : Nat) :
    (criarLogAuditoria s l agora).sessoes = s.sessoes := rfl

@[simp] theorem criarLogAuditoria_tokensRevogados (s : Estado) (l : LogAuditoria) (agora : Nat) :
    (criarLogAuditoria s l agora).tokensRevogados = s.tokensRevogados := rfl

@[simp] theorem criarLogAuditoria_ipsBloquados (s : Estado) (l : LogAuditoria) (agora : Nat) :
    (criarLogAuditoria s l agora).ipsBloquados = s.ipsBloquados := rfl

theorem registrarTentativaFalha_contador (s : Estado) (ip : String) (email : Option String)
    (agora : Nat) :
    mapaGet (registrarTentativaFalha s ip email agora).tentativasLogin ip
      = some { count := ((mapaGet s.tentativasLogin ip).getD
                  { count := 0, ultimaTentativa := 0 }).count + 1,
               ultimaTentativa := agora } := by
  simp [registrarTentativaFalha, mapaGet_mapaSet_mesma]

/-- A call that finds the counter of its IP below the maximum and carries
credentials that do not verify registers a failed attempt and throws the
invalid-credentials error. -/
theorem autenticarUsuario_credenciais_invalidas (amb : Ambiente) (s : Estado) (c : Corpo)
    (r : Req) (ch : Chamada)
    (hcont : ((mapaGet s.tentativasLogin r.ip).getD { count := 0, ultimaTentativa := 0 }).count
      < maxTentativas)
    (hinv : ∀ u, buscarUsuarioPorEmail s c.email = some u →
      verificarSenha c.senha u.hashSenha = false) :
    autenticarUsuario amb s c r ch
      = (registrarTentativaFalha s r.ip c.email ch.depois, .error "Credenciais inválidas") := by
  simp only [autenticarUsuario_passos]; unfold verificarTentativasLogin
  simp only [ge_iff_le, Nat.not_le.mpr hcont, if_false]
  cases hu : buscarUsuarioPorEmail s c.email with
  | none => simp
  | some u => simp [hinv u hu]

/-- A call that finds the counter of its IP at the maximum less than fifteen
minutes after the last failure throws the lockout error and changes nothing. -/
theorem autenticarUsuario_bloqueado (amb : Ambiente) (s : Estado) (c : Corpo) (r : Req)
    (ch : Chamada) (t : Tentativas) (hget : mapaGet s.tentativasLogin r.ip = some t)
    (hcont : maxTentativas ≤ t.count)
    (hcedo : ch.entrada < t.ultimaTentativa + tempoBloqueioPadrao) :
    autenticarUsuario amb s c r ch
      = (s, .error (mensagemIPBloqueado (t.ultimaTentativa + tempoBloqueioPadrao - ch.entrada))) := by
  simp only [autenticarUsuario_passos]; unfold verificarTentativasLogin
  simp [hget, hcont, hcedo]

/-- A call that finds the counter of its IP at the maximum fifteen minutes or
more after the last failure deletes the counter and goes on as a call from an
IP without counter. -/
theorem autenticarUsuario_apos_bloqueio (amb : Ambiente) (s : Estado) (c : Corpo) (r : Req)
    (ch : Chamada) (t : Tentativas) (hget : mapaGet s.tentativasLogin r.ip = some t)
    (hcont : maxTentativas ≤ t.count)
    (htarde : t.ultimaTentativa + tempoBloqueioPadrao ≤ ch.entrada) :
    autenticarUsuario amb s c r ch
      = autenticarUsuario amb { s with tentativasLogin := mapaDelete s.tentativasLogin r.ip }
          c r ch := by
  have hcont' : 5 ≤ t.count := hcont
  simp only [autenticarUsuario_passos]; unfold verificarTentativasLogin
  simp [hget, hcont', Nat.not_lt.mpr htarde, mapaGet_mapaDelete_mesma, maxTentativas]

theorem gerarToken_payload_servico (cfg : Configuracao) (id : Option String)
    (email : Option String) (fp : Option Fingerprint) (agora : Nat) :
    gerarToken cfg { id := id, email := email, fingerprint := fp } agora =
      .ok { id := id, email := email, fingerprint := fp, iat := agora / 1000,
            exp := agora / 1000 + cfg.tempoExpiracaoToken, nbf := none, iss := cfg.issuer,
            aud := cfg.audience, chave := cfg.chaveSecreta } := by
  simp [gerarToken, jwtSign]

theorem gerarRefreshToken_payload_servico (cfg : Configuracao) (id : Option String)
    (email : Option String) (fp : Option Fingerprint) (agora : Nat) :
    gerarRefreshToken cfg { id := id, email := email, fingerprint := fp } agora =
      .ok { id := id, email := email, fingerprint := fp, iat := agora / 1000,
            exp := agora / 1000 + cfg.tempoExpiracaoRefresh, nbf := none, iss := cfg.issuer,
            aud := cfg.audienceRefresh, chave := cfg.chaveSecreta } := by
  simp [gerarRefreshToken, jwtSign]

/-- The outcome of `concluirLogin` when the request has a body and the anomaly
analysis returns without asking for a block: the profile map is the one the
analysis left, a session with freshly signed tokens is stored under the drawn
id, the counter of the IP is deleted and one audit record is appended. -/
theorem concluirLogin_sucesso (amb : Ambiente) (s : Estado) (u : Usuario) (r : Req)
    (ch : Chamada) (b : Corpo) (an : Analise)
    (hb : r.body = some b)
    (han : (analisarTentativaLogin amb s.perfisComportamentais u.id
      { ip := r.ip, localizacao := b.localizacao, timestamp := ch.depois,
        fingerprint := fingerprintDe r.headers b, userAgent := r.headers.userAgent }).2
      = .ok an)
    (hnb : (an.isAnomalous && decide (an.riskLevel = "CRITICAL")) = false) :
    ∃ token refreshToken : Token,
      gerarToken amb.cfg
        { id := some u.id, email := u.email,
          fingerprint := some (fingerprintDe r.headers b) } ch.depois = .ok token ∧
      gerarRefreshToken amb.cfg
        { id := some u.id, email := u.email,
          fingerprint := some (fingerprintDe r.headers b) } ch.depois = .ok refreshToken ∧
      concluirLogin amb s u r ch =
        (criarLogAuditoria
          { s with
            perfisComportamentais := (analisarTentativaLogin amb s.perfisComportamentais u.id
              { ip := r.ip, localizacao := b.localizacao, timestamp := ch.depois,
                fingerprint := fingerprintDe r.headers b,
                userAgent := r.headers.userAgent }).1
            sessoes := sessoesSet s.sessoes
              { id := ch.uuid, idUsuario := u.id, token := token, refreshToken := refreshToken,
                fingerprint := fingerprintDe r.headers b, ip := r.ip,
                userAgent := r.headers.userAgent, criadaEm := ch.depois,
                atualizadaEm := ch.depois, expiresEm := ch.depois + 24 * 60 * 60 * 1000,
                ativa := true }
            tentativasLogin := mapaDelete s.tentativasLogin r.ip }
          { idUsuario := some u.id, acao := "LOGIN_SUCESSO", ip := some r.ip,
            userAgent := r.headers.userAgent,
            fingerprint := some (fingerprintDe r.headers b),
            anomalias := some an.reasons, timestamp := ch.depois } ch.depois,
         .ok { usuario := { id := u.id, email := u.email, nome := u.nome }
               token := token
               refreshToken := refreshToken
               sessao := ch.uuid
               analiseSeguranca :=
                 { riskLevel := an.riskLevel
                   confiancaDispositivo := calcularConfianca (componentesDe r.headers b) } }) := by
  refine ⟨_, _, gerarToken_payload_servico _ _ _ _ _, gerarRefreshToken_payload_servico _ _ _ _ _,
    ?_⟩
  unfold concluirLogin
  simp only [gerar, hb]
  generalize analisarTentativaLogin amb s.perfisComportamentais u.id
      { ip := r.ip, localizacao := b.localizacao, timestamp := ch.depois,
        fingerprint := fingerprintDe r.headers b, userAgent := r.headers.userAgent } = par at han ⊢
  obtain ⟨perfis, res⟩ := par
  simp only at han
  subst han
  simp only [hnb, gerarToken_payload_servico, gerarRefreshToken_payload_servico, criarSessao]
  rfl

/-- C3: five calls of `autenticarUsuario` from one IP whose credentials do not
verify, starting with no counter for the IP and with nothing touching that
counter in between (`s1` … `s5` are the states in which the five calls run),
each throw the invalid-credentials error. From then on, in every state that
still holds the counter left by the fifth failure, a call from that IP made
less than fifteen minutes after the fifth failure throws the lockout error and
changes nothing, whatever credentials it carries; a call made fifteen minutes
or more after it, with credentials that verify and an anomaly analysis that
does not ask for a block, succeeds and leaves the IP without counter. -/
theorem bloqueio_apos_cinco_falhas (amb : Ambiente) (ip : String)
    (s1 s2 s3 s4 s5 : Estado) (c1 c2 c3 c4 c5 : Corpo) (r1 r2 r3 r4 r5 : Req)
    (ch1 ch2 ch3 ch4 ch5 : Chamada)
    (hip : r1.ip = ip ∧ r2.ip = ip ∧ r3.ip = ip ∧ r4.ip = ip ∧ r5.ip = ip)
    (h1 : mapaGet s1.tentativasLogin ip = none)
    (h2 : mapaGet s2.tentativasLogin ip
      = mapaGet (autenticarUsuario amb s1 c1 r1 ch1).1.tentativasLogin ip)
    (h3 : mapaGet s3.tentativasLogin ip
      = mapaGet (autenticarUsuario amb s2 c2 r2 ch2).1.tentativasLogin ip)
    (h4 : mapaGet s4.tentativasLogin ip
      = mapaGet (autenticarUsuario amb s3 c3 r3 ch3).1.tentativasLogin ip)
    (h5 : mapaGet s5.tentativasLogin ip
      = mapaGet (autenticarUsuario amb s4 c4 r4 ch4).1.tentativasLogin ip)
    (hinv1 : ∀ u, buscarUsuarioPorEmail s1 c1.email = some u →
      verificarSenha c1.senha u.hashSenha = false)
    (hinv2 : ∀ u, buscarUsuarioPorEmail s2 c2.email = some u →
      verificarSenha c2.senha u.hashSenha = false)
    (hinv3 : ∀ u, buscarUsuarioPorEmail s3 c3.email = some u →
      verificarSenha c3.senha u.hashSenha = false)
    (hinv4 : ∀ u, buscarUsuarioPorEmail s4 c4.email = some u →
      verificarSenha c4.senha u.hashSenha = false)
    (hinv5 : ∀ u, buscarUsuarioPorEmail s5 c5.email = some u →
      verificarSenha c5.senha u.hashSenha = false) :
    ((autenticarUsuario amb s1 c1 r1 ch1).2 = .error "Credenciais inválidas"
      ∧ (autenticarUsuario amb s2 c2 r2 ch2).2 = .error "Credenciais inválidas"
      ∧ (autenticarUsuario amb s3 c3 r3 ch3).2 = .error "Credenciais inválidas"
      ∧ (autenticarUsuario amb s4 c4 r4 ch4).2 = .error "Credenciais inválidas"
      ∧ (autenticarUsuario amb s5 c5 r5 ch5).2 = .error "Credenciais inválidas") ∧
    (∀ (s : Estado) (c : Corpo) (r : Req) (ch : Chamada), r.ip = ip →
      mapaGet s.tentativasLogin ip
        = mapaGet (autenticarUsuario amb s5 c5 r5 ch5).1.tentativasLogin ip →
      ch.entrada < ch5.depois + tempoBloqueioPadrao →
      autenticarUsuario amb s c r ch
        = (s, .error (mensagemIPBloqueado (ch5.depois + tempoBloqueioPadrao - ch.entrada)))) ∧
    (∀ (s : Estado) (c : Corpo) (r : Req) (ch : Chamada) (u : Usuario) (b : Corpo)
        (an : Analise), r.ip = ip →
      mapaGet s.tentativasLogin ip
        = mapaGet (autenticarUsuario amb s5 c5 r5 ch5).1.tentativasLogin ip →
      ch5.depois + tempoBloqueioPadrao ≤ ch.entrada →
      buscarUsuarioPorEmail s c.email = some u →
      verificarSenha c.senha u.hashSenha = true →
      r.body = some b →
      (analisarTentativaLogin amb s.perfisComportamentais u.id
        { ip := r.ip, localizacao := b.localizacao, timestamp := ch.depois,
          fingerprint := fingerprintDe r.headers b, userAgent := r.headers.userAgent }).2
        = .ok an →
      (an.isAnomalous && decide (an.riskLevel = "CRITICAL")) = false →
      ∃ res, (autenticarUsuario amb s c r ch).2 = .ok res
        ∧ mapaGet (autenticarUsuario amb s c r ch).1.tentativasLogin ip = none) := by
  obtain ⟨hr1, hr2, hr3, hr4, hr5⟩ := hip
  subst hr1
  -- the counter after each of the five failures
  have e1 := autenticarUsuario_credenciais_invalidas amb s1 c1 r1 ch1
    (by rw [h1]; decide) hinv1
  have k1 : mapaGet s2.tentativasLogin r1.ip = some { count := 1, ultimaTentativa := ch1.depois } := by
    rw [h2, e1, registrarTentativaFalha_contador, h1]; rfl
  have e2 := autenticarUsuario_credenciais_invalidas amb s2 c2 r2 ch2
    (by rw [hr2, k1]; exact (by decide : 1 < 5)) hinv2
  have k2 : mapaGet s3.tentativasLogin r1.ip = some { count := 2, ultimaTentativa := ch2.depois } := by
    rw [h3, e2, hr2, registrarTentativaFalha_contador, k1]; rfl
  have e3 := autenticarUsuario_credenciais_invalidas amb s3 c3 r3 ch3
    (by rw [hr3, k2]; exact (by decide : 2 < 5)) hinv3
  have k3 : mapaGet s4.tentativasLogin r1.ip = some { count := 3, ultimaTentativa := ch3.depois } := by
    rw [h4, e3, hr3, registrarTentativaFalha_contador, k2]; rfl
  have e4 := autenticarUsuario_credenciais_invalidas amb s4 c4 r4 ch4
    (by rw [hr4, k3]; exact (by decide : 3 < 5)) hinv4
  have k4 : mapaGet s5.tentativasLogin r1.ip = some { count := 4, ultimaTentativa := ch4.depois } := by
    rw [h5, e4, hr4, registrarTentativaFalha_contador, k3]; rfl
  have e5 := autenticarUsuario_credenciais_invalidas amb s5 c5 r5 ch5
    (by rw [hr5, k4]; exact (by decide : 4 < 5)) hinv5
  have k5 : mapaGet (autenticarUsuario amb s5 c5 r5 ch5).1.tentativasLogin r1.ip
      = some { count := 5, ultimaTentativa := ch5.depois } := by
    rw [e5, hr5, registrarTentativaFalha_contador, k4]; rfl
  refine ⟨⟨by rw [e1], by rw [e2], by rw [e3], by rw [e4], by rw [e5]⟩, ?_, ?_⟩
  · intro s c r ch hr hs hcedo
    rw [k5] at hs
    exact autenticarUsuario_bloqueado amb s c r ch { count := 5, ultimaTentativa := ch5.depois }
      (by rw [hr]; exact hs) (Nat.le_refl 5) hcedo
  · intro s c r ch u b an hr hs htarde hu hsenha hb han hnb
    rw [k5] at hs
    rw [autenticarUsuario_apos_bloqueio amb s c r ch { count := 5, ultimaTentativa := ch5.depois }
      (by rw [hr]; exact hs) (Nat.le_refl 5) htarde]
    obtain ⟨token, refreshToken, -, -, hc⟩ := concluirLogin_sucesso amb
      { s with tentativasLogin := mapaDelete s.tentativasLogin r.ip } u r ch b an hb han hnb
    have hauth : autenticarUsuario amb
        { s with tentativasLogin := mapaDelete s.tentativasLogin r.ip } c r ch
        = concluirLogin amb { s with tentativasLogin := mapaDelete s.tentativasLogin r.ip }
            u r ch := by
      simp only [autenticarUsuario_passos]; unfold verificarTentativasLogin
      have hu' : buscarUsuarioPorEmail
          { s with tentativasLogin := mapaDelete s.tentativasLogin r.ip } c.email = some u := hu
      simp [mapaGet_mapaDelete_mesma, maxTentativas, hu', hsenha]
    rw [hauth, hc]
    refine ⟨_, rfl, ?_⟩
    simp only [criarLogAuditoria_tentativasLogin]
    rw [← hr]
    exact mapaGet_mapaDelete_mesma _ _

set_option maxRecDepth 100000 in
/-- Witness for C3: one registered user, five wrong passwords one minute apart,
then the right password 10 minutes and 15 minutes after the fifth failure. -/
theorem bloqueio_apos_cinco_falhas_witness :
    autenticarUsuario ambExemplo estadoCincoFalhas corpoLogin (reqDe corpoLogin)
        { entrada := 1700000900000, depois := 1700000900200, uuid := "sessao-1" }
      = (estadoCincoFalhas, .error (mensagemIPBloqueado 300200)) ∧
    ∃ res, (autenticarUsuario ambExemplo estadoCincoFalhas corpoLogin (reqDe corpoLogin)
        { entrada := 1700001200200, depois := 1700001200400, uuid := "sessao-1" }).2 = .ok res
      ∧ mapaGet (autenticarUsuario ambExemplo estadoCincoFalhas corpoLogin (reqDe corpoLogin)
        { entrada := 1700001200200, depois := 1700001200400,
          uuid := "sessao-1" }).1.tentativasLogin "203.0.113.7" = none :=
  have hinv : ∀ (s : Estado), buscarUsuarioPorEmail s corpoSenhaErrada.email
        = buscarUsuarioPorEmail estadoRegistrado corpoSenhaErrada.email →
      ∀ u, buscarUsuarioPorEmail s corpoSenhaErrada.email = some u →
        verificarSenha corpoSenhaErrada.senha u.hashSenha = false := by
    intro s hs u hu
    rw [hs] at hu
    have hreg : buscarUsuarioPorEmail estadoRegistrado corpoSenhaErrada.email
        = some usuarioExemplo := by decide!
    rw [hreg] at hu
    cases hu
    decide
  have h := bloqueio_apos_cinco_falhas ambExemplo "203.0.113.7"
    estadoRegistrado (aposFalha estadoRegistrado 1700000060000)
    (aposFalha (aposFalha estadoRegistrado 1700000060000) 1700000120000)
    (aposFalha (aposFalha (aposFalha estadoRegistrado 1700000060000) 1700000120000)
      1700000180000)
    (aposFalha (aposFalha (aposFalha (aposFalha estadoRegistrado 1700000060000) 1700000120000)
      1700000180000) 1700000240000)
    corpoSenhaErrada corpoSenhaErrada corpoSenhaErrada corpoSenhaErrada corpoSenhaErrada
    (reqDe corpoSenhaErrada) (reqDe corpoSenhaErrada) (reqDe corpoSenhaErrada)
    (reqDe corpoSenhaErrada) (reqDe corpoSenhaErrada)
    { entrada := 1700000060000, depois := 1700000060200 }
    { entrada := 1700000120000, depois := 1700000120200 }
    { entrada := 1700000180000, depois := 1700000180200 }
    { entrada := 1700000240000, depois := 1700000240200 }
    { entrada := 1700000300000, depois := 1700000300200 }
    ⟨rfl, rfl, rfl, rfl, rfl⟩ (by decide!) rfl rfl rfl rfl
    (hinv _ rfl) (hinv _ (by decide!)) (hinv _ (by decide!)) (hinv _ (by decide!))
    (hinv _ (by decide!))
  ⟨h.2.1 estadoCincoFalhas corpoLogin (reqDe corpoLogin)
      { entrada := 1700000900000, depois := 1700000900200, uuid := "sessao-1" } rfl rfl
      (by decide),
   h.2.2 estadoCincoFalhas corpoLogin (reqDe corpoLogin)
      { entrada := 1700001200200, depois := 1700001200400, uuid := "sessao-1" }
      usuarioExemplo corpoLogin
      { isAnomalous := false, anomalyScore := some (arredondar (3 / 10)),
        reasons := motivosDe false false true false, riskLevel := "MEDIUM" }
      rfl rfl (by decide) (by decide!) (by decide) rfl (by decide!) (by decide)⟩

/-! ## Sessions -/

theorem sessoesGet_de_membro (l : List Sessao) (x : Sessao) (hx : x ∈ l) :
    ∃ y, sessoesGet l x.id = some y ∧ y.id = x.id ∧ y ∈ l := by
  induction l with
  | nil => cases hx
  | cons z resto ih =>
    unfold sessoesGet
    by_cases hz : z.id = x.id
    · exact ⟨z, by simp [hz], hz, List.mem_cons_self _ _⟩
    · rcases List.mem_cons.mp hx with h | h
      · exact absurd (h ▸ rfl) hz
      · obtain ⟨y, hy, hid, hmem⟩ := ih h
        exact ⟨y, by simp [hz, hy], hid, List.mem_cons_of_mem _ hmem⟩

theorem sessoesGet_membro (l : List Sessao) (id : String) (y : Sessao)
    (h : sessoesGet l id = some y) : y ∈ l ∧ y.id = id := by
  induction l with
  | nil => simp [sessoesGet] at h
  | cons z resto ih =>
    unfold sessoesGet at h
    by_cases hz : z.id = id
    · simp [hz] at h
      subst h
      exact ⟨List.mem_cons_self _ _, hz⟩
    · simp [hz] at h
      exact ⟨List.mem_cons_of_mem _ (ih h).1, (ih h).2⟩

theorem membro_sessoesSet (l : List Sessao) (x z : Sessao) (hz : z ∈ sessoesSet l x) :
    z = x ∨ z ∈ l := by
  induction l with
  | nil => simp [sessoesSet] at hz; exact Or.inl hz
  | cons y resto ih =>
    unfold sessoesSet at hz
    by_cases hy : y.id = x.id
    · simp [hy] at hz
      rcases hz with h | h
      · exact Or.inl h
      · exact Or.inr (List.mem_cons_of_mem _ h)
    · simp [hy] at hz
      rcases hz with h | h
      · exact Or.inr (h ▸ List.mem_cons_self _ _)
      · rcases ih h with h' | h'
        · exact Or.inl h'
        · exact Or.inr (List.mem_cons_of_mem _ h')

/-- In a table with pairwise distinct ids, storing a new value under the id of
a member replaces exactly that member. -/
theorem membro_sessoesSet_unico (l : List Sessao) (x x' z : Sessao)
    (hnodup : (l.map (fun y => y.id)).Nodup) (hx : x ∈ l) (hid : x'.id = x.id)
    (hz : z ∈ sessoesSet l x') : z = x' ∨ (z ∈ l ∧ z ≠ x) := by
  induction l with
  | nil => cases hx
  | cons y resto ih =>
    simp only [List.map_cons, List.nodup_cons, List.mem_map, not_exists, not_and] at hnodup
    unfold sessoesSet at hz
    by_cases hy : y.id = x'.id
    · simp [hy] at hz
      rcases hz with h | h
      · exact Or.inl h
      · right
        refine ⟨List.mem_cons_of_mem _ h, ?_⟩
        intro hzx
        subst hzx
        exact hnodup.1 z h (by rw [hy, hid])
    · simp [hy] at hz
      have hxr : x ∈ resto := by
        rcases List.mem_cons.mp hx with h | h
        · exact absurd (by rw [← h, hid]) hy
        · exact h
      rcases hz with h | h
      · right
        refine ⟨h ▸ List.mem_cons_self _ _, ?_⟩
        intro hzx
        apply hy
        rw [← h, hzx, hid]
      · rcases ih hnodup.2 hxr h with h' | ⟨h', h''⟩
        · exact Or.inl h'
        · exact Or.inr ⟨List.mem_cons_of_mem _ h', h''⟩

theorem sessoesGet_unico (l : List Sessao) (x : Sessao)
    (hnodup : (l.map (fun y => y.id)).Nodup) (hx : x ∈ l) : sessoesGet l x.id = some x := by
  induction l with
  | nil => cases hx
  | cons y resto ih =>
    simp only [List.map_cons, List.nodup_cons, List.mem_map, not_exists, not_and] at hnodup
    unfold sessoesGet
    rcases List.mem_cons.mp hx with h | h
    · subst h; simp
    · have : y.id ≠ x.id := fun hyx => hnodup.1 x h hyx.symm
      simp [this, ih hnodup.2 h]

/-! ## Verification -/

theorem jwtVerify_claims (t p : Token) (chave issuer audience : String) (agora : Nat)
    (h : jwtVerify t chave issuer audience agora = .ok p) :
    p = t ∧ t.chave = chave ∧ agora / 1000 < t.exp ∧ t.aud = audience ∧ t.iss = issuer := by
  unfold jwtVerify at h
  simp only [] at h
  split_ifs at h with h1 h2 h3 h4 h5
  simp only [Except.ok.injEq] at h
  exact ⟨h.symm, not_not.mp h1, Nat.not_le.mp h3, not_not.mp h4, not_not.mp h5⟩

theorem verificarToken_claims (cfg : Configuracao) (t p : Token) (agora : Nat)
    (h : verificarToken cfg t agora = .ok p) :
    p = t ∧ t.chave = cfg.chaveSecreta ∧ agora / 1000 < t.exp ∧ t.aud = cfg.audience := by
  unfold verificarToken at h
  split at h
  · next p' hp =>
    simp only [Except.ok.injEq] at h
    subst h
    obtain ⟨a, b, c, d, -⟩ := jwtVerify_claims _ _ _ _ _ _ hp
    exact ⟨a, b, c, d⟩
  · cases h

theorem verificarRefreshToken_claims (cfg : Configuracao) (t p : Token) (agora : Nat)
    (h : verificarRefreshToken cfg t agora = .ok p) :
    p = t ∧ t.chave = cfg.chaveSecreta ∧ agora / 1000 < t.exp
      ∧ t.aud = cfg.audienceRefresh := by
  unfold verificarRefreshToken at h
  split at h
  · next p' hp =>
    simp only [Except.ok.injEq] at h
    subst h
    obtain ⟨a, b, c, d, -⟩ := jwtVerify_claims _ _ _ _ _ _ hp
    exact ⟨a, b, c, d⟩
  · cases h

/-! ## Renewal -/

/-- Updating under the id of a member of the table succeeds: it rewrites the
first entry that has that id. -/
theorem atualizarSessao_de_membro (s : Estado) (x : Sessao) (a : AtualizacoesSessao)
    (agora : Nat) (hx : x ∈ s.sessoes) :
    ∃ y, sessoesGet s.sessoes x.id = some y ∧ y.id = x.id ∧ y ∈ s.sessoes ∧
      atualizarSessao s x.id a agora
        = ({ s with sessoes := sessoesSet s.sessoes (aplicarAtualizacoes y a agora) },
           .ok (aplicarAtualizacoes y a agora)) := by
  obtain ⟨y, hy, hid, hmem⟩ := sessoesGet_de_membro s.sessoes x hx
  refine ⟨y, hy, hid, hmem, ?_⟩
  unfold atualizarSessao
  rw [hy]

theorem buscar_find_membro (s : Estado) (id : Option String) (p : Sessao → Bool) (x : Sessao)
    (h : (buscarSessoesUsuario s id).find? p = some x) :
    x ∈ s.sessoes ∧ some x.idUsuario = id ∧ p x = true := by
  have hp := List.find?_some h
  have hm := List.mem_of_find?_eq_some h
  unfold buscarSessoesUsuario at hm
  rw [List.mem_filter] at hm
  exact ⟨hm.1, of_decide_eq_true hm.2, hp⟩

theorem buscar_find_none (s : Estado) (id : Option String) (p : Sessao → Bool)
    (h : ∀ x ∈ s.sessoes, some x.idUsuario = id → p x = false) :
    (buscarSessoesUsuario s id).find? p = none := by
  rw [List.find?_eq_none]
  intro x hx
  unfold buscarSessoesUsuario at hx
  rw [List.mem_filter] at hx
  rw [h x hx.1 (of_decide_eq_true hx.2)]
  simp

theorem atualizarSessao_nao_falha {s s1 : Estado} {x : Sessao} {a : AtualizacoesSessao}
    {agora : Nat} {m : String} (hx : x ∈ s.sessoes)
    (h : atualizarSessao s x.id a agora = (s1, .error m)) : False := by
  obtain ⟨y, -, -, -, hat⟩ := atualizarSessao_de_membro s x a agora hx
  rw [hat] at h
  simp at h

/-- A renewal that throws leaves the state as it was and throws the one
generic message. -/
theorem renovarToken_falha (amb : Ambiente) (s : Estado) (rt : Option Token) (req : Req)
    (ch : Chamada) (m : String) (h : (renovarTokenCorpo amb s rt req ch).2 = .error m) :
    renovarToken amb s rt req ch = (s, .error "Token de renovação inválido") := by
  unfold renovarToken
  unfold renovarTokenCorpo at h ⊢
  cases rt with
  | none => rfl
  | some r =>
    simp only at h ⊢
    cases hv : verificarRefreshToken amb.cfg r ch.entrada with
    | error e => simp
    | ok p =>
      simp only [hv] at h ⊢
      cases hf : (buscarSessoesUsuario s p.id).find?
          (fun x => decide (x.refreshToken = r) && x.ativa) with
      | none => simp
      | some x =>
        simp only [hf] at h ⊢
        cases hg : gerar req ch.depois with
        | error e => simp
        | ok fp =>
          simp only [hg] at h ⊢
          by_cases hfp : fp.fingerprint = x.fingerprint
          · rw [if_neg (not_not.mpr hfp)] at h ⊢
            simp only [gerarToken_payload_servico, gerarRefreshToken_payload_servico] at h ⊢
            split at h
            · next s1 m' heq =>
              exact (atualizarSessao_nao_falha (buscar_find_membro s p.id _ x hf).1 heq).elim
            · cases h
          · rw [if_pos hfp]

set_option maxRecDepth 100000 in
theorem loginExemplo_resultado :
    loginExemplo.2 = .ok
      { usuario := { id := "usuario-1", email := some "a@x.com", nome := some "A" }
        token := tokenExemplo
        refreshToken := refreshExemplo
        sessao := "sessao-1"
        analiseSeguranca := { riskLevel := "MEDIUM", confiancaDispositivo := 6 } }
    ∧ estadoLogado.sessoes = [sessaoExemplo] := by
  decide!

/-- C5: when `renovarToken` is called with a refresh token that verifies and
that an active session of its user stores, from a request whose fingerprint
differs from the stored fingerprint of every such session, the `try` block
stops at the device check, the caller gets the generic error, and the state
is exactly as before: the sessions keep their flags and tokens and the set of
revoked tokens is unchanged. -/
theorem renovacao_de_outro_dispositivo (amb : Ambiente) (s : Estado) (r p : Token) (req : Req)
    (ch : Chamada) (x : Sessao) (fp : ResultadoFingerprint)
    (hv : verificarRefreshToken amb.cfg r ch.entrada = .ok p)
    (hx : x ∈ s.sessoes ∧ some x.idUsuario = r.id ∧ x.refreshToken = r ∧ x.ativa = true)
    (hg : gerar req ch.depois = .ok fp)
    (hdif : ∀ y ∈ s.sessoes, some y.idUsuario = r.id → y.refreshToken = r → y.ativa = true →
      fp.fingerprint ≠ y.fingerprint) :
    (renovarTokenCorpo amb s (some r) req ch).2 = .error "Dispositivo não reconhecido"
      ∧ renovarToken amb s (some r) req ch = (s, .error "Token de renovação inválido") := by
  have hp : p = r := (verificarRefreshToken_claims _ _ _ _ hv).1
  subst hp
  have hcorpo : (renovarTokenCorpo amb s (some p) req ch).2
      = .error "Dispositivo não reconhecido" := by
    unfold renovarTokenCorpo
    simp only [hv]
    cases hf : (buscarSessoesUsuario s p.id).find?
        (fun x => decide (x.refreshToken = p) && x.ativa) with
    | none =>
      exfalso
      rw [List.find?_eq_none] at hf
      have hmem : x ∈ buscarSessoesUsuario s p.id := by
        unfold buscarSessoesUsuario
        rw [List.mem_filter]
        exact ⟨hx.1, decide_eq_true hx.2.1⟩
      have := hf x hmem
      simp [hx.2.2.1, hx.2.2.2] at this
    | some y =>
      obtain ⟨hy1, hy2, hy3⟩ := buscar_find_membro s p.id _ y hf
      simp only [Bool.and_eq_true, decide_eq_true_eq] at hy3
      simp only [hg]
      rw [if_pos (hdif y hy1 hy2 hy3.1 hy3.2)]
  exact ⟨hcorpo, renovarToken_falha amb s (some p) req ch _ hcorpo⟩

set_option maxRecDepth 100000 in
/-- Witness for C5: the refresh token of the first login presented by another
program 100 s later. -/
theorem renovacao_de_outro_dispositivo_witness :
    (renovarTokenCorpo ambExemplo estadoLogado (some refreshExemplo) reqOutroDispositivo
        { entrada := 1700000200000, depois := 1700000200100 }).2
      = .error "Dispositivo não reconhecido"
    ∧ renovarToken ambExemplo estadoLogado (some refreshExemplo) reqOutroDispositivo
        { entrada := 1700000200000, depois := 1700000200100 }
      = (estadoLogado, .error "Token de renovação inválido") :=
  renovacao_de_outro_dispositivo ambExemplo estadoLogado refreshExemplo refreshExemplo
    reqOutroDispositivo { entrada := 1700000200000, depois := 1700000200100 } sessaoExemplo
    { fingerprint := fingerprintDe reqOutroDispositivo.headers {}
      componentes := componentesDe reqOutroDispositivo.headers {}
      confidence := 6
      timestamp := 1700000200100 }
    (by decide!) (by decide!) (by decide!) (by decide!)

/-- What a successful renewal did: it matched an active session of the token's
user that stored the token, found the request's fingerprint equal to the
session's, signed the new pair at the clock reading after the wait, and stored
the pair in the table entry that has the matched session's id. -/
theorem renovarToken_sucesso (amb : Ambiente) (s s1 : Estado) (r : Token) (req : Req)
    (ch : Chamada) (res : ResultadoRenovacao)
    (h : renovarToken amb s (some r) req ch = (s1, .ok res)) :
    ∃ x y, x ∈ s.sessoes ∧ x.refreshToken = r ∧ x.ativa = true ∧ some x.idUsuario = r.id
      ∧ sessoesGet s.sessoes x.id = some y
      ∧ res.token.iat = ch.depois / 1000 ∧ res.refreshToken.iat = ch.depois / 1000
      ∧ s1 = { s with
               sessoes := sessoesSet s.sessoes
                 (aplicarAtualizacoes y
                   { token := some res.token, refreshToken := some res.refreshToken,
                     atualizadaEm := some ch.depois } ch.depois) } := by
  unfold renovarToken renovarTokenCorpo at h
  simp only at h
  cases hv : verificarRefreshToken amb.cfg r ch.entrada with
  | error e => simp [hv] at h
  | ok p =>
    have hp : p = r := (verificarRefreshToken_claims _ _ _ _ hv).1
    subst hp
    simp only [hv] at h
    cases hf : (buscarSessoesUsuario s p.id).find?
        (fun x => decide (x.refreshToken = p) && x.ativa) with
    | none => simp [hf] at h
    | some x =>
      obtain ⟨hx1, hx2, hx3⟩ := buscar_find_membro s p.id _ x hf
      simp only [Bool.and_eq_true, decide_eq_true_eq] at hx3
      simp only [hf] at h
      cases hg : gerar req ch.depois with
      | error e => simp [hg] at h
      | ok fp =>
        simp only [hg] at h
        by_cases hfp : fp.fingerprint = x.fingerprint
        · rw [if_neg (not_not.mpr hfp)] at h
          simp only [gerarToken_payload_servico, gerarRefreshToken_payload_servico] at h
          obtain ⟨y, hy, -, -, hat⟩ := atualizarSessao_de_membro s x
            { token := some { id := p.id, email := p.email,
                              fingerprint := some fp.fingerprint, iat := ch.depois / 1000,
                              exp := ch.depois / 1000 + amb.cfg.tempoExpiracaoToken,
                              nbf := none, iss := amb.cfg.issuer, aud := amb.cfg.audience,
                              chave := amb.cfg.chaveSecreta }
              refreshToken := some { id := p.id, email := p.email,
                                     fingerprint := some fp.fingerprint,
                                     iat := ch.depois / 1000,
                                     exp := ch.depois / 1000 + amb.cfg.tempoExpiracaoRefresh,
                                     nbf := none, iss := amb.cfg.issuer,
                                     aud := amb.cfg.audienceRefresh,
                                     chave := amb.cfg.chaveSecreta }
              atualizadaEm := some ch.depois } ch.depois hx1
          rw [hat] at h
          simp only [Prod.mk.injEq, Except.ok.injEq] at h
          obtain ⟨hs1, hres⟩ := h
          subst hres
          exact ⟨x, y, hx1, hx3.1, hx3.2, hx2, hy, rfl, rfl, hs1.symm⟩
        · rw [if_pos hfp] at h
          simp at h

/-- C6 (amended): after a successful `renovarToken(r)` that was signed in
another clock second than `r` was, in a state whose session ids are pairwise
distinct and in which at most one active session stores `r`, the refresh token
now stored differs from `r` and a second `renovarToken(r)`, from any request,
throws the generic error and changes nothing. -/
theorem renovacao_repetida_falha (amb : Ambiente) (s s1 : Estado) (r : Token)
    (req1 req2 : Req) (ch1 ch2 : Chamada) (res : ResultadoRenovacao)
    (hnodup : (s.sessoes.map (fun x => x.id)).Nodup)
    (hunico : ∀ x ∈ s.sessoes, ∀ y ∈ s.sessoes, x.ativa = true → y.ativa = true →
      x.refreshToken = r → y.refreshToken = r → x = y)
    (h1 : renovarToken amb s (some r) req1 ch1 = (s1, .ok res))
    (hseg : ch1.depois / 1000 ≠ r.iat) :
    res.refreshToken ≠ r
      ∧ renovarToken amb s1 (some r) req2 ch2 = (s1, .error "Token de renovação inválido") := by
  obtain ⟨x, y, hx, hxr, hxa, -, hy, -, hiat, hs1⟩ := renovarToken_sucesso amb s s1 r req1 ch1 res h1
  have hyx : y = x := by
    have := sessoesGet_unico s.sessoes x hnodup hx
    rw [hy] at this
    exact (Option.some.inj this)
  subst hyx
  have hdif : res.refreshToken ≠ r := by
    intro heq
    rw [heq] at hiat
    exact hseg hiat.symm
  refine ⟨hdif, ?_⟩
  have hcorpo : ∃ m, (renovarTokenCorpo amb s1 (some r) req2 ch2).2 = .error m := by
    unfold renovarTokenCorpo
    simp only
    cases hv : verificarRefreshToken amb.cfg r ch2.entrada with
    | error e => exact ⟨e, rfl⟩
    | ok p =>
      have hp : p = r := (verificarRefreshToken_claims _ _ _ _ hv).1
      subst hp
      simp only
      rw [buscar_find_none s1 p.id]
      · exact ⟨_, rfl⟩
      · intro z hz _
        rw [hs1] at hz
        simp only at hz
        rcases membro_sessoesSet_unico s.sessoes y (aplicarAtualizacoes y _ _) z hnodup hx rfl hz
          with h | ⟨hzs, hzx⟩
        · rw [h]
          simp [aplicarAtualizacoes, hdif]
        · by_cases hzr : z.refreshToken = p
          · by_cases hza : z.ativa = true
            · exact absurd (hunico z hzs y hx hza hxa hzr hxr) hzx
            · simp [hza]
          · simp [hzr]
  obtain ⟨m, hm⟩ := hcorpo
  exact renovarToken_falha amb s1 (some r) req2 ch2 m hm

set_option maxRecDepth 100000 in
/-- C6 fails as stated: a renewal signed in the same second as the login that
issued `r` signs the very same refresh token again, so the session still
stores `r` and a second renewal with `r` from the same device succeeds. -/
theorem renovacao_repetida_no_mesmo_segundo :
    (renovarToken ambExemplo estadoLogado (some refreshExemplo) (reqDe {})
        { entrada := 1700000100300, depois := 1700000100400 }).2
      = .ok { token := tokenExemplo, refreshToken := refreshExemplo }
    ∧ (renovarToken ambExemplo
        (renovarToken ambExemplo estadoLogado (some refreshExemplo) (reqDe {})
          { entrada := 1700000100300, depois := 1700000100400 }).1
        (some refreshExemplo) (reqDe {})
        { entrada := 1700000101000, depois := 1700000101100 }).2
      = .ok { token := { tokenExemplo with iat := 1700000101, exp := 1700086501 }
              refreshToken := { refreshExemplo with iat := 1700000101, exp := 1700604901 } } := by
  decide!

set_option maxRecDepth 100000 in
/-- Witness for C6 (amended): a renewal 100 s after the login, then a second one
with the old refresh token. -/
theorem renovacao_repetida_falha_witness :
    ({ token := { tokenExemplo with iat := 1700000200, exp := 1700086600 }
       refreshToken := { refreshExemplo with iat := 1700000200, exp := 1700605000 }
         : ResultadoRenovacao }).refreshToken ≠ refreshExemplo
    ∧ renovarToken ambExemplo
        (renovarToken ambExemplo estadoLogado (some refreshExemplo) (reqDe {})
          { entrada := 1700000200000, depois := 1700000200100 }).1
        (some refreshExemplo) (reqDe {})
        { entrada := 1700000201000, depois := 1700000201100 }
      = ((renovarToken ambExemplo estadoLogado (some refreshExemplo) (reqDe {})
          { entrada := 1700000200000, depois := 1700000200100 }).1,
         .error "Token de renovação inválido") :=
  renovacao_repetida_falha ambExemplo estadoLogado _ refreshExemplo (reqDe {}) (reqDe {})
    { entrada := 1700000200000, depois := 1700000200100 }
    { entrada := 1700000201000, depois := 1700000201100 }
    { token := { tokenExemplo with iat := 1700000200, exp := 1700086600 }
      refreshToken := { refreshExemplo with iat := 1700000200, exp := 1700605000 } }
    (by decide!) (by decide!) (by decide!) (by decide)

/-! ## Logout -/

@[simp] theorem revogarToken_sessoes (s : Estado) (t : Token) :
    (revogarToken s t).sessoes = s.sessoes := rfl

theorem membro_conjuntoAdd {α : Type} [DecidableEq α] (c : List α) (x : α) :
    x ∈ conjuntoAdd c x := by
  unfold conjuntoAdd
  split_ifs with h
  · exact h
  · simp

theorem conjuntoAdd_de_membro {α : Type} [DecidableEq α] (c : List α) (x : α) (h : x ∈ c) :
    conjuntoAdd c x = c := by
  unfold conjuntoAdd
  rw [if_pos h]

/-- What a logout with a token that verifies does: it deactivates the table
entry that has the id of the first active session of the token's user storing
the token, if there is one, adds the token to the revoked set, appends one
audit record and returns true. -/
theorem logout_sucesso (amb : Ambiente) (s : Estado) (token p : Token) (req : Req)
    (ch : Chamada) (hv : verificarToken amb.cfg token ch.entrada = .ok p) :
    ∃ s', logout amb s token req ch
        = (criarLogAuditoria (revogarToken s' token)
            { idUsuario := token.id, acao := "LOGOUT", ip := some req.ip,
              timestamp := ch.entrada } ch.entrada, .ok true)
      ∧ s'.tokensRevogados = s.tokensRevogados
      ∧ (((buscarSessoesUsuario s token.id).find?
            (fun x => decide (x.token = token) && x.ativa) = none ∧ s' = s)
        ∨ ∃ x y, (buscarSessoesUsuario s token.id).find?
            (fun x => decide (x.token = token) && x.ativa) = some x
          ∧ sessoesGet s.sessoes x.id = some y
          ∧ s' = { s with
                   sessoes := sessoesSet s.sessoes
                     (aplicarAtualizacoes y
                       { ativa := some false, finalizadaEm := some ch.entrada }
                       ch.entrada) }) := by
  have hp : p = token := (verificarToken_claims _ _ _ _ hv).1
  subst hp
  unfold logout logoutCorpo
  simp only [hv]
  cases hf : (buscarSessoesUsuario s p.id).find? (fun x => decide (x.token = p) && x.ativa) with
  | none => exact ⟨s, rfl, rfl, Or.inl ⟨rfl, rfl⟩⟩
  | some x =>
    obtain ⟨y, hy, -, -, hat⟩ := atualizarSessao_de_membro s x
      { ativa := some false, finalizadaEm := some ch.entrada } ch.entrada
      (buscar_find_membro s p.id _ x hf).1
    simp only [hat]
    exact ⟨_, rfl, rfl, Or.inr ⟨x, y, rfl, hy, rfl⟩⟩

theorem buscarSessoesUsuario_congr (s t : Estado) (id : Option String)
    (h : s.sessoes = t.sessoes) : buscarSessoesUsuario s id = buscarSessoesUsuario t id := by
  unfold buscarSessoesUsuario
  rw [h]

/-- C8 (amended): for every state and every token that verifies as an access
token at both calls, the first `logout` returns true and leaves the token in
the revoked set, whether or not an active session stores it; the second
`logout` with the same token returns true as well and leaves the revoked set
exactly as the first call left it; it leaves the session table exactly as the
first call left it when the session ids are pairwise distinct and at most one
active session stored the token. -/
theorem logout_repetido (amb : Ambiente) (s : Estado) (token p1 p2 : Token) (req1 req2 : Req)
    (ch1 ch2 : Chamada)
    (hv1 : verificarToken amb.cfg token ch1.entrada = .ok p1)
    (hv2 : verificarToken amb.cfg token ch2.entrada = .ok p2) :
    (logout amb s token req1 ch1).2 = .ok true
    ∧ tokenRevogado (logout amb s token req1 ch1).1 token = true
    ∧ (logout amb (logout amb s token req1 ch1).1 token req2 ch2).2 = .ok true
    ∧ (logout amb (logout amb s token req1 ch1).1 token req2 ch2).1.tokensRevogados
        = (logout amb s token req1 ch1).1.tokensRevogados
    ∧ ((s.sessoes.map (fun x => x.id)).Nodup →
        (∀ x ∈ s.sessoes, ∀ y ∈ s.sessoes, x.ativa = true → y.ativa = true →
          x.token = token → y.token = token → x = y) →
        (logout amb (logout amb s token req1 ch1).1 token req2 ch2).1.sessoes
          = (logout amb s token req1 ch1).1.sessoes) := by
  obtain ⟨s', h1, hrev1, hcaso1⟩ := logout_sucesso amb s token p1 req1 ch1 hv1
  obtain ⟨s'', h2, hrev2, hcaso2⟩ :=
    logout_sucesso amb (logout amb s token req1 ch1).1 token p2 req2 ch2 hv2
  have hmem : token ∈ (logout amb s token req1 ch1).1.tokensRevogados := by
    rw [h1]
    simp only [criarLogAuditoria_tokensRevogados, revogarToken]
    exact membro_conjuntoAdd _ _
  refine ⟨by rw [h1], ?_, by rw [h2], ?_, ?_⟩
  · unfold tokenRevogado
    exact decide_eq_true hmem
  · rw [h2]
    simp only [criarLogAuditoria_tokensRevogados, revogarToken]
    rw [hrev2]
    exact conjuntoAdd_de_membro _ _ hmem
  · intro hnodup hunico
    -- no active session stores the token after the first call
    have hnenhuma : (buscarSessoesUsuario (logout amb s token req1 ch1).1 token.id).find?
        (fun x => decide (x.token = token) && x.ativa) = none := by
      rcases hcaso1 with ⟨hnone, hs'⟩ | ⟨x, y, hsome, hy, hs'⟩
      · rw [buscarSessoesUsuario_congr _ s token.id (by rw [h1, hs']; rfl)]
        exact hnone
      · obtain ⟨hx1, -, hx3⟩ := buscar_find_membro s token.id _ x hsome
        simp only [Bool.and_eq_true, decide_eq_true_eq] at hx3
        have hyx : y = x := by
          have := sessoesGet_unico s.sessoes x hnodup hx1
          rw [hy] at this
          exact Option.some.inj this
        subst hyx
        apply buscar_find_none
        intro z hz _
        rw [h1, hs'] at hz
        simp only [criarLogAuditoria_sessoes, revogarToken_sessoes] at hz
        rcases membro_sessoesSet_unico s.sessoes y (aplicarAtualizacoes y _ _) z hnodup hx1 rfl hz
          with h | ⟨hzs, hzx⟩
        · rw [h]
          simp [aplicarAtualizacoes]
        · by_cases hzt : z.token = token
          · by_cases hza : z.ativa = true
            · exact absurd (hunico z hzs y hx1 hza hx3.2 hzt hx3.1) hzx
            · simp [hza]
          · simp [hzt]
    rcases hcaso2 with ⟨-, hs''⟩ | ⟨x, y, hsome, -, -⟩
    · rw [h2, hs'']
      rfl
    · rw [hnenhuma] at hsome
      cases hsome

set_option maxRecDepth 100000 in
/-- Witness for C8 (amended): two logouts with the access token of the only
session. -/
theorem logout_repetido_witness :
    (logout ambExemplo estadoLogado tokenExemplo (reqDe {})
      { entrada := 1700000300000, depois := 1700000300000 }).2 = .ok true
    ∧ tokenRevogado (logout ambExemplo estadoLogado tokenExemplo (reqDe {})
      { entrada := 1700000300000, depois := 1700000300000 }).1 tokenExemplo = true
    ∧ (logout ambExemplo (logout ambExemplo estadoLogado tokenExemplo (reqDe {})
        { entrada := 1700000300000, depois := 1700000300000 }).1 tokenExemplo (reqDe {})
        { entrada := 1700000400000, depois := 1700000400000 }).1.sessoes
      = (logout ambExemplo estadoLogado tokenExemplo (reqDe {})
        { entrada := 1700000300000, depois := 1700000300000 }).1.sessoes :=
  have h := logout_repetido ambExemplo estadoLogado tokenExemplo tokenExemplo tokenExemplo
    (reqDe {}) (reqDe {}) { entrada := 1700000300000, depois := 1700000300000 }
    { entrada := 1700000400000, depois := 1700000400000 } (by decide!) (by decide!)
  ⟨h.1, h.2.1, h.2.2.2.2 (by decide!) (by decide!)⟩

set_option maxRecDepth 100000 in
/-- C8 fails as stated: after two logins of one user from one device in the
same second, two active sessions store the same access token; the first
`logout` deactivates one of them, the second `logout` with the same token
deactivates the other, so the session table is not as the first call left
it. -/
theorem logout_repetido_duas_sessoes :
    (estadoDuasSessoes.sessoes.map (fun x => (x.id, decide (x.token = tokenExemplo), x.ativa)))
      = [("sessao-1", true, true), ("sessao-2", true, true)]
    ∧ (logout ambExemplo estadoDuasSessoes tokenExemplo (reqDe {})
        { entrada := 1700000300000, depois := 1700000300000 }).2 = .ok true
    ∧ ((logout ambExemplo estadoDuasSessoes tokenExemplo (reqDe {})
        { entrada := 1700000300000, depois := 1700000300000 }).1.sessoes.map
          (fun x => (x.id, x.ativa))) = [("sessao-1", false), ("sessao-2", true)]
    ∧ (logout ambExemplo (logout ambExemplo estadoDuasSessoes tokenExemplo (reqDe {})
        { entrada := 1700000300000, depois := 1700000300000 }).1 tokenExemplo (reqDe {})
        { entrada := 1700000400000, depois := 1700000400000 }).2 = .ok true
    ∧ ((logout ambExemplo (logout ambExemplo estadoDuasSessoes tokenExemplo (reqDe {})
        { entrada := 1700000300000, depois := 1700000300000 }).1 tokenExemplo (reqDe {})
        { entrada := 1700000400000, depois := 1700000400000 }).1.sessoes.map
          (fun x => (x.id, x.ativa))) = [("sessao-1", false), ("sessao-2", false)] := by
  decide!

/-! ## Terminated sessions -/

theorem sessoesGet_sessoesSet (l : List Sessao) (v : Sessao) (k : String) :
    sessoesGet (sessoesSet l v) k = if v.id = k then some v else sessoesGet l k := by
  induction l with
  | nil => simp [sessoesSet, sessoesGet]
  | cons y resto ih =>
    unfold sessoesSet
    by_cases hy : y.id = v.id
    · rw [if_pos hy]
      by_cases hv : v.id = k
      · simp [sessoesGet, hv]
      · have hyk : y.id ≠ k := fun h => hv (hy ▸ h)
        simp [sessoesGet, hv, hyk]
    · rw [if_neg hy]
      by_cases hv : v.id = k
      · have hyk : y.id ≠ k := fun h => hy (h.trans hv.symm)
        simp [sessoesGet, hv, hyk, ih]
      · rw [if_neg hv]
        by_cases hyk : y.id = k
        · simp [sessoesGet, hyk]
        · simp [sessoesGet, hv, hyk, ih]

theorem concluirLogin_sessoes (amb : Ambiente) (s : Estado) (u : Usuario) (r : Req)
    (ch : Chamada) :
    (concluirLogin amb s u r ch).1.sessoes = s.sessoes
      ∨ ∃ v, v.id = ch.uuid ∧ (concluirLogin amb s u r ch).1.sessoes = sessoesSet s.sessoes v := by
  unfold concluirLogin
  split
  · exact Or.inl rfl
  · exact Or.inl rfl
  · split
    · exact Or.inl rfl
    · split
      · exact Or.inl rfl
      · simp only [gerarToken_payload_servico, gerarRefreshToken_payload_servico, criarSessao]
        exact Or.inr ⟨_, rfl, rfl⟩

theorem autenticarUsuario_sessoes (amb : Ambiente) (s : Estado) (c : Corpo) (r : Req)
    (ch : Chamada) :
    (autenticarUsuario amb s c r ch).1.sessoes = s.sessoes
      ∨ ∃ v, v.id = ch.uuid
          ∧ (autenticarUsuario amb s c r ch).1.sessoes = sessoesSet s.sessoes v := by
  simp only [autenticarUsuario_passos]
  have hv : (verificarTentativasLogin s r.ip ch.entrada).1.sessoes = s.sessoes := by
    unfold verificarTentativasLogin
    simp only
    split_ifs <;> rfl
  split
  · next s0 m heq =>
    rw [heq] at hv
    exact Or.inl hv
  · next s0 heq =>
    rw [heq] at hv
    simp only at hv ⊢
    cases hu : buscarUsuarioPorEmail s0 c.email with
    | none => exact Or.inl hv
    | some u =>
      simp only
      split_ifs
      · exact Or.inl hv
      · rw [← hv]
        exact concluirLogin_sessoes amb s0 u r ch

theorem registrarUsuario_sessoes (amb : Ambiente) (s : Estado) (d : Corpo) (r : Req)
    (ch : Chamada) : (registrarUsuario amb s d r ch).1.sessoes = s.sessoes := by
  unfold registrarUsuario
  simp only
  split_ifs
  · rfl
  · split
    · rfl
    · split
      · rfl
      · split_ifs
        · rfl
        · split
          · rfl
          · split
            · rfl
            · rfl

theorem logout_falha (amb : Ambiente) (s : Estado) (token : Token) (req : Req) (ch : Chamada)
    (e : String) (hv : verificarToken amb.cfg token ch.entrada = .error e) :
    logout amb s token req ch = (s, .error "Erro ao fazer logout") := by
  unfold logout logoutCorpo
  simp only [hv]

/-- Every call of the service leaves the session table as it was or stores one
value in it: a new session under the id the login drew, or an existing entry
with new tokens and an `ativa` flag that is unchanged or false. -/
theorem executar_sessoes (amb : Ambiente) (s : Estado) (op : Operacao) :
    (executar amb s op).sessoes = s.sessoes
      ∨ ∃ v, (executar amb s op).sessoes = sessoesSet s.sessoes v
          ∧ ((∃ c r ch, op = .autenticar c r ch ∧ v.id = ch.uuid)
            ∨ ∃ y, sessoesGet s.sessoes v.id = some y
                ∧ (v.ativa = y.ativa ∨ v.ativa = false)) := by
  cases op with
  | registrar d r ch => exact Or.inl (registrarUsuario_sessoes amb s d r ch)
  | autenticar c r ch =>
    rcases autenticarUsuario_sessoes amb s c r ch with h | ⟨v, hv, h⟩
    · exact Or.inl h
    · exact Or.inr ⟨v, h, Or.inl ⟨c, r, ch, rfl, hv⟩⟩
  | renovar rt r ch =>
    show (renovarToken amb s rt r ch).1.sessoes = s.sessoes
      ∨ ∃ v, (renovarToken amb s rt r ch).1.sessoes = sessoesSet s.sessoes v
          ∧ ((∃ c r' ch', Operacao.renovar rt r ch = .autenticar c r' ch' ∧ v.id = ch'.uuid)
            ∨ ∃ y, sessoesGet s.sessoes v.id = some y
                ∧ (v.ativa = y.ativa ∨ v.ativa = false))
    cases hres : renovarToken amb s rt r ch with
    | mk s1 res =>
      cases res with
      | error e =>
        have hcorpo : ∃ m, (renovarTokenCorpo amb s rt r ch).2 = .error m := by
          unfold renovarToken at hres
          split at hres
          · simp at hres
          · next s2 m heq => exact ⟨m, by rw [heq]⟩
        obtain ⟨m, hm⟩ := hcorpo
        rw [renovarToken_falha amb s rt r ch m hm] at hres
        simp only [Prod.mk.injEq] at hres
        exact Or.inl (by rw [← hres.1])
      | ok res =>
        cases rt with
        | none =>
          unfold renovarToken renovarTokenCorpo at hres
          simp at hres
        | some t =>
          obtain ⟨x, y, -, -, -, -, hy, -, -, hs1⟩ := renovarToken_sucesso amb s s1 t r ch res hres
          have hid : y.id = x.id := (sessoesGet_membro _ _ _ hy).2
          right
          refine ⟨aplicarAtualizacoes y
            { token := some res.token, refreshToken := some res.refreshToken,
              atualizadaEm := some ch.depois } ch.depois, by rw [hs1],
            Or.inr ⟨y, ?_, Or.inl rfl⟩⟩
          show sessoesGet s.sessoes y.id = some y
          rw [hid]
          exact hy
  | sair t r ch =>
    show (logout amb s t r ch).1.sessoes = s.sessoes
      ∨ ∃ v, (logout amb s t r ch).1.sessoes = sessoesSet s.sessoes v
          ∧ ((∃ c r' ch', Operacao.sair t r ch = .autenticar c r' ch' ∧ v.id = ch'.uuid)
            ∨ ∃ y, sessoesGet s.sessoes v.id = some y
                ∧ (v.ativa = y.ativa ∨ v.ativa = false))
    cases hv : verificarToken amb.cfg t ch.entrada with
    | error e =>
      rw [logout_falha amb s t r ch e hv]
      exact Or.inl rfl
    | ok p =>
      obtain ⟨s', h, -, hcaso⟩ := logout_sucesso amb s t p r ch hv
      rw [h]
      simp only [criarLogAuditoria_sessoes, revogarToken_sessoes]
      rcases hcaso with ⟨-, hs'⟩ | ⟨x, y, -, hy, hs'⟩
      · exact Or.inl (by rw [hs'])
      · have hid : y.id = x.id := (sessoesGet_membro _ _ _ hy).2
        right
        refine ⟨aplicarAtualizacoes y { ativa := some false, finalizadaEm := some ch.entrada }
          ch.entrada, by rw [hs'], Or.inr ⟨y, ?_, Or.inr rfl⟩⟩
        show sessoesGet s.sessoes y.id = some y
        rw [hid]
        exact hy

theorem executar_preserva_terminada (amb : Ambiente) (s : Estado) (sid : String) (x : Sessao)
    (op : Operacao) (hx : sessoesGet s.sessoes sid = some x) (hinativa : x.ativa = false)
    (hfresco : ∀ c r ch, op = Operacao.autenticar c r ch → ch.uuid ≠ sid) :
    ∃ x', sessoesGet (executar amb s op).sessoes sid = some x' ∧ x'.ativa = false := by
  rcases executar_sessoes amb s op with h | ⟨v, h, hcaso⟩
  · rw [h]
    exact ⟨x, hx, hinativa⟩
  · rw [h, sessoesGet_sessoesSet]
    by_cases hv : v.id = sid
    · rw [if_pos hv]
      refine ⟨v, rfl, ?_⟩
      rcases hcaso with ⟨c, r, ch, hop, huuid⟩ | ⟨y, hy, hativa⟩
      · exact absurd (huuid.symm.trans hv) (hfresco c r ch hop)
      · rw [hv, hx] at hy
        have hyx : y = x := (Option.some.inj hy).symm
        subst hyx
        rcases hativa with h' | h'
        · rw [h', hinativa]
        · exact h'
    · rw [if_neg hv]
      exact ⟨x, hx, hinativa⟩

theorem renovarToken_sem_sessao_ativa (amb : Ambiente) (s : Estado) (rt : Token) (req : Req)
    (ch : Chamada) (h : ∀ y ∈ s.sessoes, y.refreshToken = rt → y.ativa = false) :
    renovarToken amb s (some rt) req ch = (s, .error "Token de renovação inválido") := by
  have hcorpo : ∃ m, (renovarTokenCorpo amb s (some rt) req ch).2 = .error m := by
    unfold renovarTokenCorpo
    simp only
    cases hv : verificarRefreshToken amb.cfg rt ch.entrada with
    | error e => exact ⟨e, rfl⟩
    | ok p =>
      simp only
      rw [buscar_find_none s p.id]
      · exact ⟨_, rfl⟩
      · intro z hz _
        by_cases hzr : z.refreshToken = rt
        · simp [h z hz hzr]
        · simp [hzr]
  obtain ⟨m, hm⟩ := hcorpo
  exact renovarToken_falha amb s (some rt) req ch m hm

/-- C7 (amended): once a session is deactivated, the session stored under its
id stays deactivated after every sequence of calls of `registrarUsuario`,
`autenticarUsuario`, `renovarToken` and `logout`, as long as no later login
draws the same session id; and in the state such a sequence leaves, a
`renovarToken` call with the refresh token of the deactivated session throws
the generic error and changes nothing unless some active session stores that
same refresh token. -/
theorem sessao_terminada_absorvente (amb : Ambiente) (s : Estado) (sid : String) (x : Sessao)
    (ops : List Operacao)
    (hx : sessoesGet s.sessoes sid = some x) (hinativa : x.ativa = false)
    (hfresco : ∀ c r ch, Operacao.autenticar c r ch ∈ ops → ch.uuid ≠ sid) :
    (∃ x', sessoesGet (ops.foldl (executar amb) s).sessoes sid = some x' ∧ x'.ativa = false)
    ∧ ∀ (req : Req) (ch : Chamada),
        (∀ y ∈ (ops.foldl (executar amb) s).sessoes,
          y.refreshToken = x.refreshToken → y.ativa = false) →
        renovarToken amb (ops.foldl (executar amb) s) (some x.refreshToken) req ch
          = (ops.foldl (executar amb) s, .error "Token de renovação inválido") := by
  constructor
  · induction ops generalizing s x with
    | nil => exact ⟨x, hx, hinativa⟩
    | cons op resto ih =>
      obtain ⟨x1, hx1, hin1⟩ := executar_preserva_terminada amb s sid x op hx hinativa
        (fun c r ch hop => hfresco c r ch (hop ▸ List.mem_cons_self _ _))
      exact ih (executar amb s op) x1 hx1 hin1
        (fun c r ch hmem => hfresco c r ch (List.mem_cons_of_mem _ hmem))
  · intro req ch h
    exact renovarToken_sem_sessao_ativa amb _ x.refreshToken req ch h

set_option maxRecDepth 100000 in
/-- Witness for C7 (amended): after the logout of the only session, a renewal, a
failed login and a second logout, then a renewal with the old refresh token. -/
theorem sessao_terminada_absorvente_witness :
    (∃ x', sessoesGet
        ([Operacao.renovar (some refreshExemplo) (reqDe {})
            { entrada := 1700000400000, depois := 1700000400100 },
          Operacao.autenticar corpoSenhaErrada (reqDe corpoSenhaErrada)
            { entrada := 1700000500000, depois := 1700000500200, uuid := "sessao-3" },
          Operacao.sair tokenExemplo (reqDe {})
            { entrada := 1700000600000, depois := 1700000600000 }].foldl (executar ambExemplo)
          (logout ambExemplo estadoLogado tokenExemplo (reqDe {})
            { entrada := 1700000300000, depois := 1700000300000 }).1).sessoes "sessao-1"
          = some x' ∧ x'.ativa = false)
    ∧ renovarToken ambExemplo
        ([Operacao.renovar (some refreshExemplo) (reqDe {})
            { entrada := 1700000400000, depois := 1700000400100 },
          Operacao.autenticar corpoSenhaErrada (reqDe corpoSenhaErrada)
            { entrada := 1700000500000, depois := 1700000500200, uuid := "sessao-3" },
          Operacao.sair tokenExemplo (reqDe {})
            { entrada := 1700000600000, depois := 1700000600000 }].foldl (executar ambExemplo)
          (logout ambExemplo estadoLogado tokenExemplo (reqDe {})
            { entrada := 1700000300000, depois := 1700000300000 }).1)
        (some refreshExemplo) (reqDe {}) { entrada := 1700000700000, depois := 1700000700100 }
      = ([Operacao.renovar (some refreshExemplo) (reqDe {})
            { entrada := 1700000400000, depois := 1700000400100 },
          Operacao.autenticar corpoSenhaErrada (reqDe corpoSenhaErrada)
            { entrada := 1700000500000, depois := 1700000500200, uuid := "sessao-3" },
          Operacao.sair tokenExemplo (reqDe {})
            { entrada := 1700000600000, depois := 1700000600000 }].foldl (executar ambExemplo)
          (logout ambExemplo estadoLogado tokenExemplo (reqDe {})
            { entrada := 1700000300000, depois := 1700000300000 }).1,
         .error "Token de renovação inválido") :=
  have h := sessao_terminada_absorvente ambExemplo
    (logout ambExemplo estadoLogado tokenExemplo (reqDe {})
      { entrada := 1700000300000, depois := 1700000300000 }).1 "sessao-1"
    { sessaoExemplo with ativa := false, finalizadaEm := some 1700000300000,
                         atualizadaEm := 1700000300000 }
    [Operacao.renovar (some refreshExemplo) (reqDe {})
        { entrada := 1700000400000, depois := 1700000400100 },
      Operacao.autenticar corpoSenhaErrada (reqDe corpoSenhaErrada)
        { entrada := 1700000500000, depois := 1700000500200, uuid := "sessao-3" },
      Operacao.sair tokenExemplo (reqDe {})
        { entrada := 1700000600000, depois := 1700000600000 }]
    (by decide!) rfl
    (by
      intro c r ch hmem
      simp only [List.mem_cons, List.mem_singleton, List.not_mem_nil, or_false] at hmem
      rcases hmem with h | h | h
      · cases h
      · cases h
        decide
      · cases h)
  ⟨h.1, h.2 (reqDe {}) { entrada := 1700000700000, depois := 1700000700100 } (by decide!)⟩

set_option maxRecDepth 100000 in
/-- C7 fails as stated: after two logins of one user from one device in the
same second, `logout` deactivates the first of the two sessions, and a later
`renovarToken` with that session's refresh token succeeds, served by the other
session, which stores the same refresh token. -/
theorem renovacao_apos_logout_duas_sessoes :
    (sessoesGet (logout ambExemplo estadoDuasSessoes tokenExemplo (reqDe {})
        { entrada := 1700000300000, depois := 1700000300000 }).1.sessoes "sessao-1").map
        (fun x => (x.ativa, decide (x.refreshToken = refreshExemplo))) = some (false, true)
    ∧ (renovarToken ambExemplo
        (logout ambExemplo estadoDuasSessoes tokenExemplo (reqDe {})
          { entrada := 1700000300000, depois := 1700000300000 }).1
        (some refreshExemplo) (reqDe {})
        { entrada := 1700000400000, depois := 1700000400100 }).2
      = .ok { token := { tokenExemplo with iat := 1700000400, exp := 1700086800 }
              refreshToken := { refreshExemplo with iat := 1700000400, exp := 1700605200 } } := by
  decide!

/-! ## Middleware -/

/-- An instance constructed with the adapter answers 401 to every request that
presents a token of the revoked set. -/
theorem middleware_com_adaptador_rejeita_revogado (amb : Ambiente) (s : Estado) (req : Req)
    (agora : Nat) (token : Token) (hreq : req.headers.authorization = some (.bearer token))
    (hrev : tokenRevogado s token = true) :
    middlewareVerificarToken amb true s req agora = .status401 "Token revogado" := by
  unfold middlewareVerificarToken
  simp [hreq, hrev]

/-- The exported instance never reads the state: its answer to a request is
the same whatever the revoked set holds. -/
theorem middlewareAutenticacao_ignora_estado (amb : Ambiente) (s s' : Estado) (req : Req)
    (agora : Nat) :
    middlewareAutenticacao amb s req agora = middlewareAutenticacao amb s' req agora := by
  unfold middlewareAutenticacao middlewareVerificarToken
  simp

set_option maxRecDepth 100000 in
/-- C4, the behaviour of the code at the failing input: after a successful
`logout` the token is in the revoked set and an instance with the adapter
answers 401, but the exported instance, which has no adapter, skips the
revocation check and calls `next()` for a request that presents the token. -/
theorem middleware_padrao_aceita_token_revogado :
    (logout ambExemplo estadoLogado tokenExemplo (reqDe {})
      { entrada := 1700000300000, depois := 1700000300000 }).2 = .ok true
    ∧ tokenRevogado estadoAposLogout tokenExemplo = true
    ∧ middlewareVerificarToken ambExemplo true estadoAposLogout reqComToken 1700000400000
      = .status401 "Token revogado"
    ∧ middlewareAutenticacao ambExemplo estadoAposLogout reqComToken 1700000400000
      = .next { id := some "usuario-1", email := some "a@x.com",
                fingerprint := some fingerprintExemplo } tokenExemplo := by
  decide!

/-! ## Critical anomalies and blocked addresses -/

/-- An analysis that finds the attempt anomalous leaves the profiles as they
were. -/
theorem analisarTentativaLogin_anomalo (amb : Ambiente) (perfis : List (String × Perfil))
    (idUsuario : String) (d : DadosLogin) (an : Analise)
    (h : (analisarTentativaLogin amb perfis idUsuario d).2 = .ok an)
    (hanom : an.isAnomalous = true) :
    analisarTentativaLogin amb perfis idUsuario d = (perfis, .ok an) := by
  unfold analisarTentativaLogin at h ⊢
  simp only at h ⊢
  cases hp : calcularPontuacaoAnomalias amb (obterPerfilUsuario perfis idUsuario) d with
  | error e => rw [hp] at h; cases h
  | ok pont =>
    rw [hp] at h
    simp only at h ⊢
    cases hi : localizacaoIncomum amb (obterPerfilUsuario perfis idUsuario) d.localizacao with
    | error e => rw [hi] at h; cases h
    | ok inc =>
      rw [hi] at h
      simp only at h ⊢
      cases hvi : viagemImpossivel amb (obterPerfilUsuario perfis idUsuario) d with
      | error e => rw [hvi] at h; cases h
      | ok via =>
        rw [hvi] at h
        simp only [Except.ok.injEq] at h ⊢
        have h1 : Numero.maior pont (some limiteAnomalias) = true := by
          rw [← h] at hanom
          exact hanom
        rw [h1] at h ⊢
        simp only [if_true]
        rw [h]

/-- C9 (amended): when `autenticarUsuario` passes the lockout check, the
credentials verify and the anomaly analysis returns `isAnomalous = true`
together with `riskLevel = 'CRITICAL'`, the call stores a blocked-IP entry for
the request IP that expires 24 hours after the clock reading, throws the
security-block error, returns no tokens and leaves the session table and the
profiles as they were. -/
theorem bloqueio_por_anomalia_critica (amb : Ambiente) (s s0 : Estado) (c : Corpo) (r : Req)
    (ch : Chamada) (u : Usuario) (b : Corpo) (an : Analise)
    (htent : verificarTentativasLogin s r.ip ch.entrada = (s0, .ok ()))
    (hu : buscarUsuarioPorEmail s0 c.email = some u)
    (hsenha : verificarSenha c.senha u.hashSenha = true)
    (hb : r.body = some b)
    (han : (analisarTentativaLogin amb s0.perfisComportamentais u.id
      { ip := r.ip, localizacao := b.localizacao, timestamp := ch.depois,
        fingerprint := fingerprintDe r.headers b, userAgent := r.headers.userAgent }).2
      = .ok an)
    (hanom : an.isAnomalous = true) (hcrit : an.riskLevel = "CRITICAL") :
    autenticarUsuario amb s c r ch
      = (bloquearIP s0 { ip := r.ip, motivo := "Anomalia crítica detectada",
                         expiresEm := some (ch.depois + 24 * 60 * 60 * 1000) } ch.depois,
         .error "Acesso bloqueado por segurança")
    ∧ (autenticarUsuario amb s c r ch).1.sessoes = s.sessoes
    ∧ mapaGet (autenticarUsuario amb s c r ch).1.ipsBloquados r.ip
      = some { ip := r.ip, motivo := "Anomalia crítica detectada",
               expiresEm := some (ch.depois + 24 * 60 * 60 * 1000),
               bloqueadoEm := ch.depois } := by
  have hs0 : s0.sessoes = s.sessoes := by
    unfold verificarTentativasLogin at htent
    simp only at htent
    split_ifs at htent <;> simp only [Prod.mk.injEq] at htent
    · simp at htent
    · rw [← htent.1]
    · rw [← htent.1]
  have hres : autenticarUsuario amb s c r ch
      = (bloquearIP s0 { ip := r.ip, motivo := "Anomalia crítica detectada",
                         expiresEm := some (ch.depois + 24 * 60 * 60 * 1000) } ch.depois,
         .error "Acesso bloqueado por segurança") := by
    simp only [autenticarUsuario_passos]
    simp only [htent, hu, hsenha]
    unfold concluirLogin
    simp only [gerar, hb]
    rw [analisarTentativaLogin_anomalo amb _ _ _ an han hanom]
    simp [hanom, hcrit]
  refine ⟨hres, ?_, ?_⟩
  · rw [hres]
    exact hs0
  · rw [hres]
    simp only [bloquearIP]
    exact mapaGet_mapaSet_mesma _ _ _

set_option maxRecDepth 100000 in
/-- Witness for C9 (amended): after five logins from São Paulo at 22 h, a login
from Tokyo at 10 h with the same browser. -/
theorem bloqueio_por_anomalia_critica_witness :
    loginToquio = (bloquearIP estadoCincoLogins
        { ip := "203.0.113.7", motivo := "Anomalia crítica detectada",
          expiresEm := some 1700475300250 } 1700388900250,
      .error "Acesso bloqueado por segurança")
    ∧ loginToquio.1.sessoes = estadoCincoLogins.sessoes
    ∧ mapaGet loginToquio.1.ipsBloquados "203.0.113.7"
      = some { ip := "203.0.113.7", motivo := "Anomalia crítica detectada",
               expiresEm := some 1700475300250, bloqueadoEm := 1700388900250 } :=
  bloqueio_por_anomalia_critica ambExemplo estadoCincoLogins estadoCincoLogins corpoLoginToquio
    (reqDe corpoLoginToquio)
    { entrada := 1700388900000, depois := 1700388900250, uuid := "sessao-6" } usuarioExemplo
    corpoLoginToquio
    { isAnomalous := true, anomalyScore := some 1,
      reasons := motivosDe true true false true, riskLevel := "CRITICAL" }
    (by decide!) (by decide!) (by decide) rfl (by decide!) rfl rfl

set_option maxRecDepth 100000 in
/-- C9 fails as stated: for a user with five recorded logins, an attempt whose
location carries no coordinates gets the score NaN, hence `riskLevel`
`'CRITICAL'` and `isAnomalous = false`; the login then succeeds, a session is
stored and tokens are returned with `riskLevel` `'CRITICAL'`, and no IP is
blocked. -/
theorem login_critico_sem_bloqueio :
    (analisarTentativaLogin ambExemplo estadoCincoLogins.perfisComportamentais "usuario-1"
        { ip := "203.0.113.7", localizacao := corpoLoginSemCoordenadas.localizacao,
          timestamp := 1700432100250, fingerprint := fingerprintExemplo,
          userAgent := some "Mozilla/5.0" }).2
      = .ok { isAnomalous := false, anomalyScore := none, reasons := [],
              riskLevel := "CRITICAL" }
    ∧ (autenticarUsuario ambExemplo estadoCincoLogins corpoLoginSemCoordenadas
        (reqDe corpoLoginSemCoordenadas)
        { entrada := 1700432100000, depois := 1700432100250, uuid := "sessao-6" }).2
      = .ok { usuario := { id := "usuario-1", email := some "a@x.com", nome := some "A" }
              token := { tokenExemplo with iat := 1700432100, exp := 1700518500 }
              refreshToken := { refreshExemplo with iat := 1700432100, exp := 1701036900 }
              sessao := "sessao-6"
              analiseSeguranca := { riskLevel := "CRITICAL", confiancaDispositivo := 6 } }
    ∧ ((sessoesGet (autenticarUsuario ambExemplo estadoCincoLogins corpoLoginSemCoordenadas
        (reqDe corpoLoginSemCoordenadas)
        { entrada := 1700432100000, depois := 1700432100250,
          uuid := "sessao-6" }).1.sessoes "sessao-6").map (fun x => x.ativa)) = some true
    ∧ (autenticarUsuario ambExemplo estadoCincoLogins corpoLoginSemCoordenadas
        (reqDe corpoLoginSemCoordenadas)
        { entrada := 1700432100000, depois := 1700432100250,
          uuid := "sessao-6" }).1.ipsBloquados = [] := by
  decide!

theorem concluirLogin_ignora_bloqueios (amb : Ambiente) (s : Estado)
    (bloqueios : List (String × Bloqueio)) (u : Usuario) (r : Req) (ch : Chamada) :
    (concluirLogin amb { s with ipsBloquados := bloqueios } u r ch).2
      = (concluirLogin amb s u r ch).2 := by
  unfold concluirLogin
  simp only
  split
  · rfl
  · rfl
  · split
    · rfl
    · split_ifs
      · rfl
      · simp only [gerarToken_payload_servico, gerarRefreshToken_payload_servico]
        rfl

/-- The result of `autenticarUsuario` does not depend on the blocked-IP map:
no statement of the method reads it. -/
theorem autenticarUsuario_ignora_bloqueios (amb : Ambiente) (s : Estado)
    (bloqueios : List (String × Bloqueio)) (c : Corpo) (r : Req) (ch : Chamada) :
    (autenticarUsuario amb { s with ipsBloquados := bloqueios } c r ch).2
      = (autenticarUsuario amb s c r ch).2 := by
  have hconcluir := concluirLogin_ignora_bloqueios amb
  simp only [autenticarUsuario_passos]; unfold verificarTentativasLogin
  simp only
  by_cases h1 : ((mapaGet s.tentativasLogin r.ip).getD { count := 0, ultimaTentativa := 0 }).count
      ≥ maxTentativas
  · by_cases h2 : ((mapaGet s.tentativasLogin r.ip).getD
        { count := 0, ultimaTentativa := 0 }).ultimaTentativa + tempoBloqueioPadrao > ch.entrada
    · simp only [h1, h2, if_true]
    · simp only [h1, h2, if_true, if_false]
      have hb : buscarUsuarioPorEmail
          { usuarios := s.usuarios, sessoes := s.sessoes, logsAuditoria := s.logsAuditoria,
            tokensRevogados := s.tokensRevogados, ipsBloquados := bloqueios,
            tentativasLogin := mapaDelete s.tentativasLogin r.ip,
            perfisComportamentais := s.perfisComportamentais, honeypot := s.honeypot } c.email
          = buscarUsuarioPorEmail
          { s with tentativasLogin := mapaDelete s.tentativasLogin r.ip } c.email := rfl
      rw [hb]
      cases buscarUsuarioPorEmail { s with tentativasLogin := mapaDelete s.tentativasLogin r.ip }
          c.email with
      | none => rfl
      | some u =>
        simp only
        split_ifs
        · rfl
        · exact hconcluir { s with tentativasLogin := mapaDelete s.tentativasLogin r.ip }
            bloqueios u r ch
  · simp only [h1, if_false]
    have hb : buscarUsuarioPorEmail
        { usuarios := s.usuarios, sessoes := s.sessoes, logsAuditoria := s.logsAuditoria,
          tokensRevogados := s.tokensRevogados, ipsBloquados := bloqueios,
          tentativasLogin := s.tentativasLogin,
          perfisComportamentais := s.perfisComportamentais, honeypot := s.honeypot } c.email
        = buscarUsuarioPorEmail s c.email := rfl
    rw [hb]
    cases buscarUsuarioPorEmail s c.email with
    | none => rfl
    | some u =>
      simp only
      split_ifs
      · rfl
      · exact hconcluir s bloqueios u r ch

set_option maxRecDepth 100000 in
/-- C10, the behaviour of the code at the failing input: the login from Tokyo
left a blocked-IP entry for the address that `ipBloqueado` reports as in
force twelve hours later, yet `autenticarUsuario` called from that address at
that instant verifies the credentials, stores a new active session and returns
tokens. -/
theorem login_de_ip_bloqueado :
    (ipBloqueado loginToquio.1 "203.0.113.7" 1700432100000).2 = true
    ∧ (autenticarUsuario ambExemplo loginToquio.1 corpoLoginSP (reqDe corpoLoginSP)
        { entrada := 1700432100000, depois := 1700432100250, uuid := "sessao-7" }).2
      = .ok { usuario := { id := "usuario-1", email := some "a@x.com", nome := some "A" }
              token := { tokenExemplo with iat := 1700432100, exp := 1700518500 }
              refreshToken := { refreshExemplo with iat := 1700432100, exp := 1701036900 }
              sessao := "sessao-7"
              analiseSeguranca := { riskLevel := "LOW", confiancaDispositivo := 6 } }
    ∧ ((sessoesGet (autenticarUsuario ambExemplo loginToquio.1 corpoLoginSP (reqDe corpoLoginSP)
        { entrada := 1700432100000, depois := 1700432100250,
          uuid := "sessao-7" }).1.sessoes "sessao-7").map (fun x => (x.ativa, x.ip)))
      = some (true, "203.0.113.7") := by
  decide!

/-! ## Failed logins -/

/-- The method with the record of its comparisons returns what the method
returns. -/
theorem autenticarUsuarioRastreado_resultado (amb : Ambiente) (s : Estado) (c : Corpo)
    (r : Req) (ch : Chamada) :
    (autenticarUsuarioRastreado amb s c r ch).1 = autenticarUsuario amb s c r ch := rfl

/-- C11: for an IP that the lockout check lets through, a call of
`autenticarUsuario` with an unregistered email and a call with a registered
email and a wrong password (one that `verificarSenha` refuses against the
stored hash) cannot be told apart by the caller: each makes one
`verificarSenha` comparison (against the dummy hash, against the stored hash),
each leaves the state that `registrarTentativaFalha` produces, in which the
failure counter of the IP is one more than the lockout check left it, and each
throws the same error, 'Credenciais inválidas'. -/
theorem falhas_de_login_indistinguiveis (amb : Ambiente) (s s0 : Estado) (c1 c2 : Corpo)
    (r : Req) (ch : Chamada) (u : Usuario)
    (hlivre : verificarTentativasLogin s r.ip ch.entrada = (s0, .ok ()))
    (h1 : buscarUsuarioPorEmail s0 c1.email = none)
    (h2 : buscarUsuarioPorEmail s0 c2.email = some u)
    (hsenha : verificarSenha c2.senha u.hashSenha = false) :
    autenticarUsuarioRastreado amb s c1 r ch
      = ((registrarTentativaFalha s0 r.ip c1.email ch.depois, .error "Credenciais inválidas"),
         [(c1.senha, hashFalso)])
    ∧ autenticarUsuarioRastreado amb s c2 r ch
      = ((registrarTentativaFalha s0 r.ip c2.email ch.depois, .error "Credenciais inválidas"),
         [(c2.senha, u.hashSenha)])
    ∧ (comparacoesDeSenha amb s c1 r ch).length = 1
    ∧ (comparacoesDeSenha amb s c2 r ch).length = 1
    ∧ autenticarUsuario amb s c1 r ch
      = (registrarTentativaFalha s0 r.ip c1.email ch.depois, .error "Credenciais inválidas")
    ∧ autenticarUsuario amb s c2 r ch
      = (registrarTentativaFalha s0 r.ip c2.email ch.depois, .error "Credenciais inválidas")
    ∧ (autenticarUsuario amb s c1 r ch).2 = (autenticarUsuario amb s c2 r ch).2
    ∧ mapaGet (autenticarUsuario amb s c1 r ch).1.tentativasLogin r.ip
      = some { count := ((mapaGet s0.tentativasLogin r.ip).getD
                  { count := 0, ultimaTentativa := 0 }).count + 1,
               ultimaTentativa := ch.depois }
    ∧ mapaGet (autenticarUsuario amb s c2 r ch).1.tentativasLogin r.ip
      = some { count := ((mapaGet s0.tentativasLogin r.ip).getD
                  { count := 0, ultimaTentativa := 0 }).count + 1,
               ultimaTentativa := ch.depois } := by
  have t1 : autenticarUsuarioRastreado amb s c1 r ch
      = ((registrarTentativaFalha s0 r.ip c1.email ch.depois, .error "Credenciais inválidas"),
         [(c1.senha, hashFalso)]) := by
    unfold autenticarUsuarioRastreado
    simp only [hlivre, h1]
  have t2 : autenticarUsuarioRastreado amb s c2 r ch
      = ((registrarTentativaFalha s0 r.ip c2.email ch.depois, .error "Credenciais inválidas"),
         [(c2.senha, u.hashSenha)]) := by
    unfold autenticarUsuarioRastreado
    simp [hlivre, h2, hsenha]
  have e1 : autenticarUsuario amb s c1 r ch
      = (registrarTentativaFalha s0 r.ip c1.email ch.depois, .error "Credenciais inválidas") := by
    rw [← autenticarUsuarioRastreado_resultado, t1]
  have e2 : autenticarUsuario amb s c2 r ch
      = (registrarTentativaFalha s0 r.ip c2.email ch.depois, .error "Credenciais inválidas") := by
    rw [← autenticarUsuarioRastreado_resultado, t2]
  refine ⟨t1, t2, ?_, ?_, e1, e2, ?_, ?_, ?_⟩
  · unfold comparacoesDeSenha
    rw [t1]
    rfl
  · unfold comparacoesDeSenha
    rw [t2]
    rfl
  · rw [e1, e2]
  · rw [e1]
    exact registrarTentativaFalha_contador s0 r.ip c1.email ch.depois
  · rw [e2]
    exact registrarTentativaFalha_contador s0 r.ip c2.email ch.depois

set_option maxRecDepth 100000 in
/-- Witness for C11: on the state with one registered user, a login for an
unknown address and a login for the registered address with a wrong password,
sent from the same IP. -/
theorem falhas_de_login_indistinguiveis_witness :
    autenticarUsuarioRastreado ambExemplo estadoRegistrado corpoDesconhecido
        (reqDe corpoDesconhecido) { entrada := 1700000060000, depois := 1700000060200 }
      = ((registrarTentativaFalha estadoRegistrado "203.0.113.7" (some "ninguem@x.com")
          1700000060200, .error "Credenciais inválidas"),
         [(some "Str0ng!Pass", hashFalso)])
    ∧ autenticarUsuarioRastreado ambExemplo estadoRegistrado corpoSenhaErrada
        (reqDe corpoDesconhecido) { entrada := 1700000060000, depois := 1700000060200 }
      = ((registrarTentativaFalha estadoRegistrado "203.0.113.7" (some "a@x.com")
          1700000060200, .error "Credenciais inválidas"),
         [(some "errada", .bcrypt "Str0ng!Pass" "sal-1")])
    ∧ (comparacoesDeSenha ambExemplo estadoRegistrado corpoDesconhecido
        (reqDe corpoDesconhecido)
        { entrada := 1700000060000, depois := 1700000060200 }).length = 1
    ∧ (comparacoesDeSenha ambExemplo estadoRegistrado corpoSenhaErrada
        (reqDe corpoDesconhecido)
        { entrada := 1700000060000, depois := 1700000060200 }).length = 1
    ∧ autenticarUsuario ambExemplo estadoRegistrado corpoDesconhecido (reqDe corpoDesconhecido)
        { entrada := 1700000060000, depois := 1700000060200 }
      = (registrarTentativaFalha estadoRegistrado "203.0.113.7" (some "ninguem@x.com")
          1700000060200, .error "Credenciais inválidas")
    ∧ autenticarUsuario ambExemplo estadoRegistrado corpoSenhaErrada (reqDe corpoDesconhecido)
        { entrada := 1700000060000, depois := 1700000060200 }
      = (registrarTentativaFalha estadoRegistrado "203.0.113.7" (some "a@x.com")
          1700000060200, .error "Credenciais inválidas")
    ∧ (autenticarUsuario ambExemplo estadoRegistrado corpoDesconhecido (reqDe corpoDesconhecido)
        { entrada := 1700000060000, depois := 1700000060200 }).2
      = (autenticarUsuario ambExemplo estadoRegistrado corpoSenhaErrada (reqDe corpoDesconhecido)
        { entrada := 1700000060000, depois := 1700000060200 }).2
    ∧ mapaGet (autenticarUsuario ambExemplo estadoRegistrado corpoDesconhecido
        (reqDe corpoDesconhecido)
        { entrada := 1700000060000, depois := 1700000060200 }).1.tentativasLogin "203.0.113.7"
      = some { count := 1, ultimaTentativa := 1700000060200 }
    ∧ mapaGet (autenticarUsuario ambExemplo estadoRegistrado corpoSenhaErrada
        (reqDe corpoDesconhecido)
        { entrada := 1700000060000, depois := 1700000060200 }).1.tentativasLogin "203.0.113.7"
      = some { count := 1, ultimaTentativa := 1700000060200 } :=
  falhas_de_login_indistinguiveis ambExemplo estadoRegistrado estadoRegistrado corpoDesconhecido
    corpoSenhaErrada (reqDe corpoDesconhecido)
    { entrada := 1700000060000, depois := 1700000060200 } usuarioExemplo
    (by decide!) (by decide!) (by decide!) (by decide)

/-- The comparison reads the 72 bytes of the bcrypt key and no more: a
password of 73 letters and the one that differs from it in the last letter
verify against the same digest, one that differs in the first letter does
not; and a password verifies against the digest of the password obtained by
appending a zero character and the password again, the key being read
cyclically. -/
theorem verificarSenha_setenta_e_dois_bytes :
    verificarSenha (some (String.mk (List.replicate 72 'a' ++ ['c'])))
        (.bcrypt (String.mk (List.replicate 72 'a' ++ ['b'])) "sal-1") = true
    ∧ verificarSenha (some (String.mk ('c' :: List.replicate 72 'a')))
        (.bcrypt (String.mk ('b' :: List.replicate 72 'a')) "sal-1") = false
    ∧ verificarSenha (some "a") (.bcrypt (String.mk ['a', Char.ofNat 0, 'a']) "sal-1") = true := by
  decide

/-! ## Thin profiles -/

/-- The lockout check touches nothing but the map of failure counters. -/
theorem verificarTentativasLogin_preserva (s : Estado) (ip : String) (agora : Nat) :
    (verificarTentativasLogin s ip agora).1.usuarios = s.usuarios
    ∧ (verificarTentativasLogin s ip agora).1.perfisComportamentais = s.perfisComportamentais := by
  unfold verificarTentativasLogin
  simp only
  split_ifs <;> exact ⟨rfl, rfl⟩

/-- With fewer than five recorded logins the score is the constant 0.3. -/
theorem calcularPontuacaoAnomalias_poucos_logins (amb : Ambiente) (perfil : Perfil)
    (d : DadosLogin) (hp : perfil.contadorLogins < 5) :
    calcularPontuacaoAnomalias amb perfil d = .ok (some (arredondar (3 / 10))) := by
  unfold calcularPontuacaoAnomalias
  rw [if_pos hp]

/-- The score 0.3 is not below the first threshold of `obterNivelRisco`. -/
theorem obterNivelRisco_tres_decimos :
    obterNivelRisco (some (arredondar (3 / 10))) = "MEDIUM" := by
  decide!

/-- An analysis of a profile with fewer than five recorded logins that returns
carries the score 0.3, is not anomalous, has risk level MEDIUM and records the
attempt in the profile. -/
theorem analisarTentativaLogin_poucos_logins (amb : Ambiente) (perfis : List (String × Perfil))
    (idUsuario : String) (d : DadosLogin) (an : Analise)
    (hp : (obterPerfilUsuario perfis idUsuario).contadorLogins < 5)
    (h : (analisarTentativaLogin amb perfis idUsuario d).2 = .ok an) :
    an.anomalyScore = some (arredondar (3 / 10)) ∧ an.isAnomalous = false ∧ an.riskLevel = "MEDIUM"
    ∧ (analisarTentativaLogin amb perfis idUsuario d).1
      = atualizarPerfilUsuario amb perfis idUsuario d := by
  have hm : Numero.maior (some (arredondar (3 / 10))) (some limiteAnomalias) = false := by
    decide!
  unfold analisarTentativaLogin at h ⊢
  simp only [calcularPontuacaoAnomalias_poucos_logins amb _ d hp, hm] at h ⊢
  cases hi : localizacaoIncomum amb (obterPerfilUsuario perfis idUsuario) d.localizacao with
  | error e => rw [hi] at h; cases h
  | ok inc =>
    rw [hi] at h
    simp only at h ⊢
    cases hvi : viagemImpossivel amb (obterPerfilUsuario perfis idUsuario) d with
    | error e => rw [hvi] at h; cases h
    | ok via =>
      rw [hvi] at h
      simp only [Except.ok.injEq] at h ⊢
      subst h
      simp [obterNivelRisco_tres_decimos]

/-- A login that returns: the request has a body, the analysis of the attempt
returned and did not ask for a block, and the result carries the freshly
signed tokens and the risk level of the analysis. -/
theorem concluirLogin_retorna (amb : Ambiente) (s : Estado) (u : Usuario) (r : Req)
    (ch : Chamada) (res : ResultadoLogin)
    (h : (concluirLogin amb s u r ch).2 = .ok res) :
    ∃ b an, r.body = some b
      ∧ (analisarTentativaLogin amb s.perfisComportamentais u.id
          { ip := r.ip, localizacao := b.localizacao, timestamp := ch.depois,
            fingerprint := fingerprintDe r.headers b, userAgent := r.headers.userAgent }).2
        = .ok an
      ∧ res.analiseSeguranca.riskLevel = an.riskLevel
      ∧ res.usuario = { id := u.id, email := u.email, nome := u.nome }
      ∧ gerarToken amb.cfg
          { id := some u.id, email := u.email,
            fingerprint := some (fingerprintDe r.headers b) } ch.depois = .ok res.token
      ∧ gerarRefreshToken amb.cfg
          { id := some u.id, email := u.email,
            fingerprint := some (fingerprintDe r.headers b) } ch.depois
        = .ok res.refreshToken := by
  cases hb : r.body with
  | none =>
    unfold concluirLogin at h
    simp [gerar, hb] at h
  | some b =>
    cases han : (analisarTentativaLogin amb s.perfisComportamentais u.id
        { ip := r.ip, localizacao := b.localizacao, timestamp := ch.depois,
          fingerprint := fingerprintDe r.headers b, userAgent := r.headers.userAgent }).2 with
    | error m =>
      unfold concluirLogin at h
      simp only [gerar, hb] at h
      generalize analisarTentativaLogin amb s.perfisComportamentais u.id
        { ip := r.ip, localizacao := b.localizacao, timestamp := ch.depois,
          fingerprint := fingerprintDe r.headers b, userAgent := r.headers.userAgent }
        = par at han h
      obtain ⟨perfis, x⟩ := par
      simp only at han
      subst han
      simp at h
    | ok an =>
      by_cases hnb : (an.isAnomalous && decide (an.riskLevel = "CRITICAL")) = true
      · unfold concluirLogin at h
        simp only [gerar, hb] at h
        generalize analisarTentativaLogin amb s.perfisComportamentais u.id
          { ip := r.ip, localizacao := b.localizacao, timestamp := ch.depois,
            fingerprint := fingerprintDe r.headers b, userAgent := r.headers.userAgent }
          = par at han h
        obtain ⟨perfis, x⟩ := par
        simp only at han
        subst han
        simp only [hnb, if_true] at h
        cases h
      · obtain ⟨token, refreshToken, ht, hr, hc⟩ :=
          concluirLogin_sucesso amb s u r ch b an hb han (by simpa using hnb)
        rw [hc] at h
        simp only [Except.ok.injEq] at h
        subst h
        exact ⟨b, an, rfl, han, rfl, rfl, ht, hr⟩

/-- C12 (amended): for a user whose profile has fewer than five recorded
logins, a call of `autenticarUsuario` that returns gives back the access token
and the refresh token signed for that user at the clock reading, and
`analiseSeguranca.riskLevel` is 'MEDIUM'. -/
theorem login_de_perfil_curto (amb : Ambiente) (s : Estado) (c : Corpo) (r : Req)
    (ch : Chamada) (u : Usuario) (res : ResultadoLogin)
    (hu : buscarUsuarioPorEmail s c.email = some u)
    (hpoucos : (obterPerfilUsuario s.perfisComportamentais u.id).contadorLogins < 5)
    (hok : (autenticarUsuario amb s c r ch).2 = .ok res) :
    res.analiseSeguranca.riskLevel = "MEDIUM"
    ∧ res.usuario = { id := u.id, email := u.email, nome := u.nome }
    ∧ ∃ b, r.body = some b
      ∧ gerarToken amb.cfg
          { id := some u.id, email := u.email,
            fingerprint := some (fingerprintDe r.headers b) } ch.depois = .ok res.token
      ∧ gerarRefreshToken amb.cfg
          { id := some u.id, email := u.email,
            fingerprint := some (fingerprintDe r.headers b) } ch.depois
        = .ok res.refreshToken := by
  obtain ⟨hus, hps⟩ := verificarTentativasLogin_preserva s r.ip ch.entrada
  simp only [autenticarUsuario_passos] at hok
  generalize verificarTentativasLogin s r.ip ch.entrada = par at hus hps hok
  obtain ⟨s0, x⟩ := par
  simp only at hus hps
  have hu0 : buscarUsuarioPorEmail s0 c.email = some u := by
    unfold buscarUsuarioPorEmail at hu ⊢
    rw [hus]
    exact hu
  cases x with
  | error m => cases hok
  | ok v =>
    simp only [hu0] at hok
    split_ifs at hok
    · obtain ⟨b, an, hb, han, hrisco, husuario, ht, hr⟩ :=
        concluirLogin_retorna amb s0 u r ch res hok
      rw [hps] at han
      obtain ⟨-, -, hmedio, -⟩ :=
        analisarTentativaLogin_poucos_logins amb s.perfisComportamentais u.id _ an hpoucos han
      exact ⟨hrisco.trans hmedio, husuario, b, hb, ht, hr⟩

set_option maxRecDepth 100000 in
/-- Witness for C12 (amended): the first login after registration. -/
theorem login_de_perfil_curto_witness :
    ({ riskLevel := "MEDIUM", confiancaDispositivo := 6 } : AnaliseSeguranca).riskLevel = "MEDIUM"
    ∧ ({ id := "usuario-1", email := some "a@x.com", nome := some "A" } : UsuarioPublico)
      = { id := usuarioExemplo.id, email := usuarioExemplo.email, nome := usuarioExemplo.nome }
    ∧ ∃ b, (reqDe corpoLoginSP).body = some b
      ∧ gerarToken ambExemplo.cfg
          { id := some usuarioExemplo.id, email := usuarioExemplo.email,
            fingerprint := some (fingerprintDe (reqDe corpoLoginSP).headers b) } 1700000100250
        = .ok tokenExemplo
      ∧ gerarRefreshToken ambExemplo.cfg
          { id := some usuarioExemplo.id, email := usuarioExemplo.email,
            fingerprint := some (fingerprintDe (reqDe corpoLoginSP).headers b) } 1700000100250
        = .ok refreshExemplo :=
  login_de_perfil_curto ambExemplo estadoRegistrado corpoLoginSP (reqDe corpoLoginSP)
    { entrada := 1700000100000, depois := 1700000100250, uuid := "sessao-1" } usuarioExemplo
    { usuario := { id := "usuario-1", email := some "a@x.com", nome := some "A" }
      token := tokenExemplo
      refreshToken := refreshExemplo
      sessao := "sessao-1"
      analiseSeguranca := { riskLevel := "MEDIUM", confiancaDispositivo := 6 } }
    (by decide!) (by decide!) (by decide!)

set_option maxRecDepth 100000 in
/-- C12 fails as stated: the user registered a moment ago has no recorded
login, the first login succeeds and returns both tokens, and its
`analiseSeguranca.riskLevel` is 'MEDIUM', not 'LOW': the score 0.3 of the
insufficient-history branch is not below the threshold 0.3 of the lowest
bucket. -/
theorem primeiro_login_nao_e_low :
    (obterPerfilUsuario estadoRegistrado.perfisComportamentais "usuario-1").contadorLogins = 0
    ∧ loginExemplo.2.map (fun x => (x.token, x.refreshToken, x.analiseSeguranca.riskLevel))
      = .ok (tokenExemplo, refreshExemplo, "MEDIUM")
    ∧ loginExemplo.2.map (fun x => x.analiseSeguranca.riskLevel) ≠ .ok "LOW"
    ∧ obterNivelRisco (some (arredondar (3 / 10))) = "MEDIUM" := by
  decide!

set_option maxRecDepth 100000 in
/-- C13, the behaviour of the code at the failing input: starting from no
profile, a first attempt without location is scored 0.3 and recorded, so the
profile has one recorded login; the second attempt without location does not
return an analysis: computing the location reason reads `lat` of an undefined
location and the TypeError escapes, leaving the profile as it was. The same
happens to a login without location that follows the first login from São
Paulo. -/
theorem segunda_tentativa_sem_localizacao :
    (analisarTentativaLogin ambExemplo [] "usuario-1" (tentativaSemLocalizacao 1700000100250)).2
      = .ok { isAnomalous := false, anomalyScore := some (arredondar (3 / 10)),
              reasons := motivosDe false false true false, riskLevel := "MEDIUM" }
    ∧ (obterPerfilUsuario
        (analisarTentativaLogin ambExemplo [] "usuario-1"
          (tentativaSemLocalizacao 1700000100250)).1 "usuario-1").contadorLogins = 1
    ∧ analisarTentativaLogin ambExemplo
        (analisarTentativaLogin ambExemplo [] "usuario-1"
          (tentativaSemLocalizacao 1700000100250)).1 "usuario-1"
        (tentativaSemLocalizacao 1700003700250)
      = ((analisarTentativaLogin ambExemplo [] "usuario-1"
          (tentativaSemLocalizacao 1700000100250)).1,
         .error "Cannot read properties of undefined (reading 'lat')")
    ∧ (obterPerfilUsuario estadoLogado.perfisComportamentais "usuario-1").contadorLogins = 1
    ∧ (autenticarUsuario ambExemplo estadoLogado corpoLogin (reqDe corpoLogin)
        { entrada := 1700003700000, depois := 1700003700250, uuid := "sessao-2" }).2
      = .error "Cannot read properties of undefined (reading 'lat')" := by
  decide!

/-! ## Location and time deviations -/

/-- When every stored location is at a distance of at least `c` from the
attempt, the `reduce` that starts from at least `k * c` returns a sum of at
least `(k + n) * c`, `n` being the number of stored locations, as long as that
bound is an integer that doubles count exactly. -/
theorem somaDistancias_limite (amb : Ambiente) (loc : Option Localizacao) (c : Nat) :
    ∀ (ls : List (Option Localizacao)) (a : ℚ) (k : Nat),
      (k + ls.length) * c ≤ 2 ^ 53 →
      ((k * c : Nat) : ℚ) ≤ a →
      (∀ l ∈ ls, ∃ x, calcularDistancia amb l loc = .ok (some x) ∧ (c : ℚ) ≤ x) →
      ∃ t, somaDistancias amb loc ls (some a) = .ok (some t)
        ∧ (((k + ls.length) * c : Nat) : ℚ) ≤ t := by
  intro ls
  induction ls with
  | nil =>
    intro a k _ ha _
    exact ⟨a, rfl, by simpa using ha⟩
  | cons l resto ih =>
    intro a k hlim ha h
    obtain ⟨x, hx, hcx⟩ := h l (List.mem_cons_self _ _)
    have hlen : (k + (l :: resto).length) = (k + 1) + resto.length := by
      simp only [List.length_cons]; omega
    rw [hlen] at hlim ⊢
    have hk1 : (k + 1) * c ≤ 2 ^ 53 :=
      le_trans (Nat.mul_le_mul_right c (by omega)) hlim
    have hsoma : (((k + 1) * c : Nat) : ℚ) ≤ a + x := by
      have : (((k + 1) * c : Nat) : ℚ) = ((k * c : Nat) : ℚ) + (c : ℚ) := by
        push_cast; ring
      rw [this]; linarith
    have harr : (((k + 1) * c : Nat) : ℚ) ≤ arredondar (a + x) := by
      rw [← arredondar_natural _ hk1]
      exact arredondar_mono (Nat.cast_nonneg _) hsoma
    obtain ⟨t, ht, hat⟩ := ih (arredondar (a + x)) (k + 1) hlim harr
      (fun l' hl' => h l' (List.mem_cons_of_mem _ hl'))
    refine ⟨t, ?_, hat⟩
    simp only [somaDistancias, hx, Numero.soma]
    exact ht

/-- A distance to a defined attempt location never throws from a defined
stored location. -/
theorem calcularDistancia_definidas (amb : Ambiente) (l1 l2 : Localizacao) :
    ∃ x, calcularDistancia amb (some l1) (some l2) = .ok x := by
  unfold calcularDistancia
  simp only
  split
  · exact ⟨_, rfl⟩
  · exact ⟨_, rfl⟩

/-- A distance that is computed was computed to a defined location. -/
theorem calcularDistancia_ok_definida (amb : Ambiente) (l1 l2 : Option Localizacao)
    (x : Numero) (h : calcularDistancia amb l1 l2 = .ok x) : ∃ loc, l2 = some loc := by
  cases l2 with
  | none => simp [calcularDistancia] at h
  | some loc => exact ⟨loc, rfl⟩

/-- With a defined attempt location the travel check returns. -/
theorem viagemImpossivel_retorna (amb : Ambiente) (perfil : Perfil) (d : DadosLogin)
    (loc : Localizacao) (hd : d.localizacao = some loc) :
    ∃ v, viagemImpossivel amb perfil d = .ok v := by
  unfold viagemImpossivel
  cases perfil.ultimoLogin with
  | none => exact ⟨_, rfl⟩
  | some ul =>
    simp only
    cases ul.localizacao with
    | none => exact ⟨_, rfl⟩
    | some l1 =>
      simp only
      obtain ⟨x, hx⟩ := calcularDistancia_definidas amb l1 loc
      rw [hd, hx]
      cases x with
      | none => exact ⟨_, rfl⟩
      | some dist =>
        simp only
        split_ifs
        · exact ⟨_, rfl⟩
        · exact ⟨_, rfl⟩

/-- C14: for every profile with a non-empty location history and every attempt
whose location is at a distance (`calcularDistancia`) of more than 500 km from
each stored location, `calcularDesvioLocalizacao` returns 1, `localizacaoIncomum`
is true, and the analysis of the attempt returns with the unusual-location
reason among its `reasons`. The history has a length `n` with `500 * n` at most
`2 ^ 53`, so that the running sum of the doubles cannot stall; the detector
keeps at most 10 locations. -/
theorem localizacao_distante (amb : Ambiente) (perfis : List (String × Perfil))
    (idUsuario : String) (d : DadosLogin)
    (hne : (obterPerfilUsuario perfis idUsuario).localizacoes ≠ [])
    (hcurto : (obterPerfilUsuario perfis idUsuario).localizacoes.length * 500 ≤ 2 ^ 53)
    (hdist : ∀ l ∈ (obterPerfilUsuario perfis idUsuario).localizacoes,
      ∃ x, calcularDistancia amb l d.localizacao = .ok (some x) ∧ 500 < x) :
    calcularDesvioLocalizacao amb (obterPerfilUsuario perfis idUsuario) d.localizacao
      = .ok (some 1)
    ∧ localizacaoIncomum amb (obterPerfilUsuario perfis idUsuario) d.localizacao = .ok true
    ∧ ∃ an, (analisarTentativaLogin amb perfis idUsuario d).2 = .ok an
      ∧ { type := "LOCALIZACAO_INCOMUM", description := "Login de localização não usual",
          confidence := arredondar (85 / 100) } ∈ an.reasons := by
  have hlen : 0 < (obterPerfilUsuario perfis idUsuario).localizacoes.length :=
    List.length_pos.mpr hne
  have hdesvio : calcularDesvioLocalizacao amb (obterPerfilUsuario perfis idUsuario)
      d.localizacao = .ok (some 1) := by
    obtain ⟨t, ht, hat⟩ := somaDistancias_limite amb d.localizacao 500
      (obterPerfilUsuario perfis idUsuario).localizacoes 0 0
      (by simpa using hcurto) (by simp)
      (fun l hl => by
        obtain ⟨x, hx, h500⟩ := hdist l hl
        exact ⟨x, hx, by exact_mod_cast le_of_lt h500⟩)
    unfold calcularDesvioLocalizacao
    rw [if_neg (by omega), ht]
    simp only [Numero.dividir, Option.map_some', Numero.minimo, Except.ok.injEq,
      Option.some.injEq]
    have hn : (0 : ℚ) < ((obterPerfilUsuario perfis idUsuario).localizacoes.length : ℚ) := by
      exact_mod_cast hlen
    have hat2 : (500 : ℚ) * ((obterPerfilUsuario perfis idUsuario).localizacoes.length : ℚ)
        ≤ t := by
      have := hat
      push_cast at this
      linarith
    have hmedia : (500 : ℚ)
        ≤ arredondar (t / ((obterPerfilUsuario perfis idUsuario).localizacoes.length : ℚ)) := by
      have h500 : arredondar ((500 : Nat) : ℚ) = ((500 : Nat) : ℚ) :=
        arredondar_natural 500 (by norm_num)
      have hq : ((500 : Nat) : ℚ)
          ≤ t / ((obterPerfilUsuario perfis idUsuario).localizacoes.length : ℚ) := by
        rw [le_div_iff₀ hn]; push_cast; exact hat2
      have := arredondar_mono (Nat.cast_nonneg 500) hq
      rw [h500] at this
      exact_mod_cast this
    have hum : (1 : ℚ)
        ≤ arredondar (arredondar
            (t / ((obterPerfilUsuario perfis idUsuario).localizacoes.length : ℚ)) / 500) := by
      have h1 : arredondar ((1 : Nat) : ℚ) = ((1 : Nat) : ℚ) :=
        arredondar_natural 1 (by norm_num)
      have hq : ((1 : Nat) : ℚ)
          ≤ arredondar (t / ((obterPerfilUsuario perfis idUsuario).localizacoes.length : ℚ))
            / 500 := by
        rw [le_div_iff₀ (by norm_num)]; push_cast; linarith
      have := arredondar_mono (Nat.cast_nonneg 1) hq
      rw [h1] at this
      exact_mod_cast this
    exact min_eq_right hum
  have hincomum : localizacaoIncomum amb (obterPerfilUsuario perfis idUsuario) d.localizacao
      = .ok true := by
    unfold localizacaoIncomum
    rw [hdesvio]
    decide!
  refine ⟨hdesvio, hincomum, ?_⟩
  obtain ⟨l0, hl0⟩ := List.exists_mem_of_ne_nil _ hne
  obtain ⟨x0, hx0, -⟩ := hdist l0 hl0
  obtain ⟨loc, hloc⟩ := calcularDistancia_ok_definida amb l0 d.localizacao _ hx0
  obtain ⟨v, hv⟩ := viagemImpossivel_retorna amb (obterPerfilUsuario perfis idUsuario) d loc hloc
  have hpont : ∃ p, calcularPontuacaoAnomalias amb (obterPerfilUsuario perfis idUsuario) d
      = .ok p := by
    unfold calcularPontuacaoAnomalias
    split_ifs
    · exact ⟨_, rfl⟩
    · rw [hdesvio]
      exact ⟨_, rfl⟩
  obtain ⟨p, hp⟩ := hpont
  unfold analisarTentativaLogin
  simp only [hp, hincomum, hv]
  refine ⟨_, rfl, ?_⟩
  simp [motivosDe]

set_option maxRecDepth 100000 in
/-- Witness for C14: the profile after the first login from São Paulo and an
attempt from Tokyo. -/
theorem localizacao_distante_witness :
    calcularDesvioLocalizacao ambExemplo
        (obterPerfilUsuario estadoLogado.perfisComportamentais "usuario-1")
        corpoLoginToquio.localizacao = .ok (some 1)
    ∧ localizacaoIncomum ambExemplo
        (obterPerfilUsuario estadoLogado.perfisComportamentais "usuario-1")
        corpoLoginToquio.localizacao = .ok true
    ∧ ∃ an, (analisarTentativaLogin ambExemplo estadoLogado.perfisComportamentais "usuario-1"
          { ip := "203.0.113.7", localizacao := corpoLoginToquio.localizacao,
            timestamp := 1700388900250, fingerprint := fingerprintExemplo,
            userAgent := some "Mozilla/5.0" }).2 = .ok an
      ∧ { type := "LOCALIZACAO_INCOMUM", description := "Login de localização não usual",
          confidence := arredondar (85 / 100) } ∈ an.reasons :=
  localizacao_distante ambExemplo estadoLogado.perfisComportamentais "usuario-1"
    { ip := "203.0.113.7", localizacao := corpoLoginToquio.localizacao,
      timestamp := 1700388900250, fingerprint := fingerprintExemplo,
      userAgent := some "Mozilla/5.0" }
    (by decide!) (by decide!)
    (by
      intro l hl
      have hperfil : (obterPerfilUsuario estadoLogado.perfisComportamentais
          "usuario-1").localizacoes = [corpoLoginSP.localizacao] := by decide!
      rw [hperfil] at hl
      simp only [List.mem_singleton] at hl
      subst hl
      exact ⟨18530, by decide!, by norm_num⟩)

/-- The time deviation is a number between 0 and 1. -/
theorem calcularDesvioTempo_limites (amb : Ambiente) (perfil : Perfil) (timestamp : Nat) :
    ∃ T : ℚ, calcularDesvioTempo amb perfil timestamp = some T ∧ 0 ≤ T ∧ T ≤ 1 := by
  unfold calcularDesvioTempo
  split_ifs
  · exact ⟨0, rfl, le_refl 0, by norm_num⟩
  · refine ⟨_, rfl, ?_, min_le_right _ _⟩
    exact le_min (arredondar_nao_negativo _ (div_nonneg (abs_nonneg _) (by norm_num)))
      (by norm_num)

/-! ## Profile updates -/

/-- C16: if `analisarTentativaLogin` returns an analysis with
`isAnomalous = true`, the map of behavioural profiles after the call is the map
before the call, so the stored profile of every user, the user being scored
included, is the same before and after. -/
theorem perfis_intactos_se_anomalo (amb : Ambiente) (perfis : List (String × Perfil))
    (idUsuario : String) (d : DadosLogin) (an : Analise)
    (h : (analisarTentativaLogin amb perfis idUsuario d).2 = .ok an)
    (hanom : an.isAnomalous = true) :
    (analisarTentativaLogin amb perfis idUsuario d).1 = perfis
    ∧ ∀ outro : String,
      mapaGet (analisarTentativaLogin amb perfis idUsuario d).1 outro = mapaGet perfis outro := by
  have hres := analisarTentativaLogin_anomalo amb perfis idUsuario d an h hanom
  rw [hres]
  exact ⟨rfl, fun _ => rfl⟩

set_option maxRecDepth 100000 in
/-- Witness for C16: after five logins from São Paulo at 22 h, the attempt from
Tokyo at 10 h is found anomalous. -/
theorem perfis_intactos_se_anomalo_witness :
    (analisarTentativaLogin ambExemplo estadoCincoLogins.perfisComportamentais "usuario-1"
        { ip := "203.0.113.7", localizacao := corpoLoginToquio.localizacao,
          timestamp := 1700388900250, fingerprint := fingerprintExemplo,
          userAgent := some "Mozilla/5.0" }).1 = estadoCincoLogins.perfisComportamentais
    ∧ ∀ outro : String,
      mapaGet (analisarTentativaLogin ambExemplo estadoCincoLogins.perfisComportamentais
        "usuario-1"
        { ip := "203.0.113.7", localizacao := corpoLoginToquio.localizacao,
          timestamp := 1700388900250, fingerprint := fingerprintExemplo,
          userAgent := some "Mozilla/5.0" }).1 outro
      = mapaGet estadoCincoLogins.perfisComportamentais outro :=
  perfis_intactos_se_anomalo ambExemplo estadoCincoLogins.perfisComportamentais "usuario-1"
    { ip := "203.0.113.7", localizacao := corpoLoginToquio.localizacao,
      timestamp := 1700388900250, fingerprint := fingerprintExemplo,
      userAgent := some "Mozilla/5.0" }
    { isAnomalous := true, anomalyScore := some 1,
      reasons := motivosDe true true false true, riskLevel := "CRITICAL" }
    (by decide!) rfl

theorem ultimos_de_curta {α : Type} (n : Nat) (l : List α) (h : l.length ≤ n) :
    ultimos n l = l := by
  unfold ultimos
  rw [Nat.sub_eq_zero_of_le h]
  rfl

theorem ultimos_length {α : Type} (n : Nat) (l : List α) : (ultimos n l).length ≤ n := by
  unfold ultimos
  rw [List.length_drop]
  omega

/-- Keeping the last `n` entries before appending more changes nothing for the
last `n` entries of the whole. -/
theorem ultimos_append_ultimos {α : Type} (n : Nat) (a b : List α) :
    ultimos n (ultimos n a ++ b) = ultimos n (a ++ b) := by
  by_cases h : a.length ≤ n
  · rw [ultimos_de_curta n a h]
  · have hlen : (ultimos n a).length = n := by
      unfold ultimos
      rw [List.length_drop]
      omega
    unfold ultimos at hlen ⊢
    rw [List.length_append, List.length_append, hlen]
    have e1 : n + b.length - n = b.length := by omega
    have e2 : a.length + b.length - n = (a.length - n) + b.length := by omega
    rw [e1, e2, ← List.drop_drop]
    congr 1
    exact (List.drop_append_of_le_length (Nat.sub_le _ _)).symm

/-- The push of `atualizarPerfilUsuario`, preceded by a shift when the history
is full, keeps the last ten entries of the history extended by the new one. -/
theorem empurrar_localizacao (l : List (Option Localizacao)) (x : Option Localizacao)
    (h : l.length ≤ 10) :
    (if l.length ≥ 10 then l.tail else l) ++ [x] = ultimos 10 (l ++ [x]) := by
  unfold ultimos
  rw [List.length_append, List.length_singleton]
  split_ifs with h10
  · have e : l.length + 1 - 10 = 1 := by omega
    rw [e, List.drop_append_of_le_length (by omega), List.drop_one]
  · have e : l.length + 1 - 10 = 0 := by omega
    rw [e]
    rfl

/-- The profile map after a call: updated when the call returned a
non-anomalous analysis, untouched otherwise. -/
theorem analisarTentativaLogin_perfis (amb : Ambiente) (perfis : List (String × Perfil))
    (idUsuario : String) (d : DadosLogin) :
    (analisarTentativaLogin amb perfis idUsuario d).1
      = match (analisarTentativaLogin amb perfis idUsuario d).2 with
        | .ok an =>
          if an.isAnomalous = false then atualizarPerfilUsuario amb perfis idUsuario d
          else perfis
        | .error _ => perfis := by
  unfold analisarTentativaLogin
  simp only
  cases calcularPontuacaoAnomalias amb (obterPerfilUsuario perfis idUsuario) d with
  | error e => rfl
  | ok pont =>
    simp only
    cases localizacaoIncomum amb (obterPerfilUsuario perfis idUsuario) d.localizacao with
    | error e => rfl
    | ok inc =>
      simp only
      cases viagemImpossivel amb (obterPerfilUsuario perfis idUsuario) d with
      | error e => rfl
      | ok via =>
        simp only
        cases Numero.maior pont (some limiteAnomalias) <;> simp

/-- The location history of a profile after `atualizarPerfilUsuario`. -/
theorem atualizarPerfilUsuario_localizacoes (amb : Ambiente) (perfis : List (String × Perfil))
    (idUsuario usuario : String) (d : DadosLogin) :
    (obterPerfilUsuario (atualizarPerfilUsuario amb perfis idUsuario d) usuario).localizacoes
      = if idUsuario = usuario then
          (if (obterPerfilUsuario perfis usuario).localizacoes.length ≥ 10
            then (obterPerfilUsuario perfis usuario).localizacoes.tail
            else (obterPerfilUsuario perfis usuario).localizacoes) ++ [d.localizacao]
        else (obterPerfilUsuario perfis usuario).localizacoes := by
  by_cases hid : idUsuario = usuario
  · subst hid
    rw [if_pos rfl]
    unfold atualizarPerfilUsuario
    simp only
    rw [obterPerfilUsuario, mapaGet_mapaSet_mesma]
    rfl
  · rw [if_neg hid]
    unfold atualizarPerfilUsuario
    simp only
    rw [obterPerfilUsuario, mapaGet_mapaSet_outra _ _ _ _ (Ne.symm hid)]
    rfl

/-- From any map in which the history of a user has at most ten entries, a
sequence of calls leaves that user with the last ten entries of the old
history followed by the locations of the accepted attempts. -/
theorem analisarSequencia_localizacoes (amb : Ambiente) (usuario : String) :
    ∀ (tentativas : List (String × DadosLogin)) (perfis : List (String × Perfil)),
      (obterPerfilUsuario perfis usuario).localizacoes.length ≤ 10 →
      (obterPerfilUsuario (analisarSequencia amb perfis tentativas) usuario).localizacoes
        = ultimos 10 ((obterPerfilUsuario perfis usuario).localizacoes
            ++ localizacoesAceitas amb usuario perfis tentativas) := by
  intro tentativas
  induction tentativas with
  | nil =>
    intro perfis h
    simp only [analisarSequencia, localizacoesAceitas, List.append_nil]
    exact (ultimos_de_curta 10 _ h).symm
  | cons t resto ih =>
    intro perfis h
    obtain ⟨idUsuario, d⟩ := t
    simp only [analisarSequencia, localizacoesAceitas]
    have hperfis := analisarTentativaLogin_perfis amb perfis idUsuario d
    cases hres : (analisarTentativaLogin amb perfis idUsuario d).2 with
    | error e =>
      rw [hres] at hperfis
      simp only at hperfis
      rw [hperfis]
      simpa using ih perfis h
    | ok an =>
      rw [hres] at hperfis
      simp only at hperfis
      by_cases hanom : an.isAnomalous = false
      · rw [if_pos hanom] at hperfis
        have hloc := atualizarPerfilUsuario_localizacoes amb perfis idUsuario usuario d
        by_cases hid : idUsuario = usuario
        · rw [if_pos hid, empurrar_localizacao _ _ h] at hloc
          have hcurta : (obterPerfilUsuario (atualizarPerfilUsuario amb perfis idUsuario d)
              usuario).localizacoes.length ≤ 10 := by
            rw [hloc]
            exact ultimos_length 10 _
          rw [hperfis, ih _ hcurta, hloc, ultimos_append_ultimos]
          simp [hid, hanom]
        · rw [if_neg hid] at hloc
          rw [hperfis, ih _ (by rw [hloc]; exact h), hloc]
          simp [hid]
      · rw [if_neg hanom] at hperfis
        rw [hperfis, ih perfis h]
        simp [hanom]

/-- C17: after any sequence of `analisarTentativaLogin` calls on a fresh
detector, the location history of every stored profile has at most ten entries
and consists of the locations of the last (up to ten) attempts of that user
that were found not anomalous, in arrival order; appending to a full history
evicts its oldest entry. -/
theorem historico_de_localizacoes (amb : Ambiente) (tentativas : List (String × DadosLogin))
    (usuario : String) :
    (obterPerfilUsuario (analisarSequencia amb [] tentativas) usuario).localizacoes
      = ultimos 10 (localizacoesAceitas amb usuario [] tentativas)
    ∧ (obterPerfilUsuario (analisarSequencia amb [] tentativas) usuario).localizacoes.length
      ≤ 10
    ∧ ∀ (idUsuario : String) (d : DadosLogin),
      (obterPerfilUsuario (atualizarPerfilUsuario amb (analisarSequencia amb [] tentativas)
        idUsuario d) idUsuario).localizacoes
      = if (obterPerfilUsuario (analisarSequencia amb [] tentativas)
            idUsuario).localizacoes.length = 10
        then (obterPerfilUsuario (analisarSequencia amb [] tentativas)
            idUsuario).localizacoes.tail ++ [d.localizacao]
        else (obterPerfilUsuario (analisarSequencia amb [] tentativas)
            idUsuario).localizacoes ++ [d.localizacao] := by
  have hgeral : ∀ u : String,
      (obterPerfilUsuario (analisarSequencia amb [] tentativas) u).localizacoes
        = ultimos 10 (localizacoesAceitas amb u [] tentativas) := by
    intro u
    have h := analisarSequencia_localizacoes amb u tentativas [] (by simp [obterPerfilUsuario, mapaGet])
    simpa [obterPerfilUsuario, mapaGet] using h
  refine ⟨hgeral usuario, ?_, ?_⟩
  · rw [hgeral usuario]
    exact ultimos_length 10 _
  · intro idUsuario d
    have hcurta : (obterPerfilUsuario (analisarSequencia amb [] tentativas)
        idUsuario).localizacoes.length ≤ 10 := by
      rw [hgeral idUsuario]
      exact ultimos_length 10 _
    rw [atualizarPerfilUsuario_localizacoes, if_pos rfl]
    by_cases h10 : (obterPerfilUsuario (analisarSequencia amb [] tentativas)
        idUsuario).localizacoes.length = 10
    · rw [if_pos h10, if_pos (by omega)]
    · rw [if_neg h10, if_neg (by omega)]

/-! ## Honeypot -/

/-- C18: for every submission from an IP that is not in the captured set, in
which no decoy field is filled, the time elapsed since the issuance timestamp
is at least 2000 ms, and some key of the submitted object carries the empty
string, `validarSubmissao` returns `isBot = false`, no violation and
`trustScore` 100, and leaves both collections of the honeypot as they were, so
no strike is recorded for the IP. -/
theorem submissao_legitima (h : Honeypot) (dados : Corpo) (ip : String) (agora : Nat)
    (hip : ipCapturado h ip = false)
    (hdecoy : preenchido dados.email_confirmacao = false ∧ preenchido dados.website = false
      ∧ preenchido dados.numero_telefone = false)
    (htempo : (tempoDePreenchimento dados agora).menor 2000 = false)
    (hseq : padraoSequencial dados = false) :
    validarSubmissao h dados ip agora
      = (h, { isBot := false, violations := [], trustScore := 100 }) := by
  have hip' : ip ∉ h.ipsCapturados := by
    simpa [ipCapturado] using hip
  have hv : violacoesDe h dados ip agora = [] := by
    unfold violacoesDe
    simp only [hdecoy.1, hdecoy.2.1, hdecoy.2.2, hseq, hip', htempo, Bool.or_self,
      Bool.false_eq_true, if_false, List.append_nil, List.nil_append]
  unfold validarSubmissao
  simp only [hv]
  rfl

set_option maxRecDepth 100000 in
/-- Witness for C18: the human submission of the unit test, on a fresh
honeypot. -/
theorem submissao_legitima_witness :
    validarSubmissao {} dadosHumano "192.168.1.101" 1700000000000
      = ({}, { isBot := false, violations := [], trustScore := 100 }) :=
  submissao_legitima {} dadosHumano "192.168.1.101" 1700000000000 (by decide)
    (by decide) (by decide!) (by decide)

/-- When the timestamp parses to the integer `t` and the difference to the
clock reading has a magnitude of at most `2 ^ 53`, the elapsed time that
`validarSubmissao` computes is that difference, and it prints as its decimal
digits. -/
theorem tempoDePreenchimento_inteiro (dados : Corpo) (agora : Nat) (t : Int)
    (hcarimbo : carimboSubmissao dados = .finito t)
    (hdentro : ((agora : Int) - t).natAbs ≤ 2 ^ 53) :
    tempoDePreenchimento dados agora = .finito ((agora : Int) - t)
    ∧ numeroParaTexto (tempoDePreenchimento dados agora) = toString ((agora : Int) - t) := by
  have h1 : tempoDePreenchimento dados agora = .finito ((agora : Int) - t) := by
    unfold tempoDePreenchimento
    rw [hcarimbo]
    exact duploDeInteiro_pequeno _ hdentro
  exact ⟨h1, by rw [h1]; exact numeroParaTexto_pequeno _ hdentro⟩

/-- A timestamp that parses to an integer `t` at least 2000 ms, and at most
`2 ^ 53` ms, before the clock reading passes the timing rule of
`validarSubmissao`. -/
theorem tempoDePreenchimento_suficiente (dados : Corpo) (agora : Nat) (t : Int)
    (hcarimbo : carimboSubmissao dados = .finito t)
    (hdentro : ((agora : Int) - t).natAbs ≤ 2 ^ 53)
    (hlento : 2000 ≤ (agora : Int) - t) :
    (tempoDePreenchimento dados agora).menor 2000 = false := by
  rw [(tempoDePreenchimento_inteiro dados agora t hcarimbo hdentro).1]
  simp only [NumeroInteiro.menor, decide_eq_false_iff_not, not_lt]
  exact hlento

/-- C19 (amended): for every submission from a non-captured IP in which a decoy
field is filled (two of them in particular), some key of the submitted object
carries the empty string, and the time elapsed since the issuance timestamp,
as `validarSubmissao` computes it, is below 2000 ms (500 ms in particular),
`validarSubmissao` returns exactly the decoy-field violation (HIGH) followed by
the too-fast violation (MEDIUM), which carries that time, `isBot = true` and
`trustScore` 100 − 50 − 25 = 25. When the timestamp parses to an integer `t`
within `2 ^ 53` of the clock reading, that time is the clock reading minus `t`
and the description holds its decimal digits. -/
theorem decoy_e_rapido (h : Honeypot) (dados : Corpo) (ip : String) (agora : Nat)
    (hip : ipCapturado h ip = false)
    (hdecoy : (preenchido dados.email_confirmacao || preenchido dados.website
      || preenchido dados.numero_telefone) = true)
    (hrapido : (tempoDePreenchimento dados agora).menor 2000 = true)
    (hseq : padraoSequencial dados = false) :
    (validarSubmissao h dados ip agora).2
      = { isBot := true
          violations :=
            [{ type := "HONEYPOT_PREENCHIDO", severity := "HIGH",
               description := "Campos honeypot foram preenchidos" },
             { type := "MUITO_RAPIDO", severity := "MEDIUM",
               description := "Formulário preenchido em "
                 ++ numeroParaTexto (tempoDePreenchimento dados agora) ++ "ms",
               tempoPreenchimento := some (tempoDePreenchimento dados agora) }]
          trustScore := 25 }
    ∧ ∀ t : Int, carimboSubmissao dados = .finito t → ((agora : Int) - t).natAbs ≤ 2 ^ 53 →
      (validarSubmissao h dados ip agora).2
        = { isBot := true
            violations :=
              [{ type := "HONEYPOT_PREENCHIDO", severity := "HIGH",
                 description := "Campos honeypot foram preenchidos" },
               { type := "MUITO_RAPIDO", severity := "MEDIUM",
                 description :=
                   "Formulário preenchido em " ++ toString ((agora : Int) - t) ++ "ms",
                 tempoPreenchimento := some (.finito ((agora : Int) - t)) }]
            trustScore := 25 } := by
  have hip' : ip ∉ h.ipsCapturados := by
    simpa [ipCapturado] using hip
  have hv : violacoesDe h dados ip agora
      = [{ type := "HONEYPOT_PREENCHIDO", severity := "HIGH",
           description := "Campos honeypot foram preenchidos" },
         { type := "MUITO_RAPIDO", severity := "MEDIUM",
           description := "Formulário preenchido em "
             ++ numeroParaTexto (tempoDePreenchimento dados agora) ++ "ms",
           tempoPreenchimento := some (tempoDePreenchimento dados agora) }] := by
    unfold violacoesDe
    simp only [hdecoy, hrapido, hseq, hip', if_true, if_false, Bool.false_eq_true,
      List.append_nil, List.singleton_append]
  have hres : (validarSubmissao h dados ip agora).2
      = { isBot := true
          violations :=
            [{ type := "HONEYPOT_PREENCHIDO", severity := "HIGH",
               description := "Campos honeypot foram preenchidos" },
             { type := "MUITO_RAPIDO", severity := "MEDIUM",
               description := "Formulário preenchido em "
                 ++ numeroParaTexto (tempoDePreenchimento dados agora) ++ "ms",
               tempoPreenchimento := some (tempoDePreenchimento dados agora) }]
          trustScore := 25 } := by
    unfold validarSubmissao
    simp only [hv]
    simp only [List.length_cons, List.length_nil, calcularPontuacaoConfianca,
      List.isEmpty_cons, List.foldl_cons, List.foldl_nil]
    simp
  refine ⟨hres, ?_⟩
  intro t hcarimbo hdentro
  obtain ⟨h1, h2⟩ := tempoDePreenchimento_inteiro dados agora t hcarimbo hdentro
  rw [hres, h2, h1]

set_option maxRecDepth 100000 in
/-- Witness for C19 (amended): two decoy fields filled, the third present and
empty, submitted 500 ms after issuance. -/
theorem decoy_e_rapido_witness :
    (validarSubmissao {} dadosBotRapido "192.168.1.100" 1700000000000).2
      = { isBot := true
          violations :=
            [{ type := "HONEYPOT_PREENCHIDO", severity := "HIGH",
               description := "Campos honeypot foram preenchidos" },
             { type := "MUITO_RAPIDO", severity := "MEDIUM",
               description := "Formulário preenchido em "
                 ++ toString (((1700000000000 : Nat) : Int) - 1699999999500) ++ "ms",
               tempoPreenchimento := some (.finito (((1700000000000 : Nat) : Int)
                 - 1699999999500)) }]
          trustScore := 25 } :=
  (decoy_e_rapido {} dadosBotRapido "192.168.1.100" 1700000000000 (by decide)
    (by decide) (by decide) (by decide)).2 1699999999500 (by decide) (by decide)

set_option maxRecDepth 100000 in
/-- C19 fails as stated: a submission from a non-captured IP with two decoy
fields filled, sent 500 ms after issuance, in which the key of the third decoy
field is absent and every key present is filled, also gets the
sequential-pattern violation, and its `trustScore` is max(100 − 50 − 25 − 25, 0)
= 0, not 25. -/
theorem padrao_sequencial_zera_confianca :
    ipCapturado {} "192.168.1.100" = false
    ∧ (validarSubmissao {} dadosBotSemTerceiro "192.168.1.100" 1700000000000).2
      = { isBot := true
          violations :=
            [{ type := "HONEYPOT_PREENCHIDO", severity := "HIGH",
               description := "Campos honeypot foram preenchidos" },
             { type := "MUITO_RAPIDO", severity := "MEDIUM",
               description := "Formulário preenchido em 500ms",
               tempoPreenchimento := some (.finito 500) },
             { type := "PADRAO_SEQUENCIAL", severity := "MEDIUM",
               description := "Padrão de preenchimento automático detectado" }]
          trustScore := 0 }
    ∧ (validarSubmissao {} dadosBotSemTerceiro "192.168.1.100" 1700000000000).2.trustScore
      ≠ 25 := by
  decide

theorem membro_conjuntoAdd_iff {α : Type} [DecidableEq α] (c : List α) (x y : α) :
    y ∈ conjuntoAdd c x ↔ y ∈ c ∨ y = x := by
  unfold conjuntoAdd
  split_ifs with h
  · constructor
    · exact Or.inl
    · rintro (h1 | h1)
      · exact h1
      · rw [h1]
        exact h
  · simp

theorem coerente_validar (h : Honeypot) (alvo : String) (n : Nat) (dados : Corpo)
    (ip : String) (agora : Nat) (hc : coerente h alvo n) :
    coerente (validarSubmissao h dados ip agora).1 alvo
      (if ip = alvo ∧ (validarSubmissao h dados ip agora).2.isBot = true then n + 1 else n) := by
  obtain ⟨hlen, hcap⟩ := hc
  unfold validarSubmissao
  simp only [gt_iff_lt, decide_eq_true_eq]
  by_cases hv : 0 < (violacoesDe h dados ip agora).length
  · simp only [hv, if_true, and_true]
    by_cases hip : ip = alvo
    · subst hip
      simp only [if_true]
      unfold marcarIPSuspeito coerente
      simp only [mapaGet_mapaSet_mesma, Option.getD_some, List.length_append, hlen,
        List.length_singleton, ge_iff_le, true_and]
      split_ifs with h3
      · simp [membro_conjuntoAdd_iff, h3]
      · rw [hcap]
        constructor
        · intro h'
          omega
        · intro h'
          omega
    · simp only [hip, if_false]
      unfold marcarIPSuspeito coerente
      simp only [mapaGet_mapaSet_outra _ _ _ _ (Ne.symm hip), hlen, true_and]
      split_ifs with h3
      · rw [membro_conjuntoAdd_iff]
        simp [Ne.symm hip, hcap]
      · exact hcap
  · simp only [hv, if_false, and_false]
    exact ⟨hlen, hcap⟩

theorem coerente_liberar (h : Honeypot) (alvo : String) (n : Nat) (ip : String)
    (hc : coerente h alvo n) :
    coerente (liberarIP h ip) alvo (if ip = alvo then 0 else n) := by
  obtain ⟨hlen, hcap⟩ := hc
  unfold liberarIP coerente
  by_cases hip : ip = alvo
  · subst hip
    simp [mapaGet_mapaDelete_mesma]
  · simp only [hip, if_false, mapaGet_mapaDelete_outra _ _ _ (Ne.symm hip), hlen, true_and]
    rw [← hcap]
    simp [Ne.symm hip]

theorem coerente_executar (alvo : String) :
    ∀ (chamadas : List ChamadaHoneypot) (h : Honeypot) (n : Nat), coerente h alvo n →
      coerente (executarHoneypot h chamadas) alvo (violacoesDesdeLiberacao alvo h chamadas n) := by
  intro chamadas
  induction chamadas with
  | nil =>
    intro h n hc
    exact hc
  | cons c resto ih =>
    intro h n hc
    cases c with
    | validar dados ip agora =>
      simp only [executarHoneypot, violacoesDesdeLiberacao]
      exact ih _ _ (coerente_validar h alvo n dados ip agora hc)
    | liberar ip =>
      simp only [executarHoneypot, violacoesDesdeLiberacao]
      exact ih _ _ (coerente_liberar h alvo n ip hc)

/-- The running score never rises, and a CRITICAL violation lowers it by 100. -/
theorem pontuacao_com_critica (violacoes : List Violacao) :
    ∀ p : Int,
      violacoes.foldl (fun (p : Int) v =>
        if v.severity = "LOW" then p - 10
        else if v.severity = "MEDIUM" then p - 25
        else if v.severity = "HIGH" then p - 50
        else if v.severity = "CRITICAL" then p - 100
        else p) p ≤ p
      ∧ ((∃ v ∈ violacoes, v.severity = "CRITICAL") →
        violacoes.foldl (fun (p : Int) v =>
          if v.severity = "LOW" then p - 10
          else if v.severity = "MEDIUM" then p - 25
          else if v.severity = "HIGH" then p - 50
          else if v.severity = "CRITICAL" then p - 100
          else p) p ≤ p - 100) := by
  induction violacoes with
  | nil =>
    intro p
    simp
  | cons v resto ih =>
    intro p
    simp only [List.foldl_cons]
    constructor
    · refine le_trans (ih _).1 ?_
      split_ifs <;> omega
    · rintro ⟨w, hw, hcrit⟩
      rcases List.mem_cons.mp hw with hwv | hwr
      · subst hwv
        refine le_trans (ih _).1 ?_
        have h1 : w.severity ≠ "LOW" := by rw [hcrit]; decide
        have h2 : w.severity ≠ "MEDIUM" := by rw [hcrit]; decide
        have h3 : w.severity ≠ "HIGH" := by rw [hcrit]; decide
        simp [h1, h2, h3, hcrit]
      · refine le_trans ((ih _).2 ⟨w, hwr, hcrit⟩) ?_
        split_ifs <;> omega

/-- A submission from a captured IP is reported as a known bot whatever it
carries. -/
theorem validarSubmissao_capturado (h : Honeypot) (dados : Corpo) (ip : String) (agora : Nat)
    (hcap : ipCapturado h ip = true) :
    { type := "BOT_CONHECIDO", severity := "CRITICAL",
      description := "IP previamente identificado como bot" }
        ∈ (validarSubmissao h dados ip agora).2.violations
    ∧ (validarSubmissao h dados ip agora).2.isBot = true
    ∧ (validarSubmissao h dados ip agora).2.trustScore = 0 := by
  have hip : ip ∈ h.ipsCapturados := by
    simpa [ipCapturado] using hcap
  have hmem : ({ type := "BOT_CONHECIDO", severity := "CRITICAL",
                 description := "IP previamente identificado como bot" } : Violacao)
      ∈ violacoesDe h dados ip agora := by
    unfold violacoesDe
    simp only [hip, if_true]
    exact List.mem_append_right _ (List.mem_singleton.mpr rfl)
  have hpos : 0 < (violacoesDe h dados ip agora).length := List.length_pos_of_mem hmem
  refine ⟨hmem, ?_, ?_⟩
  · simp only [validarSubmissao, gt_iff_lt, decide_eq_true_eq]
    exact hpos
  · simp only [validarSubmissao, calcularPontuacaoConfianca]
    have hne : (violacoesDe h dados ip agora).isEmpty = false := by
      cases hl : violacoesDe h dados ip agora with
      | nil => rw [hl] at hpos; simp at hpos
      | cons a b => rfl
    rw [hne]
    simp only [Bool.false_eq_true, if_false]
    have hle := (pontuacao_com_critica (violacoesDe h dados ip agora) 100).2 ⟨_, hmem, rfl⟩
    exact max_eq_right (by omega)

/-- C20: after any sequence of `validarSubmissao` and `liberarIP` calls on a
fresh honeypot, an IP is in the captured set exactly when at least three of its
submissions were found in violation since its last release (so not after fewer
than three, and after the third); every further submission from a captured IP,
whatever the form data, reports the CRITICAL known-bot violation with
`isBot = true` and `trustScore` 0 and leaves the IP captured; `liberarIP`
takes the IP out of the captured set and resets its count. -/
theorem captura_apos_tres_violacoes (chamadas : List ChamadaHoneypot) (ip : String) :
    (ipCapturado (executarHoneypot {} chamadas) ip = true
      ↔ 3 ≤ violacoesDesdeLiberacao ip {} chamadas 0)
    ∧ (ipCapturado (executarHoneypot {} chamadas) ip = true →
      ∀ (dados : Corpo) (agora : Nat),
        { type := "BOT_CONHECIDO", severity := "CRITICAL",
          description := "IP previamente identificado como bot" }
            ∈ (validarSubmissao (executarHoneypot {} chamadas) dados ip agora).2.violations
        ∧ (validarSubmissao (executarHoneypot {} chamadas) dados ip agora).2.isBot = true
        ∧ (validarSubmissao (executarHoneypot {} chamadas) dados ip agora).2.trustScore = 0
        ∧ ipCapturado (validarSubmissao (executarHoneypot {} chamadas) dados ip agora).1 ip
          = true)
    ∧ ipCapturado (liberarIP (executarHoneypot {} chamadas) ip) ip = false
    ∧ violacoesDesdeLiberacao ip {} (chamadas ++ [.liberar ip]) 0 = 0 := by
  have hinicio : coerente {} ip 0 := by
    unfold coerente
    simp [mapaGet]
  have hfim := coerente_executar ip chamadas {} 0 hinicio
  refine ⟨?_, ?_, ?_, ?_⟩
  · rw [← hfim.2]
    simp [ipCapturado]
  · intro hcap dados agora
    obtain ⟨h1, h2, h3⟩ := validarSubmissao_capturado _ dados ip agora hcap
    refine ⟨h1, h2, h3, ?_⟩
    have hdepois := coerente_validar _ ip _ dados ip agora hfim
    simp only [h2, and_self, if_true] at hdepois
    have h3le : 3 ≤ violacoesDesdeLiberacao ip {} chamadas 0 := by
      rw [← hfim.2]
      simpa [ipCapturado] using hcap
    have : ip ∈ (validarSubmissao (executarHoneypot {} chamadas) dados ip agora).1.ipsCapturados :=
      hdepois.2.mpr (by omega)
    simpa [ipCapturado] using this
  · have hlib := coerente_liberar _ ip _ ip hfim
    simp only [if_true] at hlib
    have : ip ∉ (liberarIP (executarHoneypot {} chamadas) ip).ipsCapturados := by
      rw [hlib.2]
      omega
    simpa [ipCapturado] using this
  · have hgeral : ∀ (cs : List ChamadaHoneypot) (h : Honeypot) (n : Nat),
        violacoesDesdeLiberacao ip h (cs ++ [.liberar ip]) n = 0 := by
      intro cs
      induction cs with
      | nil =>
        intro h n
        simp [violacoesDesdeLiberacao]
      | cons c resto ih =>
        intro h n
        cases c with
        | validar dados ip' agora =>
          simp only [List.cons_append, violacoesDesdeLiberacao]
          exact ih _ _
        | liberar ip' =>
          simp only [List.cons_append, violacoesDesdeLiberacao]
          exact ih _ _
    exact hgeral chamadas {} 0

/-! ## Worked sequences -/

set_option maxRecDepth 100000 in
/-- Eleven accepted attempts on eleven days: the history holds the locations of
days 1 to 10, the location of day 0 having been evicted by the eleventh. -/
theorem onze_tentativas_aceitas :
    localizacoesAceitas ambVizinhanca "usuario-1" [] ((List.range 11).map tentativaDoDia)
      = (List.range 11).map (fun k => (tentativaDoDia k).2.localizacao)
    ∧ (obterPerfilUsuario (analisarSequencia ambVizinhanca []
        ((List.range 11).map tentativaDoDia)) "usuario-1").localizacoes
      = ((List.range 11).map (fun k => (tentativaDoDia k).2.localizacao)).tail := by
  decide!

set_option maxRecDepth 100000 in
/-- Three submissions in violation from one address capture it; two do not;
a release clears it. -/
theorem tres_submissoes_de_bot :
    ipCapturado (executarHoneypot {}
      [.validar dadosBotRapido "192.168.1.100" 1700000000000,
       .validar dadosHumano "192.168.1.100" 1700000000000,
       .validar dadosBotRapido "192.168.1.100" 1700000000000]) "192.168.1.100" = false
    ∧ violacoesDesdeLiberacao "192.168.1.100" {}
      [.validar dadosBotRapido "192.168.1.100" 1700000000000,
       .validar dadosHumano "192.168.1.100" 1700000000000,
       .validar dadosBotRapido "192.168.1.100" 1700000000000] 0 = 2
    ∧ ipCapturado (executarHoneypot {}
      [.validar dadosBotRapido "192.168.1.100" 1700000000000,
       .validar dadosHumano "192.168.1.100" 1700000000000,
       .validar dadosBotRapido "192.168.1.100" 1700000000000,
       .validar dadosBotRapido "192.168.1.100" 1700000000000]) "192.168.1.100" = true
    ∧ (validarSubmissao (executarHoneypot {}
      [.validar dadosBotRapido "192.168.1.100" 1700000000000,
       .validar dadosHumano "192.168.1.100" 1700000000000,
       .validar dadosBotRapido "192.168.1.100" 1700000000000,
       .validar dadosBotRapido "192.168.1.100" 1700000000000])
        dadosHumano "192.168.1.100" 1700000000000).2
      = { isBot := true
          violations := [{ type := "BOT_CONHECIDO", severity := "CRITICAL",
                           description := "IP previamente identificado como bot" }]
          trustScore := 0 }
    ∧ ipCapturado (executarHoneypot {}
      [.validar dadosBotRapido "192.168.1.100" 1700000000000,
       .validar dadosBotRapido "192.168.1.100" 1700000000000,
       .validar dadosBotRapido "192.168.1.100" 1700000000000,
       .liberar "192.168.1.100"]) "192.168.1.100" = false := by
  decide

/-! ## Password complexity -/

/-- C21 (amended): for every password shorter than the configured minimum
length, the length criterion of `validarComplexidadeSenha` is false and the
score is the number of the other four criteria (uppercase, lowercase, digit,
special character) that hold; with the default minimum score 4 the password is
valid exactly when all four hold, and invalid as soon as one of them fails. -/
theorem senha_curta (cfg : Configuracao) (senha : String)
    (hcurta : comprimentoUTF16 senha < cfg.senhaTamanhoMinimo) :
    (validarComplexidadeSenha cfg senha).criterios.tamanhoMinimo = false
    ∧ (validarComplexidadeSenha cfg senha).pontuacao
      = ([(validarComplexidadeSenha cfg senha).criterios.maiuscula,
          (validarComplexidadeSenha cfg senha).criterios.minuscula,
          (validarComplexidadeSenha cfg senha).criterios.numero,
          (validarComplexidadeSenha cfg senha).criterios.caracterEspecial].filter id).length
    ∧ (validarComplexidadeSenha cfg senha).pontuacao ≤ 4
    ∧ (cfg.senhaPontuacaoMinima = 4 →
      ((validarComplexidadeSenha cfg senha).valida = true
        ↔ (validarComplexidadeSenha cfg senha).criterios.maiuscula = true
          ∧ (validarComplexidadeSenha cfg senha).criterios.minuscula = true
          ∧ (validarComplexidadeSenha cfg senha).criterios.numero = true
          ∧ (validarComplexidadeSenha cfg senha).criterios.caracterEspecial = true)) := by
  have hlen : decide (comprimentoUTF16 senha ≥ cfg.senhaTamanhoMinimo) = false := by
    simp only [ge_iff_le, decide_eq_false_iff_not, not_le]
    exact hcurta
  unfold validarComplexidadeSenha
  simp only [hlen]
  generalize (!cfg.senhaExigirMaiuscula
    || senha.toList.any (fun c => decide ('A' ≤ c ∧ c ≤ 'Z'))) = a
  generalize (!cfg.senhaExigirMinuscula
    || senha.toList.any (fun c => decide ('a' ≤ c ∧ c ≤ 'z'))) = b
  generalize (!cfg.senhaExigirNumero
    || senha.toList.any (fun c => decide ('0' ≤ c ∧ c ≤ '9'))) = c
  generalize (!cfg.senhaExigirEspecial
    || senha.toList.any (fun c => decide (c ∈ cfg.senhaCaracteresEspeciais.toList))) = d
  refine ⟨trivial, ?_, ?_, ?_⟩
  · cases a <;> cases b <;> cases c <;> cases d <;> rfl
  · cases a <;> cases b <;> cases c <;> cases d <;> decide
  · intro h4
    rw [h4]
    cases a <;> cases b <;> cases c <;> cases d <;> decide

/-- Witness for C21 (amended): the weak password of the unit test
`testarValidacaoComplexidadeSenha`. -/
theorem senha_curta_witness :
    (validarComplexidadeSenha (configuracaoPadrao "segredo") "123").criterios.tamanhoMinimo
      = false
    ∧ (validarComplexidadeSenha (configuracaoPadrao "segredo") "123").pontuacao
      = ([(validarComplexidadeSenha (configuracaoPadrao "segredo") "123").criterios.maiuscula,
          (validarComplexidadeSenha (configuracaoPadrao "segredo") "123").criterios.minuscula,
          (validarComplexidadeSenha (configuracaoPadrao "segredo") "123").criterios.numero,
          (validarComplexidadeSenha (configuracaoPadrao "segredo")
            "123").criterios.caracterEspecial].filter id).length
    ∧ (validarComplexidadeSenha (configuracaoPadrao "segredo") "123").pontuacao ≤ 4
    ∧ ((configuracaoPadrao "segredo").senhaPontuacaoMinima = 4 →
      ((validarComplexidadeSenha (configuracaoPadrao "segredo") "123").valida = true
        ↔ (validarComplexidadeSenha (configuracaoPadrao "segredo") "123").criterios.maiuscula
            = true
          ∧ (validarComplexidadeSenha (configuracaoPadrao "segredo") "123").criterios.minuscula
            = true
          ∧ (validarComplexidadeSenha (configuracaoPadrao "segredo") "123").criterios.numero
            = true
          ∧ (validarComplexidadeSenha (configuracaoPadrao "segredo")
            "123").criterios.caracterEspecial = true)) :=
  senha_curta (configuracaoPadrao "segredo") "123" (by decide)

/-- C21 fails as stated: with the default settings the seven-character
password `Ab1!xyz` misses only the length criterion; its score is 4 and
`valida` is true. -/
theorem senha_de_sete_caracteres_valida :
    comprimentoUTF16 "Ab1!xyz" = 7
    ∧ (configuracaoPadrao "segredo").senhaTamanhoMinimo = 8
    ∧ validarComplexidadeSenha (configuracaoPadrao "segredo") "Ab1!xyz"
      = { valida := true, pontuacao := 4
          criterios := { tamanhoMinimo := false, maiuscula := true, minuscula := true,
                         numero := true, caracterEspecial := true } } := by
  decide

/-! ## Device fingerprints -/

mutual
theorem filtrar_valor_sem_objeto : ∀ v : Json, v.semObjeto = true → v.filtrar = v
  | .lista itens, h => by
    simp only [Json.semObjeto] at h
    simp only [Json.filtrar, filtrar_itens_sem_objeto itens h]
  | .objeto _, h => by simp [Json.semObjeto] at h
  | .nulo, _ => rfl
  | .booleano _, _ => rfl
  | .numero _, _ => rfl
  | .texto _, _ => rfl
theorem filtrar_itens_sem_objeto : ∀ i : ItensJson, i.semObjeto = true → i.filtrar = i
  | .vazia, _ => rfl
  | .cons c r, h => by
    simp only [ItensJson.semObjeto, Bool.and_eq_true] at h
    simp only [ItensJson.filtrar, filtrar_valor_sem_objeto c h.1, filtrar_itens_sem_objeto r h.2]
end

/-- A list without objects is written as it is. -/
theorem filtrar_lista_sem_objetos (l : List Json) (h : l.all Json.semObjeto = true) :
    l.map Json.filtrar = l := by
  induction l with
  | nil => rfl
  | cons v resto ih =>
    simp only [List.all_cons, Bool.and_eq_true] at h
    simp only [List.map_cons, filtrar_valor_sem_objeto v h.1, ih h.2]

/-- C22 (amended): for any two requests with a body that differ in one of the
inputs read by `gerar` other than the four storage flags (`cookieHabilitado`,
`localStorage`, `sessionStorage`, `indexedDB`), the two values being different
after the defaults of `gerar` are applied (an absent string is `''`, an absent
list is `[]`, an absent number is 0, an absent `suporteToque` is false, a
battery level of 0 is absent) and, for `fontes` and `plugins`, both lists
holding no object at any depth, `gerar` returns different fingerprint ids,
whatever the other inputs are (the digest being injective on the JSON text). -/
theorem fingerprints_distintos (r1 r2 : Req) (b1 b2 : Corpo) (t1 t2 : Nat)
    (hb1 : r1.body = some b1) (hb2 : r2.body = some b2)
    (hdif : r1.headers.userAgent.getD "" ≠ r2.headers.userAgent.getD ""
      ∨ r1.headers.acceptLanguage.getD "" ≠ r2.headers.acceptLanguage.getD ""
      ∨ r1.headers.acceptEncoding.getD "" ≠ r2.headers.acceptEncoding.getD ""
      ∨ r1.headers.accept.getD "" ≠ r2.headers.accept.getD ""
      ∨ r1.headers.dnt.getD "" ≠ r2.headers.dnt.getD ""
      ∨ b1.resolucaoTela.getD "" ≠ b2.resolucaoTela.getD ""
      ∨ b1.fusoHorario.getD "" ≠ b2.fusoHorario.getD ""
      ∨ b1.fingerprintCanvas.getD "" ≠ b2.fingerprintCanvas.getD ""
      ∨ b1.fingerprintWebgl.getD "" ≠ b2.fingerprintWebgl.getD ""
      ∨ ((b1.fontes.getD []).all Json.semObjeto = true
          ∧ (b2.fontes.getD []).all Json.semObjeto = true
          ∧ b1.fontes.getD [] ≠ b2.fontes.getD [])
      ∨ ((b1.plugins.getD []).all Json.semObjeto = true
          ∧ (b2.plugins.getD []).all Json.semObjeto = true
          ∧ b1.plugins.getD [] ≠ b2.plugins.getD [])
      ∨ b1.classeProcessador.getD "" ≠ b2.classeProcessador.getD ""
      ∨ numeroOuZero b1.concorrenciaHardware ≠ numeroOuZero b2.concorrenciaHardware
      ∨ numeroOuZero b1.memoriaDispositivo ≠ numeroOuZero b2.memoriaDispositivo
      ∨ numeroOuZero b1.profundidadeCor ≠ numeroOuZero b2.profundidadeCor
      ∨ numeroOuZero b1.razaoPixel ≠ numeroOuZero b2.razaoPixel
      ∨ b1.suporteToque.getD false ≠ b2.suporteToque.getD false
      ∨ b1.fingerprintAudio.getD "" ≠ b2.fingerprintAudio.getD ""
      ∨ numeroOuNull b1.nivelBateria ≠ numeroOuNull b2.nivelBateria) :
    ∃ f1 f2, gerar r1 t1 = .ok f1 ∧ gerar r2 t2 = .ok f2 ∧ f1.fingerprint ≠ f2.fingerprint := by
  unfold gerar
  rw [hb1, hb2]
  refine ⟨_, _, rfl, rfl, ?_⟩
  intro h
  simp only [fingerprintDe, criarHash, componentesDe, Componentes.mk.injEq] at h
  obtain ⟨e1, e2, e3, e4, -, e6, e7, e8, e9, e10, e11, e12, -, -, -, -, e17, e18, e19, e20,
    e21, e22, e23, e24⟩ := h
  rcases hdif with d | d | d | d | d | d | d | d | d | d | d | d | d | d | d | d | d | d | d
  · exact d e1
  · exact d e2
  · exact d e3
  · exact d e4
  · exact d e12
  · exact d e6
  · exact d e7
  · exact d e8
  · exact d e9
  · rw [filtrar_lista_sem_objetos _ d.1, filtrar_lista_sem_objetos _ d.2.1] at e10
    exact d.2.2 e10
  · rw [filtrar_lista_sem_objetos _ d.1, filtrar_lista_sem_objetos _ d.2.1] at e11
    exact d.2.2 e11
  · exact d e17
  · exact d e18
  · exact d e19
  · exact d e20
  · exact d e21
  · exact d e22
  · exact d e23
  · exact d e24

/-- Witness for C22 (amended): two requests that differ in the time zone. -/
theorem fingerprints_distintos_witness :
    ∃ f1 f2, gerar reqFusoSaoPaulo 1700000000000 = .ok f1
      ∧ gerar reqFusoToquio 1700000000000 = .ok f2 ∧ f1.fingerprint ≠ f2.fingerprint :=
  fingerprints_distintos reqFusoSaoPaulo reqFusoToquio { fusoHorario := some "America/Sao_Paulo" }
    { fusoHorario := some "Asia/Tokyo" } 1700000000000 1700000000000 rfl rfl
    (Or.inr (Or.inr (Or.inr (Or.inr (Or.inr (Or.inr (Or.inl (by decide))))))))

/-- C22 fails as stated: a request that reports `nivelBateria: 0` and the same
request without the key differ in exactly one input of `gerar` and get the
same fingerprint id, since `0 || null` and `undefined || null` are both null;
so do the same request with `cookieHabilitado: true` and with
`cookieHabilitado: false`, both read as true. -/
theorem fingerprints_iguais :
    reqBateriaZero.headers = reqSemBateria.headers
    ∧ reqBateriaZero.body = some { nivelBateria := some 0 }
    ∧ reqSemBateria.body = some {}
    ∧ (gerar reqBateriaZero 1700000000000).map (fun f => f.fingerprint)
      = (gerar reqSemBateria 1700000000000).map (fun f => f.fingerprint)
    ∧ reqComCookies.headers = reqSemCookies.headers
    ∧ reqComCookies.body = some { cookieHabilitado := some true }
    ∧ reqSemCookies.body = some { cookieHabilitado := some false }
    ∧ (gerar reqComCookies 1700000000000).map (fun f => f.fingerprint)
      = (gerar reqSemCookies 1700000000000).map (fun f => f.fingerprint) := by
  decide

/-- The replacer array of `criarHash` reaches the objects inside the two
arrays: a property whose name is not the name of a component is not written,
so two `plugins` arrays that differ only in such a property give one id, while
two arrays of strings that differ do not. -/
theorem criarHash_objetos_aninhados :
    (gerar { ip := ""
             body := some { plugins := some [.objeto (.cons "name" (.texto "a") .vazio)] } }
        1700000000000).map (fun f => f.fingerprint)
      = (gerar { ip := ""
                 body := some { plugins := some [.objeto (.cons "name" (.texto "b") .vazio)] } }
          1700000000000).map (fun f => f.fingerprint)
    ∧ (gerar { ip := "", body := some { plugins := some [.texto "a"] } } 1700000000000).map
        (fun f => f.fingerprint)
      ≠ (gerar { ip := "", body := some { plugins := some [.texto "b"] } } 1700000000000).map
          (fun f => f.fingerprint) := by
  decide

theorem sinais_limites (c : Componentes) :
    sinaisBasicos c ≤ 3 ∧ sinaisAvancados c ≤ 3 ∧ sinaisHardware c ≤ 3 := by
  unfold sinaisBasicos sinaisAvancados sinaisHardware
  refine ⟨?_, ?_, ?_⟩ <;> split_ifs <;> omega

/-- The confidence in terms of the three counts, with the rounding written as
an integer division. -/
theorem calcularConfianca_contagens (c : Componentes) :
    calcularConfianca c
      = (200 * (sinaisBasicos c + 2 * sinaisAvancados c + 3 * sinaisHardware c) + 18) / 36 := by
  have h2 : ∀ p : Prop, ∀ [Decidable p], (if p then 2 else 0) = 2 * (if p then 1 else 0) := by
    intro p _
    split_ifs <;> rfl
  have h3 : ∀ p : Prop, ∀ [Decidable p], (if p then 3 else 0) = 3 * (if p then 1 else 0) := by
    intro p _
    split_ifs <;> rfl
  unfold calcularConfianca sinaisBasicos sinaisAvancados sinaisHardware
  simp only [h2, h3]
  congr 1
  ring

/-- Rounding half up of `100 p / 18` for a score `p` of at most 18. -/
theorem arredondamento_confianca (p : Nat) (hp : p ≤ 18) :
    (((200 * p + 18) / 36 : Nat) : ℤ) = ⌊(100 * (p : ℚ)) / 18 + 1 / 2⌋ := by
  symm
  rw [Int.floor_eq_iff]
  interval_cases p <;> norm_num

/-- The same rounding in doubles: `Math.round` of the double
`(p / 18) * 100`, two operations each rounded to a double, is the integer that
the exact quotient gives, for every score `p` of at most 18. -/
theorem arredondamento_em_duplos (p : Nat) (hp : p ≤ 18) :
    ⌊arredondar (arredondar ((p : ℚ) / 18) * 100) + 1 / 2⌋
      = (((200 * p + 18) / 36 : Nat) : ℤ) := by
  interval_cases p <;> decide!

/-- C23: for every component record, `calcularConfianca` returns
`Math.round(100 (b + 2a + 3h) / 18)`, where `b`, `a` and `h` count the basic,
advanced and hardware signals present; the result is an integer between 0 and
100, it is 0 exactly when no signal is present and 100 exactly when all nine
are. -/
theorem confianca_do_fingerprint (c : Componentes) :
    ((calcularConfianca c : Nat) : ℤ)
      = ⌊(100 * ((sinaisBasicos c + 2 * sinaisAvancados c + 3 * sinaisHardware c : Nat) : ℚ))
          / 18 + 1 / 2⌋
    ∧ calcularConfianca c ≤ 100
    ∧ (calcularConfianca c = 0
      ↔ sinaisBasicos c = 0 ∧ sinaisAvancados c = 0 ∧ sinaisHardware c = 0)
    ∧ (calcularConfianca c = 100
      ↔ sinaisBasicos c = 3 ∧ sinaisAvancados c = 3 ∧ sinaisHardware c = 3) := by
  obtain ⟨hb, ha, hh⟩ := sinais_limites c
  have hcont := calcularConfianca_contagens c
  refine ⟨?_, ?_, ?_, ?_⟩
  · rw [hcont]
    exact arredondamento_confianca _ (by omega)
  · rw [hcont]
    omega
  · rw [hcont]
    constructor
    · intro h
      omega
    · rintro ⟨h1, h2, h3⟩
      rw [h1, h2, h3]
  · rw [hcont]
    constructor
    · intro h
      omega
    · rintro ⟨h1, h2, h3⟩
      rw [h1, h2, h3]

/-- The request of the unit test `testarFingerprinting` carries a user agent, a
language and a time zone: three basic signals of weight 1 out of 18, confidence
`Math.round(16.67) = 17`. -/
theorem confianca_do_teste_unitario :
    (gerar { ip := ""
             headers := { userAgent := some "Mozilla/5.0 (Test Browser)",
                          acceptLanguage := some "pt-BR,pt;q=0.9",
                          acceptEncoding := some "gzip, deflate" }
             body := some { resolucaoTela := some "1920x1080",
                            fusoHorario := some "America/Sao_Paulo" } } 1700000000000).map
      (fun f => f.confidence) = .ok 17 := by
  decide

/-! ## Audit records -/

/-- The audit log after `criarLogAuditoria` depends on the log before only. -/
theorem criarLogAuditoria_logs (s t : Estado) (rec : LogAuditoria) (agora : Nat)
    (h : s.logsAuditoria = t.logsAuditoria) :
    (criarLogAuditoria s rec agora).logsAuditoria
      = (criarLogAuditoria t rec agora).logsAuditoria := by
  unfold criarLogAuditoria
  simp only [h]

/-- A registration that returns appended one record to the audit log. -/
theorem registrarUsuario_logs (amb : Ambiente) (s : Estado) (d : Corpo) (r : Req)
    (ch : Chamada) (res : UsuarioPublico)
    (h : (registrarUsuario amb s d r ch).2 = .ok res) :
    ∃ b, r.body = some b
      ∧ (registrarUsuario amb s d r ch).1.logsAuditoria
        = (criarLogAuditoria s
            { idUsuario := some ch.uuid, acao := "REGISTRO_USUARIO", ip := some r.ip,
              userAgent := r.headers.userAgent,
              fingerprint := some (fingerprintDe r.headers b), timestamp := ch.depois }
            ch.depois).logsAuditoria := by
  unfold registrarUsuario at h ⊢
  simp only at h ⊢
  by_cases hbot : (validarSubmissao s.honeypot d r.ip ch.entrada).2.isBot = true
  · simp only [hbot, if_true] at h
    cases h
  · simp only [hbot, if_false] at h ⊢
    cases hu : buscarUsuarioPorEmail
        { s with honeypot := (validarSubmissao s.honeypot d r.ip ch.entrada).1 } d.email with
    | some u => simp only [hu] at h; cases h
    | none =>
      simp only [hu] at h ⊢
      cases hsenha : d.senha with
      | none => simp only [hsenha] at h; cases h
      | some senha =>
        simp only [hsenha] at h ⊢
        by_cases hval : (!(validarComplexidadeSenha amb.cfg senha).valida) = true
        · simp only [hval, if_true] at h
          cases h
        · simp only [hval, if_false] at h ⊢
          cases hcr : criptografarSenha (some senha) ch.sal with
          | error e => simp only [hcr] at h; cases h
          | ok hash =>
            simp only [hcr] at h ⊢
            cases hb : r.body with
            | none => simp [gerar, hb] at h
            | some b =>
              refine ⟨b, rfl, ?_⟩
              simp only [gerar, hb, criarUsuario]
              exact criarLogAuditoria_logs _ _ _ _ rfl

/-- A login that returns appended one record to the audit log. -/
theorem concluirLogin_logs (amb : Ambiente) (s : Estado) (u : Usuario) (r : Req)
    (ch : Chamada) (res : ResultadoLogin)
    (h : (concluirLogin amb s u r ch).2 = .ok res) :
    ∃ rec : LogAuditoria, rec.acao = "LOGIN_SUCESSO" ∧ rec.idUsuario = some u.id
      ∧ rec.ip = some r.ip ∧ rec.timestamp = ch.depois
      ∧ (concluirLogin amb s u r ch).1.logsAuditoria
        = (criarLogAuditoria s rec ch.depois).logsAuditoria := by
  obtain ⟨b, an, hb, han, -, -, -, -⟩ := concluirLogin_retorna amb s u r ch res h
  have hnb : (an.isAnomalous && decide (an.riskLevel = "CRITICAL")) = false := by
    by_contra hc
    have hc' : (an.isAnomalous && decide (an.riskLevel = "CRITICAL")) = true := by
      simpa using hc
    unfold concluirLogin at h
    simp only [gerar, hb] at h
    generalize analisarTentativaLogin amb s.perfisComportamentais u.id
      { ip := r.ip, localizacao := b.localizacao, timestamp := ch.depois,
        fingerprint := fingerprintDe r.headers b, userAgent := r.headers.userAgent }
      = par at han h
    obtain ⟨perfis, x⟩ := par
    simp only at han
    subst han
    simp only [hc', if_true] at h
    cases h
  obtain ⟨token, refreshToken, -, -, hc⟩ := concluirLogin_sucesso amb s u r ch b an hb han hnb
  rw [hc]
  exact ⟨_, rfl, rfl, rfl, rfl, criarLogAuditoria_logs _ _ _ _ rfl⟩

/-- A renewal never touches the audit log. -/
theorem renovarToken_logs (amb : Ambiente) (s : Estado) (rt : Option Token) (req : Req)
    (ch : Chamada) :
    (renovarToken amb s rt req ch).1.logsAuditoria = s.logsAuditoria := by
  cases hres : (renovarTokenCorpo amb s rt req ch).2 with
  | error m => rw [renovarToken_falha amb s rt req ch m hres]
  | ok res =>
    cases rt with
    | none => simp [renovarTokenCorpo] at hres
    | some r =>
      have hren : renovarToken amb s (some r) req ch
          = ((renovarToken amb s (some r) req ch).1, .ok res) := by
        unfold renovarToken
        generalize renovarTokenCorpo amb s (some r) req ch = par at hres
        obtain ⟨s1, x⟩ := par
        simp only at hres
        subst hres
        rfl
      obtain ⟨x, y, -, -, -, -, -, -, -, hs1⟩ := renovarToken_sucesso amb s _ r req ch res hren
      rw [hs1]

theorem mensagemIPBloqueado_inicial (n : Nat) :
    (mensagemIPBloqueado n).toList.head? = some 'I' := by
  unfold mensagemIPBloqueado
  simp only [String.toList, String.data_append]
  rfl

/-- The lockout message differs from every message that does not start with
the letter I. -/
theorem mensagemIPBloqueado_ne (n : Nat) (m : String) (hm : m.toList.head? ≠ some 'I') :
    mensagemIPBloqueado n ≠ m := by
  intro h
  rw [← h] at hm
  exact hm (mensagemIPBloqueado_inicial n)

theorem calcularDistancia_erro (amb : Ambiente) (l1 l2 : Option Localizacao) (m : String)
    (h : calcularDistancia amb l1 l2 = .error m) :
    m = "Cannot read properties of undefined (reading 'lat')" := by
  unfold calcularDistancia at h
  split at h
  · split at h <;> cases h
  · cases h
    rfl

theorem somaDistancias_erro (amb : Ambiente) (loc : Option Localizacao) (m : String) :
    ∀ (ls : List (Option Localizacao)) (a : Numero),
      somaDistancias amb loc ls a = .error m →
      m = "Cannot read properties of undefined (reading 'lat')" := by
  intro ls
  induction ls with
  | nil =>
    intro a h
    cases h
  | cons l resto ih =>
    intro a h
    unfold somaDistancias at h
    cases hd : calcularDistancia amb l loc with
    | error e =>
      rw [hd] at h
      cases h
      exact calcularDistancia_erro amb l loc _ hd
    | ok d =>
      rw [hd] at h
      exact ih _ h

theorem calcularDesvioLocalizacao_erro (amb : Ambiente) (perfil : Perfil)
    (loc : Option Localizacao) (m : String)
    (h : calcularDesvioLocalizacao amb perfil loc = .error m) :
    m = "Cannot read properties of undefined (reading 'lat')" := by
  unfold calcularDesvioLocalizacao at h
  split_ifs at h
  cases hs : somaDistancias amb loc perfil.localizacoes (some 0) with
  | error e =>
    rw [hs] at h
    cases h
    exact somaDistancias_erro amb loc _ _ _ hs
  | ok t =>
    rw [hs] at h
    cases h

/-- The only exception that escapes `analisarTentativaLogin` is the TypeError of
`calcularDistancia`. -/
theorem analisarTentativaLogin_erro (amb : Ambiente) (perfis : List (String × Perfil))
    (idUsuario : String) (d : DadosLogin) (m : String)
    (h : (analisarTentativaLogin amb perfis idUsuario d).2 = .error m) :
    m = "Cannot read properties of undefined (reading 'lat')" := by
  unfold analisarTentativaLogin at h
  simp only at h
  cases hp : calcularPontuacaoAnomalias amb (obterPerfilUsuario perfis idUsuario) d with
  | error e =>
    rw [hp] at h
    cases h
    unfold calcularPontuacaoAnomalias at hp
    split_ifs at hp
    cases hl : calcularDesvioLocalizacao amb (obterPerfilUsuario perfis idUsuario)
        d.localizacao with
    | error e' =>
      rw [hl] at hp
      cases hp
      exact calcularDesvioLocalizacao_erro amb _ _ _ hl
    | ok x =>
      rw [hl] at hp
      cases hp
  | ok pont =>
    rw [hp] at h
    simp only at h
    cases hi : localizacaoIncomum amb (obterPerfilUsuario perfis idUsuario) d.localizacao with
    | error e =>
      rw [hi] at h
      cases h
      unfold localizacaoIncomum at hi
      cases hl : calcularDesvioLocalizacao amb (obterPerfilUsuario perfis idUsuario)
          d.localizacao with
      | error e' =>
        rw [hl] at hi
        cases hi
        exact calcularDesvioLocalizacao_erro amb _ _ _ hl
      | ok x =>
        rw [hl] at hi
        cases hi
    | ok inc =>
      rw [hi] at h
      simp only at h
      cases hvi : viagemImpossivel amb (obterPerfilUsuario perfis idUsuario) d with
      | error e =>
        rw [hvi] at h
        cases h
        unfold viagemImpossivel at hvi
        split at hvi
        · cases hvi
        · split at hvi
          · cases hvi
          · split at hvi
            · next hd =>
              cases hvi
              exact calcularDistancia_erro amb _ _ _ hd
            · cases hvi
            · simp only at hvi
              split_ifs at hvi
      | ok via =>
        rw [hvi] at h
        cases h

/-- The four ways in which the part of `autenticarUsuario` after the credential
check ends: the TypeError of a request without body, the TypeError of the
analysis, the block of the IP, or a result. Only the last one touches the audit
log. -/
theorem concluirLogin_casos (amb : Ambiente) (s : Estado) (u : Usuario) (r : Req)
    (ch : Chamada) :
    concluirLogin amb s u r ch
        = (s, .error "Cannot read properties of undefined (reading 'resolucaoTela')")
    ∨ concluirLogin amb s u r ch
        = (s, .error "Cannot read properties of undefined (reading 'lat')")
    ∨ ((concluirLogin amb s u r ch).2 = .error "Acesso bloqueado por segurança"
      ∧ (concluirLogin amb s u r ch).1.logsAuditoria = s.logsAuditoria
      ∧ mapaHas (concluirLogin amb s u r ch).1.ipsBloquados r.ip = true)
    ∨ ∃ res, (concluirLogin amb s u r ch).2 = .ok res := by
  cases hb : r.body with
  | none =>
    left
    unfold concluirLogin
    simp [gerar, hb]
  | some b =>
    right
    unfold concluirLogin
    simp only [gerar, hb]
    rcases han : analisarTentativaLogin amb s.perfisComportamentais u.id
      { ip := r.ip, localizacao := b.localizacao, timestamp := ch.depois,
        fingerprint := fingerprintDe r.headers b, userAgent := r.headers.userAgent }
      with ⟨perfis, x⟩
    cases x with
    | error m =>
      have hm := analisarTentativaLogin_erro amb s.perfisComportamentais u.id
        { ip := r.ip, localizacao := b.localizacao, timestamp := ch.depois,
          fingerprint := fingerprintDe r.headers b, userAgent := r.headers.userAgent } m
        (by rw [han])
      subst hm
      left
      rfl
    | ok an =>
      right
      by_cases hblk : (an.isAnomalous && decide (an.riskLevel = "CRITICAL")) = true
      · left
        simp only [hblk, if_true, bloquearIP, mapaHas, mapaGet_mapaSet_mesma, Option.isSome_some,
          and_self]
      · right
        simp only [hblk, if_false, gerarToken_payload_servico, gerarRefreshToken_payload_servico,
          criarSessao]
        exact ⟨_, rfl⟩

/-- The three ways in which `autenticarUsuario` proceeds: the lockout error, the
invalid-credentials failure, or the part after the credential check; the
lockout check leaves the audit log as it was. -/
theorem autenticarUsuario_casos (amb : Ambiente) (s : Estado) (c : Corpo) (r : Req)
    (ch : Chamada) :
    (∃ n, autenticarUsuario amb s c r ch = (s, .error (mensagemIPBloqueado n)))
    ∨ (∃ s0, s0.logsAuditoria = s.logsAuditoria
      ∧ autenticarUsuario amb s c r ch
        = (registrarTentativaFalha s0 r.ip c.email ch.depois, .error "Credenciais inválidas"))
    ∨ ∃ s0 u, s0.logsAuditoria = s.logsAuditoria
      ∧ autenticarUsuario amb s c r ch = concluirLogin amb s0 u r ch := by
  simp only [autenticarUsuario_passos]; unfold verificarTentativasLogin
  simp only
  by_cases h1 : ((mapaGet s.tentativasLogin r.ip).getD { count := 0, ultimaTentativa := 0 }).count
      ≥ maxTentativas
  · by_cases h2 : ((mapaGet s.tentativasLogin r.ip).getD
        { count := 0, ultimaTentativa := 0 }).ultimaTentativa + tempoBloqueioPadrao > ch.entrada
    · left
      simp only [h1, h2, if_true]
      exact ⟨_, rfl⟩
    · right
      simp only [h1, h2, if_true, if_false]
      cases buscarUsuarioPorEmail { s with tentativasLogin := mapaDelete s.tentativasLogin r.ip }
          c.email with
      | none => exact Or.inl ⟨{ s with tentativasLogin := mapaDelete s.tentativasLogin r.ip }, rfl, rfl⟩
      | some u =>
        simp only
        split_ifs
        · exact Or.inl ⟨{ s with tentativasLogin := mapaDelete s.tentativasLogin r.ip }, rfl, rfl⟩
        · exact Or.inr ⟨{ s with tentativasLogin := mapaDelete s.tentativasLogin r.ip }, u, rfl, rfl⟩
  · right
    simp only [h1, if_false]
    cases buscarUsuarioPorEmail s c.email with
    | none => exact Or.inl ⟨s, rfl, rfl⟩
    | some u =>
      simp only
      split_ifs
      · exact Or.inl ⟨s, rfl, rfl⟩
      · exact Or.inr ⟨s, u, rfl, rfl⟩

/-- The audit records of the service, path by path: a successful
`registrarUsuario`, a successful `autenticarUsuario`, an invalid-credentials
failure and a successful `logout` each leave the audit log as one call of
`criarLogAuditoria` on the log before leaves it, with a record carrying the
actor (user id, or the email tried), the action, the IP and the timestamp of
the call; `renovarToken` and a call of `autenticarUsuario` that blocks the IP
return with the audit log as it was. -/
theorem auditoria_por_caminho (amb : Ambiente) (s : Estado) (c : Corpo) (r : Req)
    (ch : Chamada) (token : Token) (rt : Option Token) :
    (∀ res, (registrarUsuario amb s c r ch).2 = .ok res →
      ∃ rec : LogAuditoria, rec.acao = "REGISTRO_USUARIO" ∧ rec.idUsuario = some ch.uuid
        ∧ rec.ip = some r.ip ∧ rec.timestamp = ch.depois
        ∧ (registrarUsuario amb s c r ch).1.logsAuditoria
          = (criarLogAuditoria s rec ch.depois).logsAuditoria)
    ∧ (∀ res, (autenticarUsuario amb s c r ch).2 = .ok res →
      ∃ rec : LogAuditoria, rec.acao = "LOGIN_SUCESSO" ∧ rec.idUsuario = some res.usuario.id
        ∧ rec.ip = some r.ip ∧ rec.timestamp = ch.depois
        ∧ (autenticarUsuario amb s c r ch).1.logsAuditoria
          = (criarLogAuditoria s rec ch.depois).logsAuditoria)
    ∧ ((autenticarUsuario amb s c r ch).2 = .error "Credenciais inválidas" →
      ∃ rec : LogAuditoria, rec.acao = "LOGIN_FALHA" ∧ rec.email = c.email
        ∧ rec.ip = some r.ip ∧ rec.timestamp = ch.depois
        ∧ (autenticarUsuario amb s c r ch).1.logsAuditoria
          = (criarLogAuditoria s rec ch.depois).logsAuditoria)
    ∧ (∀ b, (logout amb s token r ch).2 = .ok b →
      ∃ rec : LogAuditoria, rec.acao = "LOGOUT" ∧ rec.idUsuario = token.id
        ∧ rec.ip = some r.ip ∧ rec.timestamp = ch.entrada
        ∧ (logout amb s token r ch).1.logsAuditoria
          = (criarLogAuditoria s rec ch.entrada).logsAuditoria)
    ∧ (renovarToken amb s rt r ch).1.logsAuditoria = s.logsAuditoria
    ∧ ((autenticarUsuario amb s c r ch).2 = .error "Acesso bloqueado por segurança" →
      mapaHas (autenticarUsuario amb s c r ch).1.ipsBloquados r.ip = true
      ∧ (autenticarUsuario amb s c r ch).1.logsAuditoria = s.logsAuditoria) := by
  refine ⟨?_, ?_, ?_, ?_, renovarToken_logs amb s rt r ch, ?_⟩
  · intro res h
    obtain ⟨b, -, hlogs⟩ := registrarUsuario_logs amb s c r ch res h
    exact ⟨_, rfl, rfl, rfl, rfl, hlogs⟩
  · intro res h
    rcases autenticarUsuario_casos amb s c r ch with ⟨n, hn⟩ | ⟨s0, -, hf⟩ | ⟨s0, u, hs0, hc⟩
    · rw [hn] at h
      cases h
    · rw [hf] at h
      cases h
    · rw [hc] at h ⊢
      obtain ⟨rec, h1, h2, h3, h4, h5⟩ := concluirLogin_logs amb s0 u r ch res h
      obtain ⟨-, -, -, -, -, hus, -, -⟩ := concluirLogin_retorna amb s0 u r ch res h
      refine ⟨rec, h1, ?_, h3, h4, ?_⟩
      · rw [h2, hus]
      · rw [h5]
        exact criarLogAuditoria_logs _ _ _ _ hs0
  · intro h
    rcases autenticarUsuario_casos amb s c r ch with ⟨n, hn⟩ | ⟨s0, hs0, hf⟩ | ⟨s0, u, hs0, hc⟩
    · rw [hn] at h
      simp only [Except.error.injEq] at h
      exact absurd h (mensagemIPBloqueado_ne n _ (by decide))
    · rw [hf]
      refine ⟨{ acao := "LOGIN_FALHA", ip := some r.ip, email := c.email,
                tentativas := some (((mapaGet s0.tentativasLogin r.ip).getD
                  { count := 0, ultimaTentativa := 0 }).count + 1),
                timestamp := ch.depois }, rfl, rfl, rfl, rfl, ?_⟩
      unfold registrarTentativaFalha
      exact criarLogAuditoria_logs _ _ _ _ hs0
    · rw [hc] at h
      rcases concluirLogin_casos amb s0 u r ch with h1 | h1 | ⟨h1, -, -⟩ | ⟨res, h1⟩
      · rw [h1] at h
        simp at h
      · rw [h1] at h
        simp at h
      · rw [h1] at h
        exact absurd h (by decide)
      · rw [h1] at h
        cases h
  · intro b h
    cases hv : verificarToken amb.cfg token ch.entrada with
    | error e =>
      unfold logout logoutCorpo at h
      simp [hv] at h
    | ok p =>
      obtain ⟨s', hl, -, hs'⟩ := logout_sucesso amb s token p r ch hv
      rw [hl]
      refine ⟨{ idUsuario := token.id, acao := "LOGOUT", ip := some r.ip,
                timestamp := ch.entrada }, rfl, rfl, rfl, rfl, ?_⟩
      apply criarLogAuditoria_logs
      rcases hs' with ⟨-, hs'⟩ | ⟨x, y, -, -, hs'⟩ <;> rw [hs'] <;> rfl
  · intro h
    rcases autenticarUsuario_casos amb s c r ch with ⟨n, hn⟩ | ⟨s0, -, hf⟩ | ⟨s0, u, hs0, hc⟩
    · rw [hn] at h
      simp only [Except.error.injEq] at h
      exact absurd h (mensagemIPBloqueado_ne n _ (by decide))
    · rw [hf] at h
      simp at h
    · rw [hc] at h ⊢
      rcases concluirLogin_casos amb s0 u r ch with h1 | h1 | ⟨-, h2, h3⟩ | ⟨res, h1⟩
      · rw [h1] at h
        simp at h
      · rw [h1] at h
        simp at h
      · exact ⟨h3, h2.trans hs0⟩
      · rw [h1] at h
        cases h

set_option maxRecDepth 100000 in
/-- The registration of `a@x.com` on a fresh process appends the record of the
registration to the empty audit log. -/
theorem auditoria_do_registro :
    ∃ rec : LogAuditoria, rec.acao = "REGISTRO_USUARIO" ∧ rec.idUsuario = some "usuario-1"
      ∧ rec.ip = some "203.0.113.7" ∧ rec.timestamp = 1700000000300
      ∧ estadoRegistrado.logsAuditoria
        = (criarLogAuditoria {} rec 1700000000300).logsAuditoria :=
  (auditoria_por_caminho ambExemplo {} corpoRegistro (reqDe corpoRegistro)
    { entrada := 1700000000000, depois := 1700000000300, uuid := "usuario-1", sal := "sal-1" }
    tokenExemplo none).1
    { id := "usuario-1", email := some "a@x.com", nome := some "A" } (by decide!)

set_option maxRecDepth 100000 in
/-- C24, the behaviour of the code at the failing inputs: the renewal that
follows the first login succeeds and replaces the tokens of the session, and
the login from Tokyo stores a block for the IP, yet neither call adds a record
to the audit log: `renovarToken` and the block branch of `autenticarUsuario`
do not call `criarLogAuditoria`, which the four sibling paths of the service
do. -/
theorem renovacao_e_bloqueio_sem_registro :
    (renovarToken ambExemplo estadoLogado (some refreshExemplo) (reqDe {})
        { entrada := 1700000200000, depois := 1700000200100 }).2.toBool = true
    ∧ (renovarToken ambExemplo estadoLogado (some refreshExemplo) (reqDe {})
        { entrada := 1700000200000, depois := 1700000200100 }).1.sessoes
      ≠ estadoLogado.sessoes
    ∧ (renovarToken ambExemplo estadoLogado (some refreshExemplo) (reqDe {})
        { entrada := 1700000200000, depois := 1700000200100 }).1.logsAuditoria
      = estadoLogado.logsAuditoria
    ∧ loginToquio.2 = .error "Acesso bloqueado por segurança"
    ∧ mapaHas loginToquio.1.ipsBloquados "203.0.113.7" = true
    ∧ mapaHas estadoCincoLogins.ipsBloquados "203.0.113.7" = false
    ∧ loginToquio.1.logsAuditoria = estadoCincoLogins.logsAuditoria := by
  decide!

/-! ## Session expiry -/

/-- C27 (amended): `renovarToken` does not consult `expiresEm`. When the
refresh token verifies (its own expiry, seven days by default, has not
passed), the first active session of its user that stores it has the
fingerprint of the request, and the `expiresEm` of that session lies in the
past, the renewal succeeds: it returns a pair signed at the clock reading and
stores it in that session (the entry of the table under its id), whose
`expiresEm` and `ativa` flag stay as they were. -/
theorem renovacao_de_sessao_expirada (amb : Ambiente) (s : Estado) (rt p : Token) (req : Req)
    (ch : Chamada) (b : Corpo) (x : Sessao)
    (hv : verificarRefreshToken amb.cfg rt ch.entrada = .ok p)
    (hf : (buscarSessoesUsuario s rt.id).find?
      (fun y => decide (y.refreshToken = rt) && y.ativa) = some x)
    (hget : sessoesGet s.sessoes x.id = some x)
    (hb : req.body = some b) (hfp : fingerprintDe req.headers b = x.fingerprint)
    (hexp : x.expiresEm < ch.entrada) :
    ∃ (res : ResultadoRenovacao) (y : Sessao),
      (renovarToken amb s (some rt) req ch).2 = .ok res
      ∧ res.token.iat = ch.depois / 1000 ∧ res.refreshToken.iat = ch.depois / 1000
      ∧ sessoesGet (renovarToken amb s (some rt) req ch).1.sessoes x.id = some y
      ∧ y.token = res.token ∧ y.refreshToken = res.refreshToken
      ∧ y.ativa = true ∧ y.expiresEm < ch.entrada := by
  have hp : p = rt := (verificarRefreshToken_claims _ _ _ _ hv).1
  subst hp
  obtain ⟨hx1, hx2, hx3⟩ := buscar_find_membro s p.id _ x hf
  simp only [Bool.and_eq_true, decide_eq_true_eq] at hx3
  obtain ⟨tk, htk, htkiat⟩ : ∃ tk : Token, gerarToken amb.cfg
      { id := p.id, email := p.email, fingerprint := some (fingerprintDe req.headers b) }
      ch.depois = .ok tk ∧ tk.iat = ch.depois / 1000 :=
    ⟨_, gerarToken_payload_servico _ _ _ _ _, rfl⟩
  obtain ⟨rtk, hrtk, hrtkiat⟩ : ∃ rtk : Token, gerarRefreshToken amb.cfg
      { id := p.id, email := p.email, fingerprint := some (fingerprintDe req.headers b) }
      ch.depois = .ok rtk ∧ rtk.iat = ch.depois / 1000 :=
    ⟨_, gerarRefreshToken_payload_servico _ _ _ _ _, rfl⟩
  obtain ⟨y, hy, -, -, hat⟩ := atualizarSessao_de_membro s x
    { token := some tk, refreshToken := some rtk, atualizadaEm := some ch.depois } ch.depois hx1
  rw [hget] at hy
  cases hy
  unfold renovarToken renovarTokenCorpo
  simp only [hv, hf, gerar, hb]
  rw [if_neg (not_not.mpr hfp)]
  simp only [htk, hrtk, hat]
  refine ⟨{ token := tk, refreshToken := rtk },
    aplicarAtualizacoes x
      { token := some tk, refreshToken := some rtk, atualizadaEm := some ch.depois } ch.depois,
    rfl, htkiat, hrtkiat, ?_, rfl, rfl, hx3.2, hexp⟩
  rw [sessoesGet_sessoesSet]
  exact if_pos rfl

set_option maxRecDepth 100000 in
/-- Witness for C27 (amended): the session of the first login, renewed 25 hours
after it was created. -/
theorem renovacao_de_sessao_expirada_witness :
    ∃ (res : ResultadoRenovacao) (y : Sessao),
      (renovarToken ambExemplo estadoLogado (some refreshExemplo) (reqDe {})
        { entrada := 1700090100250, depois := 1700090100350 }).2 = .ok res
      ∧ res.token.iat = 1700090100350 / 1000 ∧ res.refreshToken.iat = 1700090100350 / 1000
      ∧ sessoesGet (renovarToken ambExemplo estadoLogado (some refreshExemplo) (reqDe {})
          { entrada := 1700090100250, depois := 1700090100350 }).1.sessoes sessaoExemplo.id
        = some y
      ∧ y.token = res.token ∧ y.refreshToken = res.refreshToken
      ∧ y.ativa = true ∧ y.expiresEm < 1700090100250 :=
  renovacao_de_sessao_expirada ambExemplo estadoLogado refreshExemplo refreshExemplo (reqDe {})
    { entrada := 1700090100250, depois := 1700090100350 } {} sessaoExemplo
    (by decide!) (by decide!) (by decide!) rfl (by decide!) (by decide)

set_option maxRecDepth 100000 in
/-- C27 fails as stated: the session of the first login has `expiresEm` 24 hours
after the login; 25 hours after the login it is still active, its refresh
token still verifies, and `renovarToken` succeeds and returns a new pair. -/
theorem renovacao_apos_expiresEm :
    estadoLogado.sessoes = [sessaoExemplo]
    ∧ sessaoExemplo.ativa = true
    ∧ sessaoExemplo.expiresEm < 1700090100250
    ∧ (renovarToken ambExemplo estadoLogado (some refreshExemplo) (reqDe {})
        { entrada := 1700090100250, depois := 1700090100350 }).2
      = .ok { token := { tokenExemplo with iat := 1700090100, exp := 1700176500 }
              refreshToken := { refreshExemplo with iat := 1700090100, exp := 1700694900 } } := by
  decide!

/-! ## Revoked tokens -/

/-- Every operation of the contract other than `limparTokensExpirados` leaves
the revoked set as it was or adds a token to it. -/
theorem aplicarChamada_tokensRevogados (s : Estado) (c : ChamadaAdaptador) (t : Token)
    (hc : c ≠ .limparTokensExpirados) (ht : t ∈ s.tokensRevogados) :
    t ∈ (aplicarChamada s c).tokensRevogados := by
  cases c with
  | limparTokensExpirados => exact absurd rfl hc
  | revogarToken token =>
    simp only [aplicarChamada, revogarToken, conjuntoAdd]
    split_ifs
    · exact ht
    · exact List.mem_append_left _ ht
  | atualizarUsuario id a agora =>
    simp only [aplicarChamada, atualizarUsuario]
    split <;> exact ht
  | atualizarSessao id a agora =>
    simp only [aplicarChamada, atualizarSessao]
    split <;> exact ht
  | ipBloqueado ip agora =>
    simp only [aplicarChamada, ipBloqueado]
    split
    · exact ht
    · split
      · split_ifs <;> exact ht
      · exact ht
  | criarUsuario _ _ => exact ht
  | deletarUsuario _ => exact ht
  | criarSessao _ _ => exact ht
  | deletarSessao _ => exact ht
  | deletarSessoesUsuario _ => exact ht
  | criarLogAuditoria _ _ => exact ht
  | bloquearIP _ _ => exact ht
  | desbloquearIP _ => exact ht
  | consulta => exact ht

/-- C26 (amended): the revoked-token set of AdaptadorMemoria only grows under
every operation of the persistence contract other than
`limparTokensExpirados`: once a token is revoked, `tokenRevogado` stays true
after any sequence of such operations. `limparTokensExpirados` deletes the
first half (rounded down) of the set in insertion order, returns that number,
and keeps every other token revoked. -/
theorem tokens_revogados_persistem (s : Estado) (chamadas : List ChamadaAdaptador) (t : Token)
    (hrev : tokenRevogado s t = true)
    (hsem : ∀ c ∈ chamadas, c ≠ .limparTokensExpirados) :
    tokenRevogado (executarAdaptador s chamadas) t = true
    ∧ (limparTokensExpirados (executarAdaptador s chamadas)).2
      = (executarAdaptador s chamadas).tokensRevogados.length / 2
    ∧ ∀ u ∈ (executarAdaptador s chamadas).tokensRevogados.drop
        ((executarAdaptador s chamadas).tokensRevogados.length / 2),
      tokenRevogado (limparTokensExpirados (executarAdaptador s chamadas)).1 u = true := by
  refine ⟨?_, rfl, ?_⟩
  · have hger : ∀ (cs : List ChamadaAdaptador) (s0 : Estado),
        t ∈ s0.tokensRevogados → (∀ c ∈ cs, c ≠ .limparTokensExpirados) →
        t ∈ (executarAdaptador s0 cs).tokensRevogados := by
      intro cs
      induction cs with
      | nil =>
        intro s0 h0 _
        exact h0
      | cons c resto ih =>
        intro s0 h0 hcs
        unfold executarAdaptador
        rw [List.foldl_cons]
        exact ih _ (aplicarChamada_tokensRevogados s0 c t (hcs c (List.mem_cons_self _ _)) h0)
          (fun c' hc' => hcs c' (List.mem_cons_of_mem _ hc'))
    have hmem : t ∈ s.tokensRevogados := by
      simpa [tokenRevogado] using hrev
    simpa [tokenRevogado] using hger chamadas s hmem hsem
  · intro u hu
    simpa [tokenRevogado, limparTokensExpirados] using hu

set_option maxRecDepth 100000 in
/-- Witness for C26 (amended): the access token revoked by the logout stays
revoked through a session creation, a session update, a second revocation, the
deletion of the sessions of the user and a read. -/
theorem tokens_revogados_persistem_witness :
    tokenRevogado (executarAdaptador estadoAposLogout
        [.criarSessao { sessaoExemplo with id := "sessao-9" } 1700000400000,
         .atualizarSessao "sessao-9" { ativa := some false } 1700000500000,
         .revogarToken refreshExemplo,
         .deletarSessoesUsuario "usuario-1",
         .consulta]) tokenExemplo = true
    ∧ (limparTokensExpirados (executarAdaptador estadoAposLogout
        [.criarSessao { sessaoExemplo with id := "sessao-9" } 1700000400000,
         .atualizarSessao "sessao-9" { ativa := some false } 1700000500000,
         .revogarToken refreshExemplo,
         .deletarSessoesUsuario "usuario-1",
         .consulta])).2
      = (executarAdaptador estadoAposLogout
        [.criarSessao { sessaoExemplo with id := "sessao-9" } 1700000400000,
         .atualizarSessao "sessao-9" { ativa := some false } 1700000500000,
         .revogarToken refreshExemplo,
         .deletarSessoesUsuario "usuario-1",
         .consulta]).tokensRevogados.length / 2
    ∧ ∀ u ∈ (executarAdaptador estadoAposLogout
        [.criarSessao { sessaoExemplo with id := "sessao-9" } 1700000400000,
         .atualizarSessao "sessao-9" { ativa := some false } 1700000500000,
         .revogarToken refreshExemplo,
         .deletarSessoesUsuario "usuario-1",
         .consulta]).tokensRevogados.drop
        ((executarAdaptador estadoAposLogout
        [.criarSessao { sessaoExemplo with id := "sessao-9" } 1700000400000,
         .atualizarSessao "sessao-9" { ativa := some false } 1700000500000,
         .revogarToken refreshExemplo,
         .deletarSessoesUsuario "usuario-1",
         .consulta]).tokensRevogados.length / 2),
      tokenRevogado (limparTokensExpirados (executarAdaptador estadoAposLogout
        [.criarSessao { sessaoExemplo with id := "sessao-9" } 1700000400000,
         .atualizarSessao "sessao-9" { ativa := some false } 1700000500000,
         .revogarToken refreshExemplo,
         .deletarSessoesUsuario "usuario-1",
         .consulta])).1 u = true :=
  tokens_revogados_persistem estadoAposLogout
    [.criarSessao { sessaoExemplo with id := "sessao-9" } 1700000400000,
     .atualizarSessao "sessao-9" { ativa := some false } 1700000500000,
     .revogarToken refreshExemplo,
     .deletarSessoesUsuario "usuario-1",
     .consulta] tokenExemplo (by decide!) (by decide)

set_option maxRecDepth 100000 in
/-- C26 fails as stated: after the logout has revoked the access token and a
second token has been revoked, one call of `limparTokensExpirados` deletes the
access token from the set: `tokenRevogado` is false for it again, a day before
the token expires. -/
theorem limpeza_remove_token_revogado :
    tokenRevogado estadoAposLogout tokenExemplo = true
    ∧ tokenRevogado (executarAdaptador estadoAposLogout
        [.revogarToken refreshExemplo]) tokenExemplo = true
    ∧ (limparTokensExpirados (executarAdaptador estadoAposLogout
        [.revogarToken refreshExemplo])).2 = 1
    ∧ tokenRevogado (executarAdaptador estadoAposLogout
        [.revogarToken refreshExemplo, .limparTokensExpirados]) tokenExemplo = false
    ∧ verificarToken ambExemplo.cfg tokenExemplo 1700000400000 = .ok tokenExemplo := by
  decide!

/-! ## Totality of the analysis -/

/-- When the attempt carries a location and so does every stored entry of the
profile, the analysis returns. -/
theorem analisarTentativaLogin_retorna (amb : Ambiente) (perfis : List (String × Perfil))
    (idUsuario : String) (d : DadosLogin) (loc : Localizacao)
    (hd : d.localizacao = some loc)
    (hperfil : ∀ l ∈ (obterPerfilUsuario perfis idUsuario).localizacoes, ∃ l', l = some l') :
    ∃ an, (analisarTentativaLogin amb perfis idUsuario d).2 = .ok an := by
  cases h : (analisarTentativaLogin amb perfis idUsuario d).2 with
  | ok an => exact ⟨an, rfl⟩
  | error m =>
    exfalso
    have hsoma : ∀ (ls : List (Option Localizacao)) (a : Numero),
        (∀ l ∈ ls, ∃ l', l = some l') →
        ∃ t, somaDistancias amb (some loc) ls a = .ok t := by
      intro ls
      induction ls with
      | nil =>
        intro a _
        exact ⟨a, rfl⟩
      | cons l resto ih =>
        intro a hl
        obtain ⟨l', hl'⟩ := hl l (List.mem_cons_self _ _)
        obtain ⟨x, hx⟩ := calcularDistancia_definidas amb l' loc
        unfold somaDistancias
        rw [hl', hx]
        exact ih _ (fun l0 h0 => hl l0 (List.mem_cons_of_mem _ h0))
    have hdesvio : ∃ x, calcularDesvioLocalizacao amb (obterPerfilUsuario perfis idUsuario)
        d.localizacao = .ok x := by
      unfold calcularDesvioLocalizacao
      split_ifs
      · exact ⟨_, rfl⟩
      · obtain ⟨t, ht⟩ := hsoma _ (some 0) hperfil
        rw [hd, ht]
        exact ⟨_, rfl⟩
    obtain ⟨x, hx⟩ := hdesvio
    obtain ⟨v, hv⟩ := viagemImpossivel_retorna amb (obterPerfilUsuario perfis idUsuario) d loc hd
    have hp : ∃ p, calcularPontuacaoAnomalias amb (obterPerfilUsuario perfis idUsuario) d
        = .ok p := by
      unfold calcularPontuacaoAnomalias
      split_ifs
      · exact ⟨_, rfl⟩
      · rw [hx]
        exact ⟨_, rfl⟩
    obtain ⟨p, hp⟩ := hp
    unfold analisarTentativaLogin at h
    simp only [hp, localizacaoIncomum, hx, hv] at h
    cases h

set_option maxRecDepth 100000 in
/-- C28, the behaviour of the code at the failing input: of three attempts of one
user on three consecutive days, the first from São Paulo, the second without
location, the third from São Paulo again, the second does not return: it throws
the TypeError of `calcularDistancia` on the undefined attempt location. When
the first attempt is the one without location, it returns (the history is
empty) and stores an undefined location, on which every later attempt
throws, located or not. -/
theorem analise_sem_localizacao_lanca :
    analisesDaSequencia ambExemplo []
        [("usuario-1", tentativaDeSaoPaulo 1700000100250),
         ("usuario-1", tentativaSemLocalizacao 1700086500250),
         ("usuario-1", tentativaDeSaoPaulo 1700172900250)]
      = [.ok { isAnomalous := false, anomalyScore := some (arredondar (3 / 10)),
               reasons := motivosDe false false true false, riskLevel := "MEDIUM" },
         .error "Cannot read properties of undefined (reading 'lat')",
         .ok { isAnomalous := false, anomalyScore := some (arredondar (3 / 10)),
               reasons := [], riskLevel := "MEDIUM" }]
    ∧ analisesDaSequencia ambExemplo []
        [("usuario-1", tentativaSemLocalizacao 1700000100250),
         ("usuario-1", tentativaDeSaoPaulo 1700086500250),
         ("usuario-1", tentativaDeSaoPaulo 1700172900250)]
      = [.ok { isAnomalous := false, anomalyScore := some (arredondar (3 / 10)),
               reasons := motivosDe false false true false, riskLevel := "MEDIUM" },
         .error "Cannot read properties of undefined (reading 'lat')",
         .error "Cannot read properties of undefined (reading 'lat')"] := by
  decide!

/-! ## Critical risk and the anomaly threshold -/

/-- C30 (amended): for every score that is a number, `obterNivelRisco` returns
'CRITICAL' only at the double 0.8 or more, hence above the anomaly threshold,
the double 0.7. So an analysis that returns a numeric score with `riskLevel`
CRITICAL has `isAnomalous = true` and leaves the behavioural profiles as they
were, and for such an analysis the block condition of `autenticarUsuario`
holds. -/
theorem critico_implica_anomalo (amb : Ambiente) (perfis : List (String × Perfil))
    (idUsuario : String) (d : DadosLogin) (an : Analise) (pontuacao : ℚ)
    (han : (analisarTentativaLogin amb perfis idUsuario d).2 = .ok an)
    (hnum : an.anomalyScore = some pontuacao)
    (hcrit : an.riskLevel = "CRITICAL") :
    (∀ q : ℚ, obterNivelRisco (some q) = "CRITICAL" →
      arredondar (8 / 10) ≤ q ∧ limiteAnomalias < q)
    ∧ an.isAnomalous = true
    ∧ (an.isAnomalous && decide (an.riskLevel = "CRITICAL")) = true
    ∧ (analisarTentativaLogin amb perfis idUsuario d).1 = perfis := by
  have hnivel : ∀ q : ℚ, obterNivelRisco (some q) = "CRITICAL" →
      arredondar (8 / 10) ≤ q ∧ limiteAnomalias < q := by
    intro q hq
    unfold obterNivelRisco Numero.menor at hq
    simp only [decide_eq_true_eq] at hq
    split_ifs at hq with h1 h2 h3
    · exact absurd hq (by decide)
    · exact absurd hq (by decide)
    · exact absurd hq (by decide)
    · have h8 : arredondar (8 / 10) ≤ q := not_lt.mp h3
      have h78 : limiteAnomalias < arredondar (8 / 10) := by decide!
      exact ⟨h8, lt_of_lt_of_le h78 h8⟩
  have hforma : an.isAnomalous = Numero.maior an.anomalyScore (some limiteAnomalias)
      ∧ an.riskLevel = obterNivelRisco an.anomalyScore := by
    unfold analisarTentativaLogin at han
    simp only at han
    cases hp : calcularPontuacaoAnomalias amb (obterPerfilUsuario perfis idUsuario) d with
    | error e => rw [hp] at han; cases han
    | ok pont =>
      rw [hp] at han
      simp only at han
      cases hi : localizacaoIncomum amb (obterPerfilUsuario perfis idUsuario) d.localizacao with
      | error e => rw [hi] at han; cases han
      | ok inc =>
        rw [hi] at han
        simp only at han
        cases hvi : viagemImpossivel amb (obterPerfilUsuario perfis idUsuario) d with
        | error e => rw [hvi] at han; cases han
        | ok via =>
          rw [hvi] at han
          simp only [Except.ok.injEq] at han
          subst han
          exact ⟨rfl, rfl⟩
  have hanom : an.isAnomalous = true := by
    rw [hforma.1, hnum]
    rw [hforma.2, hnum] at hcrit
    unfold Numero.maior
    simp only [decide_eq_true_eq]
    exact (hnivel pontuacao hcrit).2
  refine ⟨hnivel, hanom, ?_, ?_⟩
  · rw [hanom, hcrit]
    rfl
  · rw [analisarTentativaLogin_anomalo amb perfis idUsuario d an han hanom]

set_option maxRecDepth 100000 in
/-- Witness for C30 (amended): after five logins from São Paulo at 22 h, the
attempt from Tokyo at 10 h has the score 1. -/
theorem critico_implica_anomalo_witness :
    (∀ q : ℚ, obterNivelRisco (some q) = "CRITICAL" →
      arredondar (8 / 10) ≤ q ∧ limiteAnomalias < q)
    ∧ ({ isAnomalous := true, anomalyScore := some 1,
         reasons := motivosDe true true false true, riskLevel := "CRITICAL" } : Analise).isAnomalous
      = true
    ∧ (({ isAnomalous := true, anomalyScore := some 1,
          reasons := motivosDe true true false true,
          riskLevel := "CRITICAL" } : Analise).isAnomalous
        && decide (({ isAnomalous := true, anomalyScore := some 1,
                      reasons := motivosDe true true false true,
                      riskLevel := "CRITICAL" } : Analise).riskLevel = "CRITICAL")) = true
    ∧ (analisarTentativaLogin ambExemplo estadoCincoLogins.perfisComportamentais "usuario-1"
        { ip := "203.0.113.7", localizacao := corpoLoginToquio.localizacao,
          timestamp := 1700388900250, fingerprint := fingerprintExemplo,
          userAgent := some "Mozilla/5.0" }).1 = estadoCincoLogins.perfisComportamentais :=
  critico_implica_anomalo ambExemplo estadoCincoLogins.perfisComportamentais "usuario-1"
    { ip := "203.0.113.7", localizacao := corpoLoginToquio.localizacao,
      timestamp := 1700388900250, fingerprint := fingerprintExemplo,
      userAgent := some "Mozilla/5.0" }
    { isAnomalous := true, anomalyScore := some 1,
      reasons := motivosDe true true false true, riskLevel := "CRITICAL" } 1
    (by decide!) rfl rfl

set_option maxRecDepth 100000 in
/-- C30 fails as stated: the score NaN is not below any threshold, so
`obterNivelRisco(NaN)` is 'CRITICAL', and it is not above 0.7 either. After
five logins from São Paulo, an attempt whose location object has no
coordinates gets the score NaN: `riskLevel` is CRITICAL, `isAnomalous` is
false, the block condition is false, and the attempt is recorded in the
profile, whose login counter goes from 5 to 6. -/
theorem critico_sem_anomalia :
    obterNivelRisco none = "CRITICAL"
    ∧ Numero.maior none (some limiteAnomalias) = false
    ∧ (analisarTentativaLogin ambExemplo estadoCincoLogins.perfisComportamentais "usuario-1"
        { ip := "203.0.113.7", localizacao := corpoLoginSemCoordenadas.localizacao,
          timestamp := 1700432100250, fingerprint := fingerprintExemplo,
          userAgent := some "Mozilla/5.0" }).2
      = .ok { isAnomalous := false, anomalyScore := none, reasons := [],
              riskLevel := "CRITICAL" }
    ∧ (obterPerfilUsuario estadoCincoLogins.perfisComportamentais "usuario-1").contadorLogins
      = 5
    ∧ (obterPerfilUsuario
        (analisarTentativaLogin ambExemplo estadoCincoLogins.perfisComportamentais "usuario-1"
          { ip := "203.0.113.7", localizacao := corpoLoginSemCoordenadas.localizacao,
            timestamp := 1700432100250, fingerprint := fingerprintExemplo,
            userAgent := some "Mozilla/5.0" }).1 "usuario-1").contadorLogins = 6 := by
  decide!

set_option maxRecDepth 100000 in
/-- A score at the threshold of CRITICAL. After five logins from São Paulo at
4, 5, 5, 5 and 5 h, a login from Tokyo at 0 h with an unknown program has the
location deviation 1, the time deviation |0 − 4.8| / 6, and both the device and
the user agent count: in exact arithmetic the score would be
(1 + 0.8 + 0.8 + 0.6) / 4 = 0.8, in doubles it is 0.7999999999999999, below the
double 0.8. The risk level is HIGH, the attempt is anomalous, and the login
goes through with a session and without a block. -/
theorem pontuacao_no_limiar :
    (analisarTentativaLogin ambExemplo estadoCincoMadrugadas.perfisComportamentais "usuario-1"
        { ip := "203.0.113.7", localizacao := corpoLoginToquio.localizacao,
          timestamp := 1700438400250,
          fingerprint := fingerprintDe { userAgent := some "curl/8.0" } corpoLoginToquio,
          userAgent := some "curl/8.0" }).2
      = .ok { isAnomalous := true
              anomalyScore := some (7205759403792793 / 9007199254740992)
              reasons := motivosDe true true true false
              riskLevel := "HIGH" }
    ∧ (7205759403792793 / 9007199254740992 : ℚ) < arredondar (8 / 10)
    ∧ ((1 + 4 / 5 + 8 / 10 + 6 / 10) / 4 : ℚ) = 8 / 10
    ∧ loginNoLimiar.2.map (fun x => (x.sessao, x.analiseSeguranca.riskLevel))
      = .ok ("sessao-6", "HIGH")
    ∧ loginNoLimiar.1.ipsBloquados = [] := by
  decide!

/-! ## The simplified wrapper -/

/-- A renewal through the wrapper never returns: whenever the service reaches
the fingerprint of the request, the missing body throws, and the `catch` block
turns every error into the one message. -/
theorem ASCSimples_renovarToken_falha (amb : Ambiente) (s : Estado) (rt : Option Token)
    (ctx : ContextoSimples) (ch : Chamada) :
    ASCSimples.renovarToken amb s rt ctx ch = (s, .error "Token de renovação inválido") := by
  unfold ASCSimples.renovarToken
  cases hres : (renovarTokenCorpo amb s rt
      { ip := ipOuLocal ctx, headers := cabecalhosOuCliente ctx, body := none } ch).2 with
  | error m => exact renovarToken_falha amb s rt _ ch m hres
  | ok res =>
    exfalso
    unfold renovarTokenCorpo at hres
    cases rt with
    | none => simp at hres
    | some r =>
      simp only at hres
      cases hv : verificarRefreshToken amb.cfg r ch.entrada with
      | error e => simp [hv] at hres
      | ok p =>
        simp only [hv] at hres
        cases hf : (buscarSessoesUsuario s p.id).find?
            (fun x => decide (x.refreshToken = r) && x.ativa) with
        | none => simp [hf] at hres
        | some x => simp [hf, gerar] at hres

set_option maxRecDepth 100000 in
/-- C29, the behaviour of the code at the failing input: on a fresh ASCSimples
instance, `registrar` and `login` with the default context succeed and the
login returns a refresh token that an active session stores; `renovarToken`
with that token and the default context throws 'Token de renovação inválido':
the `try` block stops in `gerar`, which reads `req.body.resolucaoTela` of a
simulated request built without body. The same renewal with the body that
`login` puts in its simulated request returns a new pair. -/
theorem renovacao_pelo_wrapper :
    simplesLogin.2.map (fun x => (x.refreshToken, x.sessao)) = .ok (simplesRefresh, "sessao-1")
    ∧ (sessoesGet simplesLogin.1.sessoes "sessao-1").map
        (fun x => (x.refreshToken, x.ativa)) = some (simplesRefresh, true)
    ∧ ASCSimples.renovarToken ambExemplo simplesLogin.1 (some simplesRefresh) {}
        { entrada := 1700000200000, depois := 1700000200100 }
      = (simplesLogin.1, .error "Token de renovação inválido")
    ∧ (renovarTokenCorpo ambExemplo simplesLogin.1 (some simplesRefresh)
        { ip := "127.0.0.1", headers := { userAgent := some "ASC-Cliente" }, body := none }
        { entrada := 1700000200000, depois := 1700000200100 }).2
      = .error "Cannot read properties of undefined (reading 'resolucaoTela')"
    ∧ (renovarToken ambExemplo simplesLogin.1 (some simplesRefresh)
        { ip := "127.0.0.1", headers := { userAgent := some "ASC-Cliente" },
          body := some { email_confirmacao := some "", website := some "",
                         numero_telefone := some "" } }
        { entrada := 1700000200000, depois := 1700000200100 }).2
      = .ok { token := { simplesRefresh with iat := 1700000200, exp := 1700086600,
                                             aud := "ASC-Client" }
              refreshToken := { simplesRefresh with iat := 1700000200, exp := 1700605000 } } := by
  decide!

/-! ## Storage failures -/

/-- Over a store in which every method is available the four methods are the
ones of the service on AdaptadorMemoria. -/
theorem sem_falhas_registrar (amb : Ambiente) (s : Estado) (d : Corpo) (r : Req) (ch : Chamada) :
    registrarUsuarioCom semFalhas amb s d r ch = registrarUsuario amb s d r ch := by
  unfold registrarUsuarioCom registrarUsuario
  rfl

theorem sem_falhas_autenticar (amb : Ambiente) (s : Estado) (c : Corpo) (r : Req)
    (ch : Chamada) :
    autenticarUsuarioCom semFalhas amb s c r ch = autenticarUsuario amb s c r ch := by
  have hc : ∀ s0 u, concluirLoginCom semFalhas amb s0 u r ch = concluirLogin amb s0 u r ch := by
    intro s0 u
    unfold concluirLoginCom concluirLogin
    rfl
  unfold autenticarUsuarioCom
  simp only [autenticarUsuario_passos]
  simp only [hc]
  rfl

theorem sem_falhas_renovar (amb : Ambiente) (s : Estado) (rt : Option Token) (r : Req)
    (ch : Chamada) :
    renovarTokenCom semFalhas amb s rt r ch = renovarToken amb s rt r ch := by
  unfold renovarTokenCom renovarToken renovarTokenCorpoCom renovarTokenCorpo
  rfl

theorem sem_falhas_logout (amb : Ambiente) (s : Estado) (t : Token) (r : Req) (ch : Chamada) :
    logoutCom semFalhas amb s t r ch = logout amb s t r ch := by
  unfold logoutCom logout logoutCorpoCom logoutCorpo
  rfl

/-- A method of a store all of whose rejections carry the message `e` is
available or rejects with `e`. -/
theorem falha_unica (falhas : Falhas) (e : String)
    (huma : ∀ m e', falhas m = some e' → e' = e) (m : MetodoAdaptador) :
    falhas m = none ∨ falhas m = some e := by
  cases h : falhas m with
  | none => exact Or.inl rfl
  | some e' =>
    rw [huma _ _ h]
    exact Or.inr rfl

/-- `registrarUsuario` over a store that may reject returns what it returns on
the healthy store, or throws the rejection as it is. -/
theorem registrarUsuarioCom_resultado (falhas : Falhas) (e : String)
    (huma : ∀ m e', falhas m = some e' → e' = e)
    (amb : Ambiente) (s : Estado) (d : Corpo) (r : Req) (ch : Chamada) :
    (registrarUsuarioCom falhas amb s d r ch).2 = (registrarUsuario amb s d r ch).2
    ∨ (registrarUsuarioCom falhas amb s d r ch).2 = .error e := by
  unfold registrarUsuarioCom registrarUsuario
  simp only
  by_cases hbot : (validarSubmissao s.honeypot d r.ip ch.entrada).2.isBot = true
  · left
    simp only [hbot, if_true]
  · simp only [hbot, if_false]
    rcases falha_unica falhas e huma .buscarUsuarioPorEmail with hB | hB
    · simp only [hB]
      cases hu : buscarUsuarioPorEmail
          { s with honeypot := (validarSubmissao s.honeypot d r.ip ch.entrada).1 } d.email with
      | some u => exact Or.inl rfl
      | none =>
        simp only
        cases hsenha : d.senha with
        | none => exact Or.inl rfl
        | some senha =>
          simp only
          by_cases hval : (!(validarComplexidadeSenha amb.cfg senha).valida) = true
          · left
            simp only [hval, if_true]
          · simp only [hval, if_false]
            cases hcr : criptografarSenha (some senha) ch.sal with
            | error m => exact Or.inl rfl
            | ok hash =>
              simp only
              cases hg : gerar r ch.depois with
              | error m => exact Or.inl rfl
              | ok fp =>
                simp only
                rcases falha_unica falhas e huma .criarUsuario with hC | hC
                · simp only [hC]
                  rcases falha_unica falhas e huma .criarLogAuditoria with hL | hL
                  · simp only [hL]
                    exact Or.inl trivial
                  · simp only [hL]
                    exact Or.inr rfl
                · simp only [hC]
                  exact Or.inr rfl
    · simp only [hB]
      exact Or.inr rfl

theorem concluirLoginCom_resultado (falhas : Falhas) (e : String)
    (huma : ∀ m e', falhas m = some e' → e' = e)
    (amb : Ambiente) (s : Estado) (u : Usuario) (r : Req) (ch : Chamada) :
    (concluirLoginCom falhas amb s u r ch).2 = (concluirLogin amb s u r ch).2
    ∨ (concluirLoginCom falhas amb s u r ch).2 = .error e := by
  unfold concluirLoginCom concluirLogin
  cases hb : r.body with
  | none =>
    left
    simp [gerar, hb]
  | some b =>
    simp only [gerar, hb]
    rcases han : analisarTentativaLogin amb s.perfisComportamentais u.id
      { ip := r.ip, localizacao := b.localizacao, timestamp := ch.depois,
        fingerprint := fingerprintDe r.headers b, userAgent := r.headers.userAgent }
      with ⟨perfis, x⟩
    cases x with
    | error m => exact Or.inl rfl
    | ok an =>
      simp only
      by_cases hblk : (an.isAnomalous && decide (an.riskLevel = "CRITICAL")) = true
      · simp only [hblk, if_true]
        rcases falha_unica falhas e huma .bloquearIP with hI | hI
        · simp only [hI]
          exact Or.inl trivial
        · simp only [hI]
          exact Or.inr trivial
      · simp only [hblk, if_false, gerarToken_payload_servico, gerarRefreshToken_payload_servico]
        rcases falha_unica falhas e huma .criarSessao with hS | hS
        · simp only [hS]
          rcases falha_unica falhas e huma .criarLogAuditoria with hL | hL
          · simp only [hL]
            exact Or.inl rfl
          · simp only [hL]
            exact Or.inr rfl
        · simp only [hS]
          exact Or.inr rfl

/-- `autenticarUsuario` over a store that may reject returns or throws what it
does on the healthy store, or throws the rejection as it is. -/
theorem autenticarUsuarioCom_resultado (falhas : Falhas) (e : String)
    (huma : ∀ m e', falhas m = some e' → e' = e)
    (amb : Ambiente) (s : Estado) (c : Corpo) (r : Req) (ch : Chamada) :
    (autenticarUsuarioCom falhas amb s c r ch).2 = (autenticarUsuario amb s c r ch).2
    ∨ (autenticarUsuarioCom falhas amb s c r ch).2 = .error e := by
  unfold autenticarUsuarioCom
  simp only [autenticarUsuario_passos]
  rcases hver : verificarTentativasLogin s r.ip ch.entrada with ⟨s0, x⟩
  cases x with
  | error m => exact Or.inl rfl
  | ok v =>
    simp only
    rcases falha_unica falhas e huma .buscarUsuarioPorEmail with hB | hB
    · simp only [hB]
      have hfalha : (match registrarTentativaFalhaCom falhas s0 r.ip c.email ch.depois with
            | (s1, .error e') => ((s1, .error e') : Estado × Except String ResultadoLogin)
            | (s1, .ok ()) => (s1, .error "Credenciais inválidas")).2
              = .error "Credenciais inválidas"
          ∨ (match registrarTentativaFalhaCom falhas s0 r.ip c.email ch.depois with
            | (s1, .error e') => ((s1, .error e') : Estado × Except String ResultadoLogin)
            | (s1, .ok ()) => (s1, .error "Credenciais inválidas")).2 = .error e := by
        unfold registrarTentativaFalhaCom
        rcases falha_unica falhas e huma .criarLogAuditoria with hL | hL
        · simp only [hL]
          exact Or.inl trivial
        · simp only [hL]
          exact Or.inr trivial
      cases hu : buscarUsuarioPorEmail s0 c.email with
      | none =>
        simp only
        exact hfalha
      | some u =>
        simp only
        by_cases hs : (!verificarSenha c.senha u.hashSenha) = true
        · simp only [hs, if_true]
          exact hfalha
        · simp only [hs, if_false]
          exact concluirLoginCom_resultado falhas e huma amb s0 u r ch
    · simp only [hB]
      exact Or.inr trivial

/-- Whatever the store rejects, `renovarToken` throws nothing but its one
message. -/
theorem renovarTokenCom_erro (falhas : Falhas) (amb : Ambiente) (s : Estado)
    (rt : Option Token) (r : Req) (ch : Chamada) (m : String)
    (h : (renovarTokenCom falhas amb s rt r ch).2 = .error m) :
    m = "Token de renovação inválido" := by
  unfold renovarTokenCom at h
  rcases hc : renovarTokenCorpoCom falhas amb s rt r ch with ⟨s1, x⟩
  rw [hc] at h
  cases x with
  | ok res => cases h
  | error m' =>
    simp only [Except.error.injEq] at h
    exact h.symm

/-- Whatever the store rejects, `logout` throws nothing but its one message. -/
theorem logoutCom_erro (falhas : Falhas) (amb : Ambiente) (s : Estado) (t : Token) (r : Req)
    (ch : Chamada) (m : String) (h : (logoutCom falhas amb s t r ch).2 = .error m) :
    m = "Erro ao fazer logout" := by
  unfold logoutCom at h
  rcases hc : logoutCorpoCom falhas amb s t r ch with ⟨s1, x⟩
  rw [hc] at h
  cases x with
  | ok res => cases h
  | error m' =>
    simp only [Except.error.injEq] at h
    exact h.symm

/-- C25 (amended): over a store whose rejections all carry the message `e`,
`registrarUsuario` and `autenticarUsuario` return or throw what they do on the
healthy store or throw `e` itself, and they throw `e` when the user lookup
rejects; `renovarToken` and `logout` never throw anything but 'Token de
renovação inválido' and 'Erro ao fazer logout': when the session lookup
rejects for a token that verifies, the caller gets that one message, not `e`. -/
theorem falhas_de_armazenamento (falhas : Falhas) (e : String)
    (huma : ∀ m e', falhas m = some e' → e' = e)
    (amb : Ambiente) (s : Estado) (c : Corpo) (r : Req) (ch : Chamada) (token rt : Token) :
    ((registrarUsuarioCom falhas amb s c r ch).2 = (registrarUsuario amb s c r ch).2
      ∨ (registrarUsuarioCom falhas amb s c r ch).2 = .error e)
    ∧ ((autenticarUsuarioCom falhas amb s c r ch).2 = (autenticarUsuario amb s c r ch).2
      ∨ (autenticarUsuarioCom falhas amb s c r ch).2 = .error e)
    ∧ (falhas .buscarUsuarioPorEmail = some e →
      (validarSubmissao s.honeypot c r.ip ch.entrada).2.isBot = false →
      (registrarUsuarioCom falhas amb s c r ch).2 = .error e)
    ∧ (falhas .buscarUsuarioPorEmail = some e →
      (verificarTentativasLogin s r.ip ch.entrada).2 = .ok () →
      (autenticarUsuarioCom falhas amb s c r ch).2 = .error e)
    ∧ (∀ m, (renovarTokenCom falhas amb s (some rt) r ch).2 = .error m →
      m = "Token de renovação inválido")
    ∧ (∀ m, (logoutCom falhas amb s token r ch).2 = .error m → m = "Erro ao fazer logout")
    ∧ (falhas .buscarSessoesUsuario = some e →
      (verificarRefreshToken amb.cfg rt ch.entrada).toBool = true →
      renovarTokenCom falhas amb s (some rt) r ch = (s, .error "Token de renovação inválido"))
    ∧ (falhas .buscarSessoesUsuario = some e →
      (verificarToken amb.cfg token ch.entrada).toBool = true →
      logoutCom falhas amb s token r ch = (s, .error "Erro ao fazer logout")) := by
  refine ⟨registrarUsuarioCom_resultado falhas e huma amb s c r ch,
    autenticarUsuarioCom_resultado falhas e huma amb s c r ch, ?_, ?_,
    fun m h => renovarTokenCom_erro falhas amb s _ r ch m h,
    fun m h => logoutCom_erro falhas amb s token r ch m h, ?_, ?_⟩
  · intro hB hbot
    unfold registrarUsuarioCom
    simp only [hbot, hB]
    rfl
  · intro hB hver
    unfold autenticarUsuarioCom
    rcases hv : verificarTentativasLogin s r.ip ch.entrada with ⟨s0, x⟩
    rw [hv] at hver
    simp only at hver
    subst hver
    simp only [hB]
  · intro hS hver
    unfold renovarTokenCom renovarTokenCorpoCom
    cases hv : verificarRefreshToken amb.cfg rt ch.entrada with
    | error m => simp [hv, Except.toBool] at hver
    | ok p => simp only [hS, hv]
  · intro hS hver
    unfold logoutCom logoutCorpoCom
    cases hv : verificarToken amb.cfg token ch.entrada with
    | error m => simp [hv, Except.toBool] at hver
    | ok p => simp only [hS, hv]

set_option maxRecDepth 100000 in
/-- Witness for C25 (amended): the store that is down, in the state after the
first login: a registration and a login throw the connection error, a renewal
and a logout throw their one message. -/
theorem falhas_de_armazenamento_witness :
    (registrarUsuarioCom armazenamentoIndisponivel ambExemplo estadoLogado corpoRegistro
        (reqDe corpoRegistro) { entrada := 1700000200000, depois := 1700000200100 }).2
      = .error "ECONNREFUSED: armazenamento indisponível"
    ∧ (autenticarUsuarioCom armazenamentoIndisponivel ambExemplo estadoLogado corpoRegistro
        (reqDe corpoRegistro) { entrada := 1700000200000, depois := 1700000200100 }).2
      = .error "ECONNREFUSED: armazenamento indisponível"
    ∧ renovarTokenCom armazenamentoIndisponivel ambExemplo estadoLogado (some refreshExemplo)
        (reqDe corpoRegistro) { entrada := 1700000200000, depois := 1700000200100 }
      = (estadoLogado, .error "Token de renovação inválido")
    ∧ logoutCom armazenamentoIndisponivel ambExemplo estadoLogado tokenExemplo
        (reqDe corpoRegistro) { entrada := 1700000200000, depois := 1700000200100 }
      = (estadoLogado, .error "Erro ao fazer logout") :=
  have h := falhas_de_armazenamento armazenamentoIndisponivel
    "ECONNREFUSED: armazenamento indisponível" (fun _ _ h => (Option.some.inj h).symm)
    ambExemplo estadoLogado corpoRegistro (reqDe corpoRegistro)
    { entrada := 1700000200000, depois := 1700000200100 } tokenExemplo refreshExemplo
  ⟨h.2.2.1 rfl (by decide!), h.2.2.2.1 rfl (by decide!), h.2.2.2.2.2.2.1 rfl (by decide!),
   h.2.2.2.2.2.2.2 rfl (by decide!)⟩

set_option maxRecDepth 100000 in
/-- C25 fails as stated: in the state after the first login, with a store that
rejects every call with 'ECONNREFUSED: armazenamento indisponível', the `try`
block of `renovarToken` and the one of `logout` stop at that rejection, and the
caller gets 'Token de renovação inválido' and 'Erro ao fazer logout', the
messages of a denial; on the healthy store both calls succeed. -/
theorem falha_de_armazenamento_mascarada :
    (renovarTokenCorpoCom armazenamentoIndisponivel ambExemplo estadoLogado
        (some refreshExemplo) (reqDe {})
        { entrada := 1700000200000, depois := 1700000200100 }).2
      = .error "ECONNREFUSED: armazenamento indisponível"
    ∧ (renovarTokenCom armazenamentoIndisponivel ambExemplo estadoLogado (some refreshExemplo)
        (reqDe {}) { entrada := 1700000200000, depois := 1700000200100 }).2
      = .error "Token de renovação inválido"
    ∧ (renovarToken ambExemplo estadoLogado (some refreshExemplo)
        (reqDe {}) { entrada := 1700000200000, depois := 1700000200100 }).2.toBool = true
    ∧ (logoutCorpoCom armazenamentoIndisponivel ambExemplo estadoLogado tokenExemplo
        (reqDe {}) { entrada := 1700000200000, depois := 1700000200100 }).2
      = .error "ECONNREFUSED: armazenamento indisponível"
    ∧ (logoutCom armazenamentoIndisponivel ambExemplo estadoLogado tokenExemplo
        (reqDe {}) { entrada := 1700000200000, depois := 1700000200100 }).2
      = .error "Erro ao fazer logout"
    ∧ (logout ambExemplo estadoLogado tokenExemplo
        (reqDe {}) { entrada := 1700000200000, depois := 1700000200100 }).2 = .ok true := by
  decide!

end ASC
